import Mathlib

/-!
# µOS++ (micro-os-plus-iii): the C wrapper of the RTOS and the tick conversion

A shallow embedding of `src/cmsis-plus/rtos/os-c-wrapper.cpp`, of the parts of
`cmsis-plus/rtos/os.h` it relies on, of `src/cmsis-plus/libcpp/malloc.cpp` and of
`src/PosixIo.cpp`.

* Machine integers are natural numbers reduced modulo `2 ^ bits` where the C++
  arithmetic wraps.
* The kernel (`os::rtos`) is not part of the wrapper: a wrapper function is embedded as
  a program that issues kernel calls and continues with their replies (`Prog`), and is run
  against an arbitrary kernel (`Kernel σ`), with a log of the calls it makes.
* The classes of the kernel are not defined in the sources: where a property is about
  what they do, they are modelled from the specification.
-/

namespace os

/-! ## Machine integers -/

/-- The value of an unsigned integer of `bits` bits after a wrapping operation. -/
def wrap (bits : Nat) (n : Nat) : Nat := n % 2 ^ bits

/-- The result of `a * b` in `uint32_t` arithmetic. -/
def mul_u32 (a b : Nat) : Nat := wrap 32 (a * b)

/-! ## `os.h`: result codes and constants -/

namespace result

/-- Code `result::ok`: function completed; no error or event occurred. -/
def ok : Nat := 0
/-- Code `result::event_signal`. -/
def event_signal : Nat := 0x08
/-- Code `result::event_message`. -/
def event_message : Nat := 0x10
/-- Code `result::event_mail`. -/
def event_mail : Nat := 0x20
/-- Code `result::event_timeout`. -/
def event_timeout : Nat := 0x40
/-- Code `result::error_parameter`. -/
def error_parameter : Nat := 0x80
/-- Code `result::error_resource`: a specified resource was not available. -/
def error_resource : Nat := 0x81
/-- Code `result::error_timeout_resource`: not available within the timeout period. -/
def error_timeout_resource : Nat := 0xC1
/-- Code `result::error_isr`: not allowed in ISR context. -/
def error_isr : Nat := 0x82

end result

/-- The constant `WAIT_FOREVER` of `os.h`. -/
def WAIT_FOREVER : Nat := 0xFFFFFFFF

namespace kernel

/-- The constant `kernel::sys_tick_frequency_hz`: the RTOS kernel system timer frequency in Hz. -/
def sys_tick_frequency_hz : Nat := 1000

/-- The result of an arithmetic operation whose operands have the unsigned type of `bits`
bits. A type narrower than `int` (`uint8_t`, `uint16_t`) is promoted to `int`, of 32 bits,
before the operation, and the product and the sum of `compute_sys_ticks` then fit in
`int`; for a type of 32 bits or more the operation is done in the type and wraps modulo
`2 ^ bits`. -/
def rep_arith (bits : Nat) (n : Nat) : Nat := if bits < 32 then n else wrap bits n

/-- The template `kernel::compute_sys_ticks<Rep_T>` for an unsigned `Rep_T` of `bits` bits
(`bits = 32` for `uint32_t`) and `microsec` a value of that type: the constants are cast
to `Rep_T`, the product and the sum are made as `rep_arith` says, and the result is cast
to `uint32_t`.

    return (uint32_t) ((((microsec) * ((Rep_T) sys_tick_frequency_hz))
        + (Rep_T) 999999UL) / (Rep_T) 1000000UL);
-/
def compute_sys_ticks (bits : Nat) (microsec : Nat) : Nat :=
  wrap 32
    (rep_arith bits
        (rep_arith bits (microsec * wrap bits sys_tick_frequency_hz) + wrap bits 999999)
      / wrap bits 1000000)

end kernel

/-- The number of ticks of 1 ms that last at least `microsec` microseconds, and no more
than needed: the ceiling of `microsec / 1000`. -/
def ceil_ticks (microsec : Nat) : Nat := (microsec + 999) / 1000

/-! ## `os.h`: thread priorities and thread attributes -/

namespace thread

namespace priority

/-- Enumerator `idle`: priority: idle (lowest). -/
def idle : Int := -30
/-- Enumerator `low`: priority: low. -/
def low : Int := -20
/-- Enumerator `below_normal`: priority: below normal. -/
def below_normal : Int := -10
/-- Enumerator `normal`: priority: normal (default). -/
def normal : Int := 0
/-- Enumerator `above_normal`: priority: above normal. -/
def above_normal : Int := 10
/-- Enumerator `high`: priority: high. -/
def high : Int := 20
/-- Enumerator `realtime`: priority: realtime (highest). -/
def realtime : Int := 30
/-- Enumerator `max = 0x7F`, the last of the enumeration. -/
def max : Int := 0x7F

/-- The seven named levels of the enumeration, in the order of the source. -/
def levels : List Int := [idle, low, below_normal, normal, above_normal, high, realtime]

/-- Every enumerator of `thread::priority`, in the order of the source. -/
def all : List Int := levels ++ [max]

end priority

/-- The fields of the class `thread::Attributes`: the name held by `Named_object`, and
`stack_addr_`, `stack_size_bytes_`, `priority_`. -/
structure Attributes where
  name : Nat
  stack_addr_ : Nat
  stack_size_bytes_ : Nat
  priority_ : Int
  deriving DecidableEq, Repr

namespace Attributes

/-- Source: the constructor `Attributes::Attributes (const char* name)`:
`stack_addr_ = nullptr; stack_size_bytes_ = 0; priority_ = thread::priority::normal;`. -/
def ctor (name : Nat) : Attributes := ⟨name, 0, 0, priority.normal⟩

/-- Source: `Attributes::get_priority`: when the pointer is not null the priority is
stored through it (`some`); the result is `result::ok`. -/
def get_priority (a : Attributes) (priority : Nat) : Nat × Option Int :=
  (result.ok, if priority ≠ 0 then some a.priority_ else none)

/-- Source: `Attributes::set_priority`: `priority_ = priority; return result::ok;`. -/
def set_priority (a : Attributes) (priority : Int) : Nat × Attributes :=
  (result.ok, { a with priority_ := priority })

end Attributes

end thread

/-- The struct `current_systick_t` of `os.h`: `uint64_t ticks` and the `uint32_t` fields
`cycles`, `divisor`, `core_frequency_hz`. -/
structure current_systick_t where
  ticks : Nat
  cycles : Nat
  divisor : Nat
  core_frequency_hz : Nat
  deriving DecidableEq, Repr

/-! ## The kernel interface seen from the wrapper -/

/-- The functions of the C++ API (`os::rtos`) and of the C library that the wrapper
calls. A constructor or destructor is the operation `_ctor` or `_dtor` of its class;
the getter and the setter of an overloaded name are `_get` and `_set`. -/
inductive Op where
  | scheduler_initialize | scheduler_start | scheduler_is_started
  | scheduler_in_handler_mode
  | this_thread_yield | this_thread_thread
  | Thread_ctor | Thread_dtor | Thread_exit | Thread_join
  | Thread_sched_prio_get | Thread_sched_prio_set | Thread_wakeup
  | Mutex_ctor | Mutex_dtor | Mutex_lock | Mutex_try_lock | Mutex_timed_lock
  | Mutex_unlock | Mutex_prio_ceiling_get | Mutex_prio_ceiling_set
  | Condition_variable_ctor | Condition_variable_dtor | Condition_variable_signal
  | Condition_variable_broadcast | Condition_variable_wait
  | Condition_variable_timed_wait
  | Semaphore_ctor | Semaphore_dtor | Semaphore_post | Semaphore_wait
  | Semaphore_try_wait | Semaphore_timed_wait | Semaphore_value | Semaphore_reset
  | Memory_pool_ctor | Memory_pool_dtor | Memory_pool_alloc | Memory_pool_try_alloc
  | Memory_pool_timed_alloc | Memory_pool_free | Memory_pool_size | Memory_pool_count
  | Memory_pool_block_size | Memory_pool_is_empty | Memory_pool_is_full
  | Memory_pool_reset
  | Message_queue_ctor | Message_queue_dtor | Message_queue_send
  | Message_queue_try_send | Message_queue_timed_send | Message_queue_receive
  | Message_queue_try_receive | Message_queue_timed_receive | Message_queue_length
  | Message_queue_size | Message_queue_msg_size | Message_queue_is_empty
  | Message_queue_is_full | Message_queue_reset
  | Systick_clock_now | Systick_clock_sleep_for
  | Timer_ctor | Timer_dtor | Timer_start | Timer_stop
  | flags_set | flags_clear | flags_wait | flags_try_wait | flags_timed_wait
  | memset
  | Critical_section_ctor | Critical_section_dtor | libc_malloc | libc_free
  | trace_printf
  deriving DecidableEq, Repr

/-- The types of the C++ API whose declarations the wrapper converts a value to without
the declaration being part of the sources. -/
inductive CType where
  | event_flags_t | mempool_size_t | mqueue_size_t | semaphore_count_t
  | timer_type_t | thread_priority_t
  deriving DecidableEq, Repr

/-- The fields of the attributes records that the legacy functions assign. -/
inductive AttrField where
  | mp_pool_address | queue_address | queue_size_bytes | sm_initial_count | tm_type
  deriving DecidableEq, Repr

/-- An attributes record built by a legacy function: `Attributes attr { name }` followed
by the assignments to its fields, in order; the other fields keep what the constructor
gave them. -/
structure Attributes where
  name : Nat
  fields : List (AttrField × Int)
  deriving DecidableEq, Repr

/-- An argument of a call. -/
inductive Arg where
  /-- An integer passed by value. -/
  | val (v : Int)
  /-- An integer converted to a type of the C++ API before it is passed. -/
  | conv (ty : CType) (v : Int)
  /-- A pointer, or a reference to the object at this address. -/
  | ptr (a : Nat)
  /-- The address of a local variable of the wrapper, which receives an output. -/
  | out
  /-- An attributes record of the wrapper, passed by reference. -/
  | attr (a : Attributes)
  /-- A string literal, or `__func__`. -/
  | str (text : String)
  deriving DecidableEq, Repr

/-- One call: the function, the address of the object it is invoked on (`none` for a
function that is not a member), and the arguments. -/
structure Call where
  op : Op
  this : Option Nat
  args : List Arg
  deriving DecidableEq, Repr

/-- What a call gives back: the returned value (0 for `void`; `false` is 0 and `true` is
1), and the value it stored through the `Arg.out` pointer, if it stored one. -/
structure Reply where
  ret : Int
  out : Option Int
  deriving DecidableEq, Repr

/-- A wrapper function as a program over the kernel: it returns, or it makes a call and
continues with the reply. -/
inductive Prog (α : Type) where
  | ret (a : α)
  | call (c : Call) (k : Reply → Prog α)

namespace Prog

/-- Sequencing of programs. -/
def bind {α β : Type} : Prog α → (α → Prog β) → Prog β
  | ret a, f => f a
  | call c k, f => call c (fun r => bind (k r) f)

instance : Monad Prog where
  pure := Prog.ret
  bind := Prog.bind

end Prog

/-- The program that makes one call and returns its reply. -/
def invoke (op : Op) (this : Option Nat) (args : List Arg) : Prog Reply :=
  Prog.call ⟨op, this, args⟩ Prog.ret

/-- A kernel over states `σ`: the reply to a call and the state after it, or `none` when
the call never returns (the calling thread stays blocked). -/
abbrev Kernel (σ : Type) := Call → σ → Option (Reply × σ)

/-- What a run of a wrapper function leaves: the calls made, in order, the state of the
kernel, and the value returned (`none` when a call did not return). -/
structure Outcome (σ α : Type) where
  log : List Call
  state : σ
  ret : Option α

namespace Prog

/-- Run a program against a kernel, from a state. -/
def run {σ α : Type} (k : Kernel σ) : Prog α → σ → Outcome σ α
  | Prog.ret a, s => ⟨[], s, some a⟩
  | Prog.call c f, s =>
    match k c s with
    | none => ⟨[c], s, none⟩
    | some (r, s1) =>
      let o := run k (f r) s1
      ⟨c :: o.log, o.state, o.ret⟩

end Prog

/-! ## What the wrapper takes from headers that are not among the sources -/

/-- The constants of `cmsis_os.h`, the size of a pointer on the target and
`Systick_clock::ticks_cast`, none of which is defined in the sources: the wrapper is
embedded over any choice of them. -/
structure Env where
  osWaitForever : Nat
  osOK : Int
  osErrorISR : Int
  osEventMessage : Int
  osEventMail : Int
  sizeof_ptr : Nat
  ticks_cast : Nat → Nat

/-- Modelled from the spec: `cmsis_os.h` and the class `Systick_clock` are missing from the
sources. The status codes are those of `os.h` (`result::ok`, `result::error_isr`,
`result::event_message`, `result::event_mail`), which the wrapper converts to `osStatus`
by `static_cast`; `osWaitForever` is the sentinel "FOREVER means never expires", with the
value of `WAIT_FOREVER`; pointers have 4 bytes (single-core microcontrollers); and
`ticks_cast` is the tick clock's "conversion µs↔ticks" at the "default 1 kHz", which
`os.h` defines as `kernel::compute_sys_ticks`, here at `uint32_t`, the type of the
wrapper's `millisec * 1000u`. -/
def cmsis : Env where
  osWaitForever := WAIT_FOREVER
  osOK := result.ok
  osErrorISR := result.error_isr
  osEventMessage := result.event_message
  osEventMail := result.event_mail
  sizeof_ptr := 4
  ticks_cast := kernel.compute_sys_ticks 32

/-- A pointer parameter of a wrapper function: `val` is the pointer the caller passes,
`loc` is the address of the parameter variable itself in the callee. By the C++ rule for
`reinterpret_cast<T&> (x)`, which is `*reinterpret_cast<T*> (&x)`, the expression
`reinterpret_cast<T&> (p)` on a parameter `p` designates the object at `loc`, while
`*p` and `new (p) T` designate the object at `val`. -/
structure Param where
  val : Nat
  loc : Nat
  deriving DecidableEq, Repr

/-- The conversion `(int32_t) v`: the value is kept when it fits, and wraps otherwise. -/
def int32_cast (v : Int) : Int := (v + 2 ^ 31) % 2 ^ 32 - 2 ^ 31

/-! ## `os-c-wrapper.cpp`: the CMSIS++ C API (`os_*`)

Each function is embedded with its parameters in the order of the source. A handle
(`os_thread_t*`, `os_mutex_t*`, ...) is a `Param`; other pointers are addresses. A
function returning `void` returns `Unit`; `bool` is returned as 0 or 1. The conversions
between `result_t` and `os_result_t`, and between the other pairs of C and C++ integer
types of the same meaning, keep the value. -/

/-- Source: `return static_cast<os_result_t> (scheduler::initialize ());` -/
def os_sched_initialize : Prog Int := do
  let r ← invoke Op.scheduler_initialize none []
  return r.ret

/-- Source: `return static_cast<os_result_t> (scheduler::start ());` -/
def os_sched_start : Prog Int := do
  let r ← invoke Op.scheduler_start none []
  return r.ret

/-- Source: `return scheduler::is_started ();` -/
def os_sched_is_started : Prog Int := do
  let r ← invoke Op.scheduler_is_started none []
  return r.ret

/-- Source: `new (thread) Thread ((thread::Attributes&) *attr, (thread::func_t) func, (thread::func_args_t) args);` -/
def os_thread_create (thread : Param) (attr func args : Nat) : Prog Unit := do
  let _ ← invoke Op.Thread_ctor (some thread.val) [.ptr attr, .ptr func, .ptr args]
  return ()

/-- Source: `(reinterpret_cast<Thread&> (thread)).~Thread ();` -/
def os_thread_destroy (thread : Param) : Prog Unit := do
  let _ ← invoke Op.Thread_dtor (some thread.loc) []
  return ()

/-- Source: `(reinterpret_cast<Thread&> (thread)).exit (exit_ptr);` -/
def os_thread_exit (thread : Param) (exit_ptr : Nat) : Prog Unit := do
  let _ ← invoke Op.Thread_exit (some thread.loc) [.ptr exit_ptr]
  return ()

/-- Source: `return (reinterpret_cast<Thread&> (thread)).join (exit_ptr);` -/
def os_thread_join (thread : Param) (exit_ptr : Nat) : Prog Int := do
  let r ← invoke Op.Thread_join (some thread.loc) [.ptr exit_ptr]
  return r.ret

/-- Source: `return (reinterpret_cast<Thread&> (thread)).sched_prio ();` -/
def os_thread_get_prio (thread : Param) : Prog Int := do
  let r ← invoke Op.Thread_sched_prio_get (some thread.loc) []
  return r.ret

/-- Source: `return (reinterpret_cast<Thread&> (thread)).sched_prio (prio);` -/
def os_thread_set_prio (thread : Param) (prio : Int) : Prog Int := do
  let r ← invoke Op.Thread_sched_prio_set (some thread.loc) [.val prio]
  return r.ret

/-- Source: `return (reinterpret_cast<Thread&> (thread)).wakeup ();` -/
def os_thread_wakeup (thread : Param) : Prog Unit := do
  let _ ← invoke Op.Thread_wakeup (some thread.loc) []
  return ()

/-- Source: `new (mutex) Mutex ((mutex::Attributes&) *attr);` -/
def os_mutex_create (mutex : Param) (attr : Nat) : Prog Unit := do
  let _ ← invoke Op.Mutex_ctor (some mutex.val) [.ptr attr]
  return ()

/-- Source: `(reinterpret_cast<Mutex&> (mutex)).~Mutex ();` -/
def os_mutex_destroy (mutex : Param) : Prog Unit := do
  let _ ← invoke Op.Mutex_dtor (some mutex.loc) []
  return ()

/-- Source: `return (os_result_t) (reinterpret_cast<Mutex&> (mutex)).lock ();` -/
def os_mutex_lock (mutex : Param) : Prog Int := do
  let r ← invoke Op.Mutex_lock (some mutex.loc) []
  return r.ret

/-- Source: `return (os_result_t) (reinterpret_cast<Mutex&> (mutex)).try_lock ();` -/
def os_mutex_try_lock (mutex : Param) : Prog Int := do
  let r ← invoke Op.Mutex_try_lock (some mutex.loc) []
  return r.ret

/-- Source: `return (os_result_t) (reinterpret_cast<Mutex&> (mutex)).timed_lock (ticks);` -/
def os_mutex_timed_lock (mutex : Param) (ticks : Nat) : Prog Int := do
  let r ← invoke Op.Mutex_timed_lock (some mutex.loc) [.val ticks]
  return r.ret

/-- Source: `return (os_result_t) (reinterpret_cast<Mutex&> (mutex)).unlock ();` -/
def os_mutex_unlock (mutex : Param) : Prog Int := do
  let r ← invoke Op.Mutex_unlock (some mutex.loc) []
  return r.ret

/-- Source: `return (os_thread_prio_t) (reinterpret_cast<Mutex&> (mutex)).prio_ceiling ();` -/
def os_get_mutex_prio_ceiling (mutex : Param) : Prog Int := do
  let r ← invoke Op.Mutex_prio_ceiling_get (some mutex.loc) []
  return r.ret

/-- Source: `return (os_result_t) (reinterpret_cast<Mutex&> (mutex)).prio_ceiling (prio_ceiling, old_prio_ceiling);` -/
def os_set_mutex_prio_ceiling (mutex : Param) (prio_ceiling : Int) (old_prio_ceiling : Nat) : Prog Int := do
  let r ← invoke Op.Mutex_prio_ceiling_set (some mutex.loc) [.val prio_ceiling, .ptr old_prio_ceiling]
  return r.ret

/-- Source: `new (condvar) Condition_variable ((condvar::Attributes&) *attr);` -/
def os_condvar_create (condvar : Param) (attr : Nat) : Prog Unit := do
  let _ ← invoke Op.Condition_variable_ctor (some condvar.val) [.ptr attr]
  return ()

/-- Source: `(reinterpret_cast<Condition_variable&> (condvar)).~Condition_variable ();` -/
def os_condvar_destroy (condvar : Param) : Prog Unit := do
  let _ ← invoke Op.Condition_variable_dtor (some condvar.loc) []
  return ()

/-- Source: `return (os_result_t) (reinterpret_cast<Condition_variable&> (condvar)).signal ();` -/
def os_condvar_signal (condvar : Param) : Prog Int := do
  let r ← invoke Op.Condition_variable_signal (some condvar.loc) []
  return r.ret

/-- Source: `return (os_result_t) (reinterpret_cast<Condition_variable&> (condvar)).broadcast ();` -/
def os_condvar_broadcast (condvar : Param) : Prog Int := do
  let r ← invoke Op.Condition_variable_broadcast (some condvar.loc) []
  return r.ret

/-- Source: `return (os_result_t) (reinterpret_cast<Condition_variable&> (condvar)).wait ((Mutex&) *mutex);` -/
def os_condvar_wait (condvar mutex : Param) : Prog Int := do
  let r ← invoke Op.Condition_variable_wait (some condvar.loc) [.ptr mutex.val]
  return r.ret

/-- Source: `return (os_result_t) (reinterpret_cast<Condition_variable&> (condvar)).timed_wait ((Mutex&) *mutex, ticks);` -/
def os_condvar_timed_wait (condvar mutex : Param) (ticks : Nat) : Prog Int := do
  let r ← invoke Op.Condition_variable_timed_wait (some condvar.loc) [.ptr mutex.val, .val ticks]
  return r.ret

/-- Source: `new (semaphore) Semaphore ((semaphore::Attributes&) *attr);` -/
def os_semaphore_create (semaphore : Param) (attr : Nat) : Prog Unit := do
  let _ ← invoke Op.Semaphore_ctor (some semaphore.val) [.ptr attr]
  return ()

/-- Source: `(reinterpret_cast<Semaphore&> (semaphore)).~Semaphore ();` -/
def os_semaphore_destroy (semaphore : Param) : Prog Unit := do
  let _ ← invoke Op.Semaphore_dtor (some semaphore.loc) []
  return ()

/-- Source: `return (os_result_t) (reinterpret_cast<Semaphore&> (semaphore)).post ();` -/
def os_semaphore_post (semaphore : Param) : Prog Int := do
  let r ← invoke Op.Semaphore_post (some semaphore.loc) []
  return r.ret

/-- Source: `return (os_result_t) (reinterpret_cast<Semaphore&> (semaphore)).wait ();` -/
def os_semaphore_wait (semaphore : Param) : Prog Int := do
  let r ← invoke Op.Semaphore_wait (some semaphore.loc) []
  return r.ret

/-- Source: `return (os_result_t) (reinterpret_cast<Semaphore&> (semaphore)).try_wait ();` -/
def os_semaphore_try_wait (semaphore : Param) : Prog Int := do
  let r ← invoke Op.Semaphore_try_wait (some semaphore.loc) []
  return r.ret

/-- Source: `return (os_result_t) (reinterpret_cast<Semaphore&> (semaphore)).timed_wait (ticks);` -/
def os_semaphore_timed_wait (semaphore : Param) (ticks : Nat) : Prog Int := do
  let r ← invoke Op.Semaphore_timed_wait (some semaphore.loc) [.val ticks]
  return r.ret

/-- Source: `return (os_semaphore_count_t) (reinterpret_cast<Semaphore&> (semaphore)).value ();` -/
def os_semaphore_get_value (semaphore : Param) : Prog Int := do
  let r ← invoke Op.Semaphore_value (some semaphore.loc) []
  return r.ret

/-- Source: `return (os_result_t) (reinterpret_cast<Semaphore&> (semaphore)).reset ();` -/
def os_semaphore_reset (semaphore : Param) : Prog Int := do
  let r ← invoke Op.Semaphore_reset (some semaphore.loc) []
  return r.ret

/-- Source: `new (mempool) Memory_pool ((mempool::Attributes&) *attr, blocks, block_size_bytes);` -/
def os_mempool_create (mempool : Param) (attr blocks block_size_bytes : Nat) : Prog Unit := do
  let _ ← invoke Op.Memory_pool_ctor (some mempool.val) [.ptr attr, .val blocks, .val block_size_bytes]
  return ()

/-- Source: `(reinterpret_cast<Memory_pool&> (mempool)).~Memory_pool ();` -/
def os_mempool_destroy (mempool : Param) : Prog Unit := do
  let _ ← invoke Op.Memory_pool_dtor (some mempool.loc) []
  return ()

/-- Source: `return (reinterpret_cast<Memory_pool&> (mempool)).alloc ();` -/
def os_mempool_alloc (mempool : Param) : Prog Int := do
  let r ← invoke Op.Memory_pool_alloc (some mempool.loc) []
  return r.ret

/-- Source: `return (reinterpret_cast<Memory_pool&> (mempool)).try_alloc ();` -/
def os_mempool_try_alloc (mempool : Param) : Prog Int := do
  let r ← invoke Op.Memory_pool_try_alloc (some mempool.loc) []
  return r.ret

/-- Source: `return (reinterpret_cast<Memory_pool&> (mempool)).timed_alloc (ticks);` -/
def os_mempool_timed_alloc (mempool : Param) (ticks : Nat) : Prog Int := do
  let r ← invoke Op.Memory_pool_timed_alloc (some mempool.loc) [.val ticks]
  return r.ret

/-- Source: `return (os_result_t) (reinterpret_cast<Memory_pool&> (mempool)).free (block);` -/
def os_mempool_free (mempool : Param) (block : Nat) : Prog Int := do
  let r ← invoke Op.Memory_pool_free (some mempool.loc) [.ptr block]
  return r.ret

/-- Source: `return (reinterpret_cast<Memory_pool&> (mempool)).size ();` -/
def os_mempool_get_size (mempool : Param) : Prog Int := do
  let r ← invoke Op.Memory_pool_size (some mempool.loc) []
  return r.ret

/-- Source: `return (reinterpret_cast<Memory_pool&> (mempool)).count ();` -/
def os_mempool_get_count (mempool : Param) : Prog Int := do
  let r ← invoke Op.Memory_pool_count (some mempool.loc) []
  return r.ret

/-- Source: `return (reinterpret_cast<Memory_pool&> (mempool)).block_size ();` -/
def os_mempool_get_block_size (mempool : Param) : Prog Int := do
  let r ← invoke Op.Memory_pool_block_size (some mempool.loc) []
  return r.ret

/-- Source: `return (reinterpret_cast<Memory_pool&> (mempool)).is_empty ();` -/
def os_mempool_is_empty (mempool : Param) : Prog Int := do
  let r ← invoke Op.Memory_pool_is_empty (some mempool.loc) []
  return r.ret

/-- Source: `return (reinterpret_cast<Memory_pool&> (mempool)).is_full ();` -/
def os_mempool_is_full (mempool : Param) : Prog Int := do
  let r ← invoke Op.Memory_pool_is_full (some mempool.loc) []
  return r.ret

/-- Source: `return (os_result_t) (reinterpret_cast<Memory_pool&> (mempool)).reset ();` -/
def os_mempool_reset (mempool : Param) : Prog Int := do
  let r ← invoke Op.Memory_pool_reset (some mempool.loc) []
  return r.ret

/-- Source: `new (mqueue) Message_queue ((mqueue::Attributes&) *attr, msgs, msg_size_bytes);` -/
def os_mqueue_create (mqueue : Param) (attr msgs msg_size_bytes : Nat) : Prog Unit := do
  let _ ← invoke Op.Message_queue_ctor (some mqueue.val) [.ptr attr, .val msgs, .val msg_size_bytes]
  return ()

/-- Source: `(reinterpret_cast<Message_queue&> (mqueue)).~Message_queue ();` -/
def os_mqueue_destroy (mqueue : Param) : Prog Unit := do
  let _ ← invoke Op.Message_queue_dtor (some mqueue.loc) []
  return ()

/-- Source: `return (os_result_t) (reinterpret_cast<Message_queue&> (mqueue)).send (msg, nbytes, mprio);` -/
def os_mqueue_send (mqueue : Param) (msg nbytes mprio : Nat) : Prog Int := do
  let r ← invoke Op.Message_queue_send (some mqueue.loc) [.ptr msg, .val nbytes, .val mprio]
  return r.ret

/-- Source: `return (os_result_t) (reinterpret_cast<Message_queue&> (mqueue)).try_send (msg, nbytes, mprio);` -/
def os_mqueue_try_send (mqueue : Param) (msg nbytes mprio : Nat) : Prog Int := do
  let r ← invoke Op.Message_queue_try_send (some mqueue.loc) [.ptr msg, .val nbytes, .val mprio]
  return r.ret

/-- Source: `return (os_result_t) (reinterpret_cast<Message_queue&> (mqueue)).timed_send (msg, nbytes, mprio, ticks);` -/
def os_mqueue_timed_send (mqueue : Param) (msg nbytes mprio ticks : Nat) : Prog Int := do
  let r ← invoke Op.Message_queue_timed_send (some mqueue.loc) [.ptr msg, .val nbytes, .val mprio, .val ticks]
  return r.ret

/-- Source: `return (os_result_t) (reinterpret_cast<Message_queue&> (mqueue)).receive (msg, nbytes, mprio);` -/
def os_mqueue_receive (mqueue : Param) (msg nbytes mprio : Nat) : Prog Int := do
  let r ← invoke Op.Message_queue_receive (some mqueue.loc) [.ptr msg, .val nbytes, .ptr mprio]
  return r.ret

/-- Source: `return (os_result_t) (reinterpret_cast<Message_queue&> (mqueue)).try_receive (msg, nbytes, mprio);` -/
def os_mqueue_try_receive (mqueue : Param) (msg nbytes mprio : Nat) : Prog Int := do
  let r ← invoke Op.Message_queue_try_receive (some mqueue.loc) [.ptr msg, .val nbytes, .ptr mprio]
  return r.ret

/-- Source: `return (os_result_t) (reinterpret_cast<Message_queue&> (mqueue)).timed_receive (msg, nbytes, mprio, ticks);` -/
def os_mqueue_timed_receive (mqueue : Param) (msg nbytes mprio ticks : Nat) : Prog Int := do
  let r ← invoke Op.Message_queue_timed_receive (some mqueue.loc) [.ptr msg, .val nbytes, .ptr mprio, .val ticks]
  return r.ret

/-- Source: `return (reinterpret_cast<Message_queue&> (mqueue)).length ();` -/
def os_mqueue_get_length (mqueue : Param) : Prog Int := do
  let r ← invoke Op.Message_queue_length (some mqueue.loc) []
  return r.ret

/-- Source: `return (reinterpret_cast<Message_queue&> (mqueue)).size ();` -/
def os_mqueue_get_size (mqueue : Param) : Prog Int := do
  let r ← invoke Op.Message_queue_size (some mqueue.loc) []
  return r.ret

/-- Source: `return (reinterpret_cast<Message_queue&> (mqueue)).msg_size ();` -/
def os_mqueue_get_msg_size (mqueue : Param) : Prog Int := do
  let r ← invoke Op.Message_queue_msg_size (some mqueue.loc) []
  return r.ret

/-- Source: `return (reinterpret_cast<Message_queue&> (mqueue)).is_empty ();` -/
def os_mqueue_get_is_empty (mqueue : Param) : Prog Int := do
  let r ← invoke Op.Message_queue_is_empty (some mqueue.loc) []
  return r.ret

/-- Source: `return (reinterpret_cast<Message_queue&> (mqueue)).is_full ();` -/
def os_mqueue_get_is_full (mqueue : Param) : Prog Int := do
  let r ← invoke Op.Message_queue_is_full (some mqueue.loc) []
  return r.ret

/-- Source: `return (os_result_t) (reinterpret_cast<Message_queue&> (mqueue)).reset ();` -/
def os_mqueue_reset (mqueue : Param) : Prog Int := do
  let r ← invoke Op.Message_queue_reset (some mqueue.loc) []
  return r.ret

/-! ## `os-c-wrapper.cpp`: the legacy CMSIS RTOS API (`os*`)

The constants and `ticks_cast` come from `env`. A local variable that the source leaves
uninitialised (`osEvent event`, `uint32_t msg`, `void* msg`) is a parameter holding its
indeterminate initial content; it stands before the parameters of the source. -/

/-- The struct `osEvent`, laid out as `event_t` of `os.h`: the status, the union `value`
(`v`, `p` or `signals`, one 32-bit word) and the union `def`. -/
structure osEvent where
  status : Int
  value : Int
  def_ : Int
  deriving DecidableEq, Repr

/-- What `osPoolCreate` reads of `*pool_def`; `data` is the address `&pool_def->data`. -/
structure osPoolDef_t where
  name : Nat
  pool_sz : Nat
  item_sz : Nat
  pool : Nat
  data : Nat
  deriving DecidableEq, Repr

/-- What `osMessageCreate` reads of `*queue_def`; `data` is the address
`&queue_def->data`. -/
structure osMessageQDef_t where
  name : Nat
  items : Nat
  item_sz : Nat
  queue : Nat
  queue_sz : Nat
  data : Nat
  deriving DecidableEq, Repr

/-- What `osMailCreate` reads of `*queue_def`; `data_pool` and `data_queue` are the
addresses `&queue_def->data->pool` and `&queue_def->data->queue`, and `data` is the
address `&queue_def->data`. -/
structure osMailQDef_t where
  name : Nat
  pool_sz : Nat
  pool_item_sz : Nat
  pool : Nat
  items : Nat
  queue_item_sz : Nat
  queue : Nat
  queue_sz : Nat
  data_pool : Nat
  data_queue : Nat
  data : Nat
  deriving DecidableEq, Repr

/-- A parameter of type `osMailQId`: besides the pointer and the address of the
parameter, the addresses `&queue_id->pool` and `&queue_id->queue` of the two members of
the struct it points to. -/
structure osMailQId extends Param where
  pool : Nat
  queue : Nat
  deriving DecidableEq, Repr

/-- Source: `osKernelInitialize`, lines 485 to 494. -/
def osKernelInitialize (env : Env) : Prog Int := do
  let h ← invoke Op.scheduler_in_handler_mode none []
  if h.ret ≠ 0 then
    return env.osErrorISR
  else
    let _ ← invoke Op.scheduler_initialize none []
    return env.osOK

/-- Source: `osThreadYield`, lines 613 to 624. -/
def osThreadYield (env : Env) : Prog Int := do
  let h ← invoke Op.scheduler_in_handler_mode none []
  if h.ret ≠ 0 then
    return env.osErrorISR
  else
    let _ ← invoke Op.this_thread_yield none []
    return env.osOK

/-- Source: `osDelay`:
`return static_cast<osStatus> (Systick_clock::sleep_for (Systick_clock::ticks_cast (millisec * 1000u)));` -/
def osDelay (env : Env) (millisec : Nat) : Prog Int := do
  let r ← invoke Op.Systick_clock_sleep_for none
    [.val (env.ticks_cast (mul_u32 millisec 1000))]
  return r.ret

/-- Source: `osWait`:
`result_t res = Systick_clock::sleep_for (Systick_clock::ticks_cast (millisec));`
then `event.status = static_cast<osStatus> (res); return event;` -/
def osWait (env : Env) (event : osEvent) (millisec : Nat) : Prog osEvent := do
  let res ← invoke Op.Systick_clock_sleep_for none [.val (env.ticks_cast millisec)]
  return { event with status := res.ret }

/-- Source: `osTimerStart`:
`return static_cast<osStatus> ((reinterpret_cast<Timer&> (timer_id)).start (Systick_clock::ticks_cast (millisec)));` -/
def osTimerStart (env : Env) (timer_id : Param) (millisec : Nat) : Prog Int := do
  let r ← invoke Op.Timer_start (some timer_id.loc) [.val (env.ticks_cast millisec)]
  return r.ret

/-- Source: `osSignalWait`, lines 833 to 857. The flags functions store the flags through
`(event_flags_t*) &event.value.signals`. -/
def osSignalWait (env : Env) (event : osEvent) (signals : Int) (millisec : Nat) :
    Prog osEvent := do
  let res ←
    if millisec = env.osWaitForever then
      invoke Op.flags_wait none [.conv .event_flags_t signals, .out]
    else if millisec = 0 then
      invoke Op.flags_try_wait none [.conv .event_flags_t signals, .out]
    else
      invoke Op.flags_timed_wait none
        [.conv .event_flags_t signals, .out, .val (env.ticks_cast (mul_u32 millisec 1000))]
  return { event with status := res.ret, value := res.out.getD event.value }

/-- Source: `osMutexWait`, lines 895 to 915. -/
def osMutexWait (env : Env) (mutex_id : Param) (millisec : Nat) : Prog Int := do
  let status ←
    if millisec = env.osWaitForever then
      invoke Op.Mutex_lock (some mutex_id.loc) []
    else if millisec = 0 then
      invoke Op.Mutex_try_lock (some mutex_id.loc) []
    else
      invoke Op.Mutex_timed_lock (some mutex_id.loc)
        [.val (env.ticks_cast (mul_u32 millisec 1000))]
  return status.ret

/-- Source: `osSemaphoreWait`, lines 998 to 1016: the result of the wait is dropped, and
`(int32_t) (reinterpret_cast<Semaphore&> (semaphore_id)).value ()` is returned. -/
def osSemaphoreWait (env : Env) (semaphore_id : Param) (millisec : Nat) : Prog Int := do
  let _ ←
    if millisec = env.osWaitForever then
      invoke Op.Semaphore_wait (some semaphore_id.loc) []
    else if millisec = 0 then
      invoke Op.Semaphore_try_wait (some semaphore_id.loc) []
    else
      invoke Op.Semaphore_timed_wait (some semaphore_id.loc)
        [.val (env.ticks_cast (mul_u32 millisec 1000))]
  let v ← invoke Op.Semaphore_value (some semaphore_id.loc) []
  return int32_cast v.ret

/-- Source: `osPoolCreate`, lines 1060 to 1068: the record `attr` is built and given the
pool address, and the constructor called is
`Memory_pool ((mempool::size_t) pool_def->pool_sz, (mempool::size_t) pool_def->item_sz)`.
Placement `new` returns the address of the storage. -/
def osPoolCreate (pool_def : osPoolDef_t) : Prog Nat := do
  let _attr : Attributes := ⟨pool_def.name, [(.mp_pool_address, pool_def.pool)]⟩
  let _ ← invoke Op.Memory_pool_ctor (some pool_def.data)
    [.conv .mempool_size_t pool_def.pool_sz, .conv .mempool_size_t pool_def.item_sz]
  return pool_def.data

/-- Source: `osMessageCreate`, lines 1126 to 1138: the constructor called is
`Message_queue (attr, (mqueue::size_t) queue_def->items, (mqueue::size_t) queue_def->item_sz)`.
The parameter `thread_id` is unused. -/
def osMessageCreate (queue_def : osMessageQDef_t) (_thread_id : Param) : Prog Nat := do
  let attr : Attributes :=
    ⟨queue_def.name,
      [(.queue_address, queue_def.queue), (.queue_size_bytes, queue_def.queue_sz)]⟩
  let _ ← invoke Op.Message_queue_ctor (some queue_def.data)
    [.attr attr, .conv .mqueue_size_t queue_def.items, .conv .mqueue_size_t queue_def.item_sz]
  return queue_def.data

/-- Source: `osMessagePut`, lines 1156 to 1180: the message pointer passed is
`(const char*) info`, the size is `sizeof(uint32_t)`, and the priority is 0. -/
def osMessagePut (env : Env) (queue_id : Param) (info millisec : Nat) : Prog Int := do
  let r ←
    if millisec = env.osWaitForever then
      invoke Op.Message_queue_send (some queue_id.loc) [.ptr info, .val 4, .val 0]
    else if millisec = 0 then
      invoke Op.Message_queue_try_send (some queue_id.loc) [.ptr info, .val 4, .val 0]
    else
      invoke Op.Message_queue_timed_send (some queue_id.loc)
        [.ptr info, .val 4, .val 0, .val (env.ticks_cast (mul_u32 millisec 1000))]
  return r.ret

/-- Source: `osMessageGet`, lines 1203 to 1235: the buffer passed is `(char*) &msg`, the
size is `sizeof(uint32_t)`, the priority pointer is `NULL`; then
`event.status = static_cast<osStatus> (res); event.value.v = msg;`. -/
def osMessageGet (env : Env) (event : osEvent) (msg : Int) (queue_id : Param)
    (millisec : Nat) : Prog osEvent := do
  let res ←
    if millisec = env.osWaitForever then
      invoke Op.Message_queue_receive (some queue_id.loc) [.out, .val 4, .ptr 0]
    else if millisec = 0 then
      invoke Op.Message_queue_try_receive (some queue_id.loc) [.out, .val 4, .ptr 0]
    else
      invoke Op.Message_queue_timed_receive (some queue_id.loc)
        [.out, .val 4, .ptr 0, .val (env.ticks_cast (mul_u32 millisec 1000))]
  return { event with status := res.ret, value := res.out.getD msg }

/-- Source: `osMailCreate`, lines 1252 to 1272: `pool_attr` is built and given the pool
address, and the pool is constructed by
`Memory_pool ((mempool::size_t) queue_def->pool_sz, (mempool::size_t) queue_def->pool_item_sz)`;
the queue is constructed by `Message_queue (queue_attr, ...)`; the function returns
`(osMailQId) (&queue_def->data)`. -/
def osMailCreate (queue_def : osMailQDef_t) (_thread_id : Param) : Prog Nat := do
  let _pool_attr : Attributes := ⟨queue_def.name, [(.mp_pool_address, queue_def.pool)]⟩
  let _ ← invoke Op.Memory_pool_ctor (some queue_def.data_pool)
    [.conv .mempool_size_t queue_def.pool_sz, .conv .mempool_size_t queue_def.pool_item_sz]
  let queue_attr : Attributes :=
    ⟨queue_def.name,
      [(.queue_address, queue_def.queue), (.queue_size_bytes, queue_def.queue_sz)]⟩
  let _ ← invoke Op.Message_queue_ctor (some queue_def.data_queue)
    [.attr queue_attr, .conv .mqueue_size_t queue_def.items,
      .conv .mqueue_size_t queue_def.queue_item_sz]
  return queue_def.data

/-- Source: `osMailAlloc`, lines 1297 to 1319, on
`reinterpret_cast<Memory_pool&> (queue_id->pool)`. -/
def osMailAlloc (env : Env) (queue_id : osMailQId) (millisec : Nat) : Prog Int := do
  let r ←
    if millisec = env.osWaitForever then
      invoke Op.Memory_pool_alloc (some queue_id.pool) []
    else if millisec = 0 then
      invoke Op.Memory_pool_try_alloc (some queue_id.pool) []
    else
      invoke Op.Memory_pool_timed_alloc (some queue_id.pool)
        [.val (env.ticks_cast (mul_u32 millisec 1000))]
  return r.ret

/-- Source: `osMailGet`, lines 1398 to 1428, on
`reinterpret_cast<Message_queue&> (queue_id)`: the buffer passed is `(char*) &msg`, the
size is `sizeof(void*)`; a status `osEventMessage` becomes `osEventMail`; then
`event.value.p = msg`. -/
def osMailGet (env : Env) (event : osEvent) (msg : Int) (queue_id : osMailQId)
    (millisec : Nat) : Prog osEvent := do
  let res ←
    if millisec = env.osWaitForever then
      invoke Op.Message_queue_receive (some queue_id.loc)
        [.out, .val env.sizeof_ptr, .ptr 0]
    else if millisec = 0 then
      invoke Op.Message_queue_try_receive (some queue_id.loc)
        [.out, .val env.sizeof_ptr, .ptr 0]
    else
      invoke Op.Message_queue_timed_receive (some queue_id.loc)
        [.out, .val env.sizeof_ptr, .ptr 0, .val (env.ticks_cast (mul_u32 millisec 1000))]
  let status := if res.ret = env.osEventMessage then env.osEventMail else res.ret
  return { event with status := status, value := res.out.getD msg }

/-- Source: `osKernelStart`: `return static_cast<osStatus> (scheduler::start ());` -/
def osKernelStart : Prog Int := do
  let r ← invoke Op.scheduler_start none []
  return r.ret

/-- Source: `osThreadSetPriority`:
`thread::priority_t prio = static_cast<thread::priority_t> (priority);` then
`return static_cast<osStatus> ((reinterpret_cast<Thread&> (thread_id)).sched_prio (prio));` -/
def osThreadSetPriority (thread_id : Param) (priority : Int) : Prog Int := do
  let r ← invoke Op.Thread_sched_prio_set (some thread_id.loc)
    [.conv .thread_priority_t priority]
  return r.ret

/-- Source: `osThreadGetPriority`:
`thread::priority_t prio = (reinterpret_cast<Thread&> (thread_id)).sched_prio ();` then
`return static_cast<osPriority> (prio);` -/
def osThreadGetPriority (thread_id : Param) : Prog Int := do
  let prio ← invoke Op.Thread_sched_prio_get (some thread_id.loc) []
  return prio.ret

/-- Source: `osTimerStop`:
`return static_cast<osStatus> ((reinterpret_cast<Timer&> (timer_id)).stop ());` -/
def osTimerStop (timer_id : Param) : Prog Int := do
  let r ← invoke Op.Timer_stop (some timer_id.loc) []
  return r.ret

/-- Source: `osMutexRelease`:
`status = (reinterpret_cast<Mutex&> (mutex_id)).unlock (); return static_cast<osStatus> (status);` -/
def osMutexRelease (mutex_id : Param) : Prog Int := do
  let status ← invoke Op.Mutex_unlock (some mutex_id.loc) []
  return status.ret

/-- Source: `osSemaphoreRelease`:
`return static_cast<osStatus> ((reinterpret_cast<Semaphore&> (semaphore_id)).post ());` -/
def osSemaphoreRelease (semaphore_id : Param) : Prog Int := do
  let r ← invoke Op.Semaphore_post (some semaphore_id.loc) []
  return r.ret

/-- Source: `osPoolAlloc`:
`return (reinterpret_cast<Memory_pool&> (pool_id)).try_alloc ();` -/
def osPoolAlloc (pool_id : Param) : Prog Int := do
  let r ← invoke Op.Memory_pool_try_alloc (some pool_id.loc) []
  return r.ret

/-- Source: `osPoolFree`:
`return static_cast<osStatus> ((reinterpret_cast<Memory_pool&> (pool_id)).free (block));` -/
def osPoolFree (pool_id : Param) (block : Nat) : Prog Int := do
  let r ← invoke Op.Memory_pool_free (some pool_id.loc) [.ptr block]
  return r.ret

/-- Source: `osThreadTerminate`, lines 597 to 603:
`(reinterpret_cast<Thread&> (thread_id)).~Thread (); return osOK;` -/
def osThreadTerminate (env : Env) (thread_id : Param) : Prog Int := do
  let _ ← invoke Op.Thread_dtor (some thread_id.loc) []
  return env.osOK

/-- Source: `osTimerDelete`, lines 768 to 773:
`(reinterpret_cast<Timer&> (timer_id)).~Timer (); return osOK;` -/
def osTimerDelete (env : Env) (timer_id : Param) : Prog Int := do
  let _ ← invoke Op.Timer_dtor (some timer_id.loc) []
  return env.osOK

/-- Source: `osMutexDelete`, lines 944 to 949:
`(reinterpret_cast<Mutex&> (mutex_id)).~Mutex (); return osOK;` -/
def osMutexDelete (env : Env) (mutex_id : Param) : Prog Int := do
  let _ ← invoke Op.Mutex_dtor (some mutex_id.loc) []
  return env.osOK

/-- Source: `osPoolCAlloc`, lines 1088 to 1098: `try_alloc ()`, then, when the result is
not `nullptr`, `memset (ret, 0, (reinterpret_cast<Memory_pool&> (pool_id)).block_size ())`;
the argument `block_size ()` is evaluated before `memset` is called. -/
def osPoolCAlloc (pool_id : Param) : Prog Int := do
  let ret ← invoke Op.Memory_pool_try_alloc (some pool_id.loc) []
  if ret.ret ≠ 0 then
    let size ← invoke Op.Memory_pool_block_size (some pool_id.loc) []
    let _ ← invoke Op.memset none [.ptr ret.ret.toNat, .val 0, .val size.ret]
    return ret.ret
  else
    return ret.ret

/-- Source: `osMailCAlloc`, lines 1344 to 1358: `osMailAlloc (queue_id, millisec)`, then,
when the result is not `nullptr`,
`memset (ret, 0, (reinterpret_cast<Memory_pool&> ((queue_id->pool))).block_size ())`. -/
def osMailCAlloc (env : Env) (queue_id : osMailQId) (millisec : Nat) : Prog Int := do
  let ret ← osMailAlloc env queue_id millisec
  if ret ≠ 0 then
    let size ← invoke Op.Memory_pool_block_size (some queue_id.pool) []
    let _ ← invoke Op.memset none [.ptr ret.toNat, .val 0, .val size.ret]
    return ret
  else
    return ret

/-- Source: `osMailPut`, lines 1367 to 1375, on
`reinterpret_cast<Message_queue&> ((queue_id->queue))`: the message pointer passed is
`(const char*) mail`, the size is `sizeof(void*)`, and the priority is 0. -/
def osMailPut (env : Env) (queue_id : osMailQId) (mail : Nat) : Prog Int := do
  let r ← invoke Op.Message_queue_try_send (some queue_id.queue)
    [.ptr mail, .val env.sizeof_ptr, .val 0]
  return r.ret

/-- Source: `osKernelSysTick`, lines 541 to 548, from the record `crt` that
`Systick_clock::now (&crt)` has filled:
`return static_cast<uint32_t> (crt.ticks) * crt.divisor + crt.cycles;`, every operation
in `uint32_t`. -/
def osKernelSysTick (crt : current_systick_t) : Nat :=
  wrap 32 (wrap 32 (wrap 32 crt.ticks * crt.divisor) + crt.cycles)

/-- What `osThreadCreate` reads of `*thread_def`; `data` is the pointer
`thread_def->data`, the address of the storage of the thread. -/
structure osThreadDef_t where
  pthread : Nat
  data : Nat
  deriving DecidableEq, Repr

/-- What `osTimerCreate` reads of `*timer_def`; `data` is the address
`&timer_def->data`. -/
structure osTimerDef_t where
  name : Nat
  ptimer : Nat
  data : Nat
  deriving DecidableEq, Repr

/-- What `osMutexCreate` reads of `*mutex_def`: the address `&mutex_def->data`. -/
structure osMutexDef_t where
  data : Nat
  deriving DecidableEq, Repr

/-- What `osSemaphoreCreate` reads of `*semaphore_def`; `data` is the address
`&semaphore_def->data`. -/
structure osSemaphoreDef_t where
  name : Nat
  data : Nat
  deriving DecidableEq, Repr

/-- Source: `osKernelRunning`, lines 520 to 524:
`return scheduler::is_started () ? 1 : 0;` -/
def osKernelRunning : Prog Int := do
  let r ← invoke Op.scheduler_is_started none []
  return if r.ret ≠ 0 then 1 else 0

/-- Source: `osThreadCreate`, lines 566 to 572:
`Thread* thread = new (thread_def->data) Thread ((thread::func_t) thread_def->pthread, args);`
then `return reinterpret_cast<osThreadId> (thread);`. Placement `new` returns the address
of the storage. -/
def osThreadCreate (thread_def : osThreadDef_t) (args : Nat) : Prog Nat := do
  let _ ← invoke Op.Thread_ctor (some thread_def.data) [.ptr thread_def.pthread, .ptr args]
  return thread_def.data

/-- Source: `osThreadGetId`, lines 580 to 584:
`return reinterpret_cast<osThreadId> (&this_thread::thread ());`; the reply is the address
of the thread that `this_thread::thread ()` refers to. -/
def osThreadGetId : Prog Int := do
  let r ← invoke Op.this_thread_thread none []
  return r.ret

/-- Source: `osTimerCreate`, lines 727 to 736: `timer::Attributes attr { timer_def->name };`,
`attr.tm_type = (timer::type_t) type;`, then the constructor
`Timer (attr, (timer::func_t) timer_def->ptimer, (timer::func_args_t) args)` at
`(void*) &timer_def->data`. -/
def osTimerCreate (timer_def : osTimerDef_t) (type : Int) (args : Nat) : Prog Nat := do
  let attr : Attributes := ⟨timer_def.name, [(.tm_type, type)]⟩
  let _ ← invoke Op.Timer_ctor (some timer_def.data)
    [.attr attr, .ptr timer_def.ptimer, .ptr args]
  return timer_def.data

/-- Source: `osSignalSet`, lines 784 to 791: `int32_t ret;`, then
`flags::set ((Thread&) (*thread_id), (event_flags_t) signals, (event_flags_t*) &ret);` and
`return ret;`: the word that the call stores in `ret`, read as an `int32_t`. -/
def osSignalSet (ret : Int) (thread_id : Param) (signals : Int) : Prog Int := do
  let r ← invoke Op.flags_set none [.ptr thread_id.val, .conv .event_flags_t signals, .out]
  return (r.out.map int32_cast).getD ret

/-- Source: `osSignalClear`, lines 799 to 806: `int32_t ret;`, then
`flags::clear ((Thread&) (*thread_id), (event_flags_t) signals, (event_flags_t*) &ret);`
and `return ret;`. -/
def osSignalClear (ret : Int) (thread_id : Param) (signals : Int) : Prog Int := do
  let r ← invoke Op.flags_clear none [.ptr thread_id.val, .conv .event_flags_t signals, .out]
  return (r.out.map int32_cast).getD ret

/-- Source: `osMutexCreate`, lines 871 to 875:
`return reinterpret_cast<osMutexId> (new ((void*) &mutex_def->data) Mutex ());` -/
def osMutexCreate (mutex_def : osMutexDef_t) : Prog Nat := do
  let _ ← invoke Op.Mutex_ctor (some mutex_def.data) []
  return mutex_def.data

/-- Source: `osSemaphoreCreate`, lines 966 to 974:
`semaphore::Attributes attr { semaphore_def->name };`,
`attr.sm_initial_count = (semaphore::count_t) count;`, then the constructor
`Semaphore (attr)` at `(void*) &semaphore_def->data`. -/
def osSemaphoreCreate (semaphore_def : osSemaphoreDef_t) (count : Int) : Prog Nat := do
  let attr : Attributes := ⟨semaphore_def.name, [(.sm_initial_count, count)]⟩
  let _ ← invoke Op.Semaphore_ctor (some semaphore_def.data) [.attr attr]
  return semaphore_def.data

/-- Source: `osSemaphoreDelete`, lines 1040 to 1045:
`(reinterpret_cast<Semaphore&> (semaphore_id)).~Semaphore (); return osOK;` -/
def osSemaphoreDelete (env : Env) (semaphore_id : Param) : Prog Int := do
  let _ ← invoke Op.Semaphore_dtor (some semaphore_id.loc) []
  return env.osOK

/-- Source: `osMailFree`, lines 1438 to 1442: `return osPoolFree (&(queue_id->pool), mail);`.
The parameter `pool_id` of `osPoolFree` receives the address `&(queue_id->pool)`;
`pool_id` is the address of that parameter variable, and stands before the parameters of
the source. -/
def osMailFree (pool_id : Nat) (queue_id : osMailQId) (mail : Nat) : Prog Int :=
  osPoolFree ⟨queue_id.pool, pool_id⟩ mail

/-! ## `malloc.cpp`: the heap functions of `os::estd`

The object `scheduler::Critical_section cs` is a local variable: its constructor runs
where it is declared and its destructor where its block ends, after the value of a
`return` in the block is computed. The class is not defined in the sources; its
constructor and destructor are calls to the kernel. -/

namespace estd

/-- Source: `os::estd::malloc`, lines 36 to 47: in a block, `scheduler::Critical_section cs;`
and `p = ::malloc (size);`; after the block,
`trace::printf ("%s(%d) %p\n", __func__, size, p); return p;`. -/
def malloc (size : Nat) : Prog Int := do
  let _ ← invoke Op.Critical_section_ctor none []
  let p ← invoke Op.libc_malloc none [.val size]
  let _ ← invoke Op.Critical_section_dtor none []
  let _ ← invoke Op.trace_printf none
    [.str "%s(%d) %p\n", .str "malloc", .val size, .val p.ret]
  return p.ret

/-- Source: `os::estd::free`, lines 60 to 69:
`trace::printf ("%s(%d) %p %s\n", __func__, ptr);`, then, in a block,
`scheduler::Critical_section cs;` and `return ::free (ptr);`. -/
def free (ptr : Nat) : Prog Unit := do
  let _ ← invoke Op.trace_printf none [.str "%s(%d) %p %s\n", .str "free", .ptr ptr]
  let _ ← invoke Op.Critical_section_ctor none []
  let _ ← invoke Op.libc_free none [.ptr ptr]
  let _ ← invoke Op.Critical_section_dtor none []
  return ()

end estd

/-! ## `PosixIo.cpp`

The member functions of `os::PosixIo` act on the object (its field `fFileDescriptor`), on
`errno`, and, through the virtual functions `do*` and the class
`FileDescriptorsManager`, on everything else. The functions that `PosixIo.cpp` calls
without defining them, and the virtual functions, which a derived class may override,
are a parameter (`Impl`); a member function is embedded as a function from the state
before it to its result, the state after it and the calls it made, in order. -/

namespace PosixIo

/-- The calls that the member functions make: the virtual functions, with their
arguments, and the two functions of `FileDescriptorsManager`; `allocFileDescriptor`
receives `this`. -/
inductive IoCall where
  | doOpen (path : Nat) (oflag : Int) (args : Nat)
  | doClose
  | doRead (buf nbyte : Nat)
  | doWrite (buf nbyte : Nat)
  | doIoctl (request : Int) (args : Nat)
  | allocFileDescriptor
  | freeFileDescriptor (fildes : Int)
  deriving DecidableEq, Repr

/-- The field `fFileDescriptor` of the object, `errno`, and the state `σ` of the rest. -/
structure State (σ : Type) where
  fFileDescriptor : Int
  errno : Int
  rest : σ

/-- What `PosixIo.cpp` takes from elsewhere: the constant `noFileDescriptor` of
`PosixIo.h`, and what each call returns and does to the state; a call may change the
object and `errno`. -/
structure Impl (σ : Type) where
  noFileDescriptor : Int
  step : IoCall → State σ → Int × State σ

/-- A member function: from the state before it, its result, the state after it and the
calls it made. -/
def Io (σ α : Type) : Type := State σ → α × State σ × List IoCall

instance {σ : Type} : Monad (Io σ) where
  pure a := fun s => (a, s, [])
  bind p f := fun s =>
    ((f (p s).1 (p s).2.1).1, (f (p s).1 (p s).2.1).2.1,
      (p s).2.2 ++ (f (p s).1 (p s).2.1).2.2)

/-- Make a call. -/
def call {σ : Type} (impl : Impl σ) (c : IoCall) : Io σ Int :=
  fun s => ((impl.step c s).1, (impl.step c s).2, [c])

/-- The assignment `errno = v`. -/
def set_errno {σ : Type} (v : Int) : Io σ Unit :=
  fun s => ((), { s with errno := v }, [])

/-- The assignment `fFileDescriptor = v`. -/
def set_fFileDescriptor {σ : Type} (v : Int) : Io σ Unit :=
  fun s => ((), { s with fFileDescriptor := v }, [])

/-- The value of `fFileDescriptor`. -/
def get_fFileDescriptor {σ : Type} : Io σ Int :=
  fun s => (s.fFileDescriptor, s, [])

/-- Source: the constructor `PosixIo::PosixIo ()`: `fFileDescriptor = noFileDescriptor;`. -/
def ctor {σ : Type} (impl : Impl σ) (errno : Int) (rest : σ) : State σ :=
  ⟨impl.noFileDescriptor, errno, rest⟩

/-- Source: `PosixIo::close`, lines 69 to 84. -/
def close {σ : Type} (impl : Impl σ) : Io σ Int := do
  set_errno 0
  let ret ← call impl IoCall.doClose
  let fd ← get_fFileDescriptor
  let _ ← call impl (IoCall.freeFileDescriptor fd)
  set_fFileDescriptor impl.noFileDescriptor
  return ret

/-- Source: `PosixIo::read`, lines 90 to 97. -/
def read {σ : Type} (impl : Impl σ) (buf nbyte : Nat) : Io σ Int := do
  set_errno 0
  call impl (IoCall.doRead buf nbyte)

/-- Source: `PosixIo::write`, lines 99 to 106. -/
def write {σ : Type} (impl : Impl σ) (buf nbyte : Nat) : Io σ Int := do
  set_errno 0
  call impl (IoCall.doWrite buf nbyte)

/-- Source: `PosixIo::ioctl`, lines 108 to 122; `args` is the `va_list`. -/
def ioctl {σ : Type} (impl : Impl σ) (request : Int) (args : Nat) : Io σ Int := do
  set_errno 0
  let ret ← call impl (IoCall.doIoctl request args)
  return ret

/-- Source: the bodies of `PosixIo::doClose`, `doRead`, `doWrite` and `doIoctl`, lines 126
to 155: `errno = ENOSYS; return -1;`, with `ENOSYS` of `<cerrno>`. -/
def not_implemented {σ : Type} (ENOSYS : Int) (s : State σ) : Int × State σ :=
  (-1, { s with errno := ENOSYS })

/-- The object does not override `doClose`, `doRead` or `doWrite`: each of the three calls
runs the body that `PosixIo.cpp` gives it, whatever its arguments and the state. -/
def NotOverridden {σ : Type} (ENOSYS : Int) (impl : Impl σ) : Prop :=
  (∀ s, impl.step IoCall.doClose s = not_implemented ENOSYS s) ∧
  (∀ buf nbyte s, impl.step (IoCall.doRead buf nbyte) s = not_implemented ENOSYS s) ∧
  (∀ buf nbyte s, impl.step (IoCall.doWrite buf nbyte) s = not_implemented ENOSYS s)

end PosixIo

/-- Source: `PosixIo::open`, lines 42 to 67; `args` is the `va_list` made of the arguments
after `oflag`. -/
def PosixIo.open {σ : Type} (impl : PosixIo.Impl σ) (path : Nat) (oflag : Int) (args : Nat) :
    PosixIo.Io σ Int := do
  PosixIo.set_errno 0
  let ret ← PosixIo.call impl (PosixIo.IoCall.doOpen path oflag args)
  if ret = 0 then
    let ret ← PosixIo.call impl PosixIo.IoCall.allocFileDescriptor
    if ret = -1 then
      let _ ← PosixIo.call impl PosixIo.IoCall.doClose
      PosixIo.set_fFileDescriptor impl.noFileDescriptor
      return ret
    else
      return ret
  else
    return ret

/-! ## Reading a log -/

/-- The three variants of a blocking operation. -/
inductive Variant where
  | try_ | unbounded | timed
  deriving DecidableEq, Repr

/-- The blocking operations of the kernel that come in three variants. -/
inductive Blocking where
  | mutex_lock | semaphore_wait | flags_wait | mqueue_send | mqueue_receive
  | mempool_alloc
  deriving DecidableEq, Repr

/-- The blocking operation and the variant that a kernel function is, for the functions
that are a variant of a blocking operation. -/
def Op.variant : Op → Option (Blocking × Variant)
  | Op.Mutex_lock => some (.mutex_lock, .unbounded)
  | Op.Mutex_try_lock => some (.mutex_lock, .try_)
  | Op.Mutex_timed_lock => some (.mutex_lock, .timed)
  | Op.Semaphore_wait => some (.semaphore_wait, .unbounded)
  | Op.Semaphore_try_wait => some (.semaphore_wait, .try_)
  | Op.Semaphore_timed_wait => some (.semaphore_wait, .timed)
  | Op.flags_wait => some (.flags_wait, .unbounded)
  | Op.flags_try_wait => some (.flags_wait, .try_)
  | Op.flags_timed_wait => some (.flags_wait, .timed)
  | Op.Message_queue_send => some (.mqueue_send, .unbounded)
  | Op.Message_queue_try_send => some (.mqueue_send, .try_)
  | Op.Message_queue_timed_send => some (.mqueue_send, .timed)
  | Op.Message_queue_receive => some (.mqueue_receive, .unbounded)
  | Op.Message_queue_try_receive => some (.mqueue_receive, .try_)
  | Op.Message_queue_timed_receive => some (.mqueue_receive, .timed)
  | Op.Memory_pool_alloc => some (.mempool_alloc, .unbounded)
  | Op.Memory_pool_try_alloc => some (.mempool_alloc, .try_)
  | Op.Memory_pool_timed_alloc => some (.mempool_alloc, .timed)
  | _ => none

/-- The variants of blocking operations invoked in a log, in order. -/
def variants (log : List Call) : List (Blocking × Variant) :=
  log.filterMap (fun c => c.op.variant)

/-- A log invokes exactly one variant of the blocking operation `b`, selected by
`millisec`: the `try_` variant if and only if `millisec` is 0, the unbounded variant if
and only if it is `osWaitForever`, the timed variant if and only if it is neither. -/
def InvokesOneVariant (env : Env) (millisec : Nat) (b : Blocking) (log : List Call) :
    Prop :=
  ∃ v, variants log = [(b, v)] ∧ (v = Variant.try_ ↔ millisec = 0) ∧
    (v = Variant.unbounded ↔ millisec = env.osWaitForever) ∧
    (v = Variant.timed ↔ (millisec ≠ 0 ∧ millisec ≠ env.osWaitForever))

/-- The calls of a log to one kernel function. -/
def calls_of (op : Op) (log : List Call) : List Call :=
  log.filter (fun c => c.op = op)

/-- A scan of a log for the heap calls and the scheduler critical sections, from a
nesting depth of sections: the depth after the log, or `none` when the log makes a call
of `::malloc` or `::free` outside a section, or leaves a section it did not enter. -/
def heap_inside (depth : Nat) : List Call → Option Nat
  | [] => some depth
  | c :: rest =>
    match c.op with
    | Op.Critical_section_ctor => heap_inside (depth + 1) rest
    | Op.Critical_section_dtor => if depth = 0 then none else heap_inside (depth - 1) rest
    | Op.libc_malloc => if depth = 0 then none else heap_inside depth rest
    | Op.libc_free => if depth = 0 then none else heap_inside depth rest
    | _ => heap_inside depth rest

/-! ## A kernel modelled from the specification

The classes `Semaphore` and `Message_queue` of `os::rtos` are not defined in the sources.
Where a theorem needs a kernel that answers, it uses the one below: a single thread, and
no activity other than the calls of the wrapper, so that an unbounded wait on a resource
that is not available never returns and a timed wait on it times out. -/

/-- Modelled from the spec: the class `Semaphore` is missing from the sources. "Semaphore.
`{count, max, waiters}`. `0 ≤ count ≤ max`"; with a single thread there are no waiters. -/
structure Semaphore where
  count : Nat
  max : Nat
  deriving DecidableEq, Repr

namespace Semaphore

/-- Modelled from the spec: `Semaphore::wait` is missing from the sources. "`wait`
decrements if positive; else blocks": with nobody to post, it then never returns. -/
def wait (sem : Semaphore) : Option (Nat × Semaphore) :=
  if 0 < sem.count then some (result.ok, { sem with count := sem.count - 1 }) else none

/-- Modelled from the spec: `Semaphore::try_wait` is missing from the sources. A try variant
"never blocks; fails with `resource_unavailable`". -/
def try_wait (sem : Semaphore) : Nat × Semaphore :=
  if 0 < sem.count then (result.ok, { sem with count := sem.count - 1 })
  else (result.error_resource, sem)

/-- Modelled from the spec: `Semaphore::timed_wait` is missing from the sources. A timed
variant "acquires if possible immediately; otherwise blocks with a deadline and fails with
`timeout` on expiry"; "semaphore count remains 0". -/
def timed_wait (sem : Semaphore) (_ticks : Int) : Nat × Semaphore :=
  if 0 < sem.count then (result.ok, { sem with count := sem.count - 1 })
  else (result.error_timeout_resource, sem)

/-- Modelled from the spec: `Semaphore::post` is missing from the sources. "`post` increments
count (capped at max)". -/
def post (sem : Semaphore) : Nat × Semaphore :=
  (result.ok, { sem with count := min (sem.count + 1) sem.max })

/-- Modelled from the spec: `Semaphore::value` is missing from the sources; it reads the
`count` of the data model. -/
def value (sem : Semaphore) : Nat := sem.count

/-- Modelled from the spec: `Semaphore::reset` is missing from the sources. "`reset` clears
the count". -/
def reset (sem : Semaphore) : Nat × Semaphore := (result.ok, { sem with count := 0 })

end Semaphore

/-- Modelled from the spec: a message in a slot of a queue, the bytes copied from the
sender's buffer and the priority it was sent with. -/
structure Message where
  bytes : List Nat
  prio : Int
  deriving DecidableEq, Repr

/-- Modelled from the spec: the class `Message_queue` is missing from the sources.
"MessageQueue. `{slots[capacity], msg_size, head/tail indices, count, send_waiters,
recv_waiters}`. Slots are ordered by insertion priority (stable within equal priority)";
with a single thread there are no waiters. -/
structure Message_queue where
  capacity : Nat
  msg_size : Nat
  slots : List Message
  deriving DecidableEq, Repr

namespace Message_queue

/-- Modelled from the spec: "inserts maintaining non-increasing priority order (stable
within equal priority)". -/
def insert (m : Message) : List Message → List Message
  | [] => [m]
  | x :: xs => if x.prio < m.prio then m :: x :: xs else x :: insert m xs

/-- Modelled from the spec: the enqueue common to `Message_queue::send`, `try_send` and
`timed_send`, missing from the sources, for a queue that is not full: "Fixed-size slots",
so a message longer than `msg_size` is an `invalid_argument`. -/
def enqueue (q : Message_queue) (m : Message) : Nat × Message_queue :=
  if q.msg_size < m.bytes.length then (result.error_parameter, q)
  else (result.ok, { q with slots := insert m q.slots })

/-- Modelled from the spec: whether the queue has no free slot. -/
def is_full (q : Message_queue) : Bool := q.capacity ≤ q.slots.length

end Message_queue

/-- Modelled from the spec: the class `Memory_pool` is missing from the sources.
"MemoryPool. `{base_addr, block_size, capacity, free_list_head, in_use_count, waiters:
WaitQueue}`", a "fixed-block free list over a caller-provided contiguous region": the
free list holds the addresses of the free blocks, head first; with a single thread there
are no waiters. -/
structure Memory_pool where
  base_addr : Nat
  block_size : Nat
  capacity : Nat
  free_list : List Nat
  deriving DecidableEq, Repr

namespace Memory_pool

/-- Modelled from the spec: `Memory_pool::try_alloc` is missing from the sources.
"`try_alloc` pops the head; returns null if empty". -/
def try_alloc (pool : Memory_pool) : Nat × Memory_pool :=
  match pool.free_list with
  | [] => (0, pool)
  | b :: rest => (b, { pool with free_list := rest })

/-- Modelled from the spec: whether `block` is the address of a block of the pool:
"validates the address lies inside the region and is block-aligned". -/
def valid (pool : Memory_pool) (block : Nat) : Bool :=
  pool.base_addr ≤ block ∧ block < pool.base_addr + pool.capacity * pool.block_size ∧
    (block - pool.base_addr) % pool.block_size = 0

/-- Modelled from the spec: `Memory_pool::free` is missing from the sources. "`free(block)`
validates the address lies inside the region and is block-aligned; pushes back". -/
def free (pool : Memory_pool) (block : Nat) : Nat × Memory_pool :=
  if pool.valid block then (result.ok, { pool with free_list := block :: pool.free_list })
  else (result.error_parameter, pool)

end Memory_pool

/-- The value of the bytes of an object, least significant byte first. -/
def le_value : List Nat → Nat
  | [] => 0
  | b :: bs => b + 256 * le_value bs

/-- Modelled from the spec: the state of the kernel and of the memory it reads and writes:
whether the caller is in interrupt context, the bytes of the memory, and the semaphores,
message queues and memory pools, each at the address of the object. -/
structure World where
  handler_mode : Bool
  mem : Nat → Nat
  semaphores : List (Nat × Semaphore)
  queues : List (Nat × Message_queue)
  pools : List (Nat × Memory_pool) := []

namespace World

/-- The `n` bytes of memory from address `a`. -/
def read (w : World) (a n : Nat) : List Nat := (List.range n).map (fun i => w.mem (a + i))

/-- The world after `bytes` are stored from address `a`. -/
def write (w : World) (a : Nat) (bytes : List Nat) : World :=
  { w with mem := fun x => if a ≤ x ∧ x < a + bytes.length then bytes.getD (x - a) 0
      else w.mem x }

/-- The world after the semaphore at address `a` becomes `sem`. -/
def set_semaphore (w : World) (a : Nat) (sem : Semaphore) : World :=
  { w with semaphores := (a, sem) :: w.semaphores }

/-- The world after the queue at address `a` becomes `q`. -/
def set_queue (w : World) (a : Nat) (q : Message_queue) : World :=
  { w with queues := (a, q) :: w.queues }

/-- The world after the memory pool at address `a` becomes `pool`. -/
def set_pool (w : World) (a : Nat) (pool : Memory_pool) : World :=
  { w with pools := (a, pool) :: w.pools }

/-- Modelled from the spec: an allocation from the pool at address `a`: "`try_alloc` pops
the head; returns null if empty. `alloc`/`timed_alloc` block on the pool waiters": on an
empty pool, with nobody to free a block, `alloc` never returns and `timed_alloc` returns
null at its deadline. -/
def alloc (w : World) (v : Variant) (a : Nat) (pool : Memory_pool) :
    Option (Reply × World) :=
  match pool.free_list, v with
  | [], Variant.unbounded => none
  | _, _ => some (⟨pool.try_alloc.1, none⟩, w.set_pool a pool.try_alloc.2)

/-- The reply and the world after a status `r` and a new state of the semaphore at `a`. -/
def semaphore_done (w : World) (a : Nat) (r : Nat × Semaphore) : Option (Reply × World) :=
  some (⟨r.1, none⟩, w.set_semaphore a r.2)

/-- Modelled from the spec: a send of the `nbytes` bytes at address `msg` with priority
`mprio` to the queue `q` at address `a`: "if full, blocks (or timed blocks, or fails
immediately per variant)". -/
def send (w : World) (v : Variant) (a : Nat) (q : Message_queue) (msg : Nat) (nbytes : Int)
    (mprio : Int) : Option (Reply × World) :=
  if q.is_full then
    match v with
    | Variant.unbounded => none
    | Variant.try_ => some (⟨result.error_resource, none⟩, w)
    | Variant.timed => some (⟨result.error_timeout_resource, none⟩, w)
  else
    let r := q.enqueue ⟨w.read msg nbytes.toNat, mprio⟩
    some (⟨r.1, none⟩, w.set_queue a r.2)

/-- The priority pointer among the arguments of a receive, the third one; 0 (`NULL`) when
there is none. -/
def prio_ptr : List Arg → Nat
  | _ :: _ :: Arg.ptr pr :: _ => pr
  | _ => 0

/-- Modelled from the spec: a receive from the queue `q` at address `a`: "Receive
symmetrically: if empty and blocking, joins `recv_waiters`". The message of highest
priority leaves the queue; its bytes are stored in the buffer, which is a local variable
of the wrapper (`Arg.out`, the reply carries the value stored) or memory at an address;
its priority is stored through the priority pointer `pr` when that is not `NULL`. -/
def receive (w : World) (v : Variant) (a : Nat) (q : Message_queue) (buf : Arg) (pr : Nat) :
    Option (Reply × World) :=
  match q.slots with
  | [] =>
    match v with
    | Variant.unbounded => none
    | Variant.try_ => some (⟨result.error_resource, none⟩, w)
    | Variant.timed => some (⟨result.error_timeout_resource, none⟩, w)
  | m :: rest =>
    let w1 := w.set_queue a { q with slots := rest }
    let w2 := if pr = 0 then w1 else w1.write pr [m.prio.toNat]
    match buf with
    | Arg.ptr b => some (⟨result.ok, none⟩, w2.write b m.bytes)
    | _ => some (⟨result.ok, some (le_value m.bytes)⟩, w2)

/-- Modelled from the spec: the kernel. The operations of semaphores and the sends and
receives of message queues follow §4.8 and §4.10; `scheduler::in_handler_mode` reads the
context; the allocations, `free` and `block_size` of memory pools follow §4.9; `memset`
is the function of the C library; an operation on an object that is not there is an
`invalid_argument` (and the value of a semaphore, the block size of a pool and a block
of a pool that are not there are 0); the other operations are not interpreted: they
return `ok` and change nothing. -/
def kernel : Kernel World := fun c w =>
  match c.op, c.this, c.args with
  | Op.scheduler_in_handler_mode, _, _ => some (⟨if w.handler_mode then 1 else 0, none⟩, w)
  | Op.Semaphore_wait, some a, _ =>
    match w.semaphores.lookup a with
    | none => some (⟨result.error_parameter, none⟩, w)
    | some sem => (sem.wait).bind (w.semaphore_done a)
  | Op.Semaphore_try_wait, some a, _ =>
    match w.semaphores.lookup a with
    | none => some (⟨result.error_parameter, none⟩, w)
    | some sem => w.semaphore_done a sem.try_wait
  | Op.Semaphore_timed_wait, some a, [Arg.val ticks] =>
    match w.semaphores.lookup a with
    | none => some (⟨result.error_parameter, none⟩, w)
    | some sem => w.semaphore_done a (sem.timed_wait ticks)
  | Op.Semaphore_post, some a, _ =>
    match w.semaphores.lookup a with
    | none => some (⟨result.error_parameter, none⟩, w)
    | some sem => w.semaphore_done a sem.post
  | Op.Semaphore_reset, some a, _ =>
    match w.semaphores.lookup a with
    | none => some (⟨result.error_parameter, none⟩, w)
    | some sem => w.semaphore_done a sem.reset
  | Op.Semaphore_value, some a, _ =>
    match w.semaphores.lookup a with
    | none => some (⟨0, none⟩, w)
    | some sem => some (⟨sem.value, none⟩, w)
  | Op.Message_queue_send, some a, Arg.ptr msg :: Arg.val nbytes :: Arg.val mprio :: _ =>
    match w.queues.lookup a with
    | none => some (⟨result.error_parameter, none⟩, w)
    | some q => w.send Variant.unbounded a q msg nbytes mprio
  | Op.Message_queue_try_send, some a, Arg.ptr msg :: Arg.val nbytes :: Arg.val mprio :: _ =>
    match w.queues.lookup a with
    | none => some (⟨result.error_parameter, none⟩, w)
    | some q => w.send Variant.try_ a q msg nbytes mprio
  | Op.Message_queue_timed_send, some a,
      Arg.ptr msg :: Arg.val nbytes :: Arg.val mprio :: _ =>
    match w.queues.lookup a with
    | none => some (⟨result.error_parameter, none⟩, w)
    | some q => w.send Variant.timed a q msg nbytes mprio
  | Op.Message_queue_receive, some a, buf :: _ =>
    match w.queues.lookup a with
    | none => some (⟨result.error_parameter, none⟩, w)
    | some q => w.receive Variant.unbounded a q buf (prio_ptr c.args)
  | Op.Message_queue_try_receive, some a, buf :: _ =>
    match w.queues.lookup a with
    | none => some (⟨result.error_parameter, none⟩, w)
    | some q => w.receive Variant.try_ a q buf (prio_ptr c.args)
  | Op.Message_queue_timed_receive, some a, buf :: _ =>
    match w.queues.lookup a with
    | none => some (⟨result.error_parameter, none⟩, w)
    | some q => w.receive Variant.timed a q buf (prio_ptr c.args)
  | Op.Memory_pool_alloc, some a, _ =>
    match w.pools.lookup a with
    | none => some (⟨0, none⟩, w)
    | some pool => w.alloc Variant.unbounded a pool
  | Op.Memory_pool_try_alloc, some a, _ =>
    match w.pools.lookup a with
    | none => some (⟨0, none⟩, w)
    | some pool => w.alloc Variant.try_ a pool
  | Op.Memory_pool_timed_alloc, some a, _ =>
    match w.pools.lookup a with
    | none => some (⟨0, none⟩, w)
    | some pool => w.alloc Variant.timed a pool
  | Op.Memory_pool_free, some a, [Arg.ptr block] =>
    match w.pools.lookup a with
    | none => some (⟨result.error_parameter, none⟩, w)
    | some pool => some (⟨(pool.free block).1, none⟩, w.set_pool a (pool.free block).2)
  | Op.Memory_pool_block_size, some a, _ =>
    match w.pools.lookup a with
    | none => some (⟨0, none⟩, w)
    | some pool => some (⟨pool.block_size, none⟩, w)
  | Op.memset, _, [Arg.ptr p, Arg.val c, Arg.val n] =>
    some (⟨p, none⟩, w.write p (List.replicate n.toNat (c.toNat % 256)))
  | _, _, _ => some (⟨result.ok, none⟩, w)

end World

/-! ## The mutex protocols, modelled from the specification

The classes `Thread` and `Mutex` of `os::rtos` are declared in `os.h` and not defined in
the sources. The model below follows §3 and §4.6 of the specification for `n` threads and
`k` mutexes. It keeps what the priorities depend on: who owns a mutex, which mutex a
thread is blocked on, the stable and effective priorities, the protocol and the
ceiling. The waiters of a mutex are the threads blocked on it. A recursive acquisition by
the owner changes none of these and is left out of the state. -/

namespace mutex

/-- The enumeration `mutex::protocol` of `os.h`: `none = 0`, `inherit = 1`,
`protect = 2`. -/
inductive protocol where
  | none | inherit | protect
  deriving DecidableEq, Repr

end mutex

namespace inheritance

/-- Modelled from the spec: the class `Thread` is not defined in the sources. "Thread.
Attributes: stable priority, effective priority (may be boosted by inheritance), a
single `current_wait` link (the wait object the thread is blocked on, if any)". -/
structure Thread (k : Nat) where
  stable : Int
  effective : Int
  waiting : Option (Fin k)

/-- Modelled from the spec: the class `Mutex` is not defined in the sources. "Mutex.
`{owner, recursive_depth, type, protocol, robustness, prio_ceiling, saved_owner_prio,
waiters: WaitQueue, consistent_flag}`": the owner, the protocol and the ceiling. -/
structure Mutex (n : Nat) where
  protocol : mutex.protocol
  prio_ceiling : Int
  owner : Option (Fin n)

/-- Modelled from the spec: the threads and the mutexes of the system. -/
structure Sys (n k : Nat) where
  thread : Fin n → Thread k
  mutex : Fin k → Mutex n

variable {n k : Nat}

namespace Sys

/-- The system after the thread `t` becomes `v`. -/
def set_thread (s : Sys n k) (t : Fin n) (v : Thread k) : Sys n k :=
  { s with thread := fun i => if i = t then v else s.thread i }

/-- The system after the mutex `m` becomes `v`. -/
def set_mutex (s : Sys n k) (m : Fin k) (v : Mutex n) : Sys n k :=
  { s with mutex := fun j => if j = m then v else s.mutex j }

/-- The system after the effective priority of `t` becomes `p`. -/
def set_effective (s : Sys n k) (t : Fin n) (p : Int) : Sys n k :=
  s.set_thread t { s.thread t with effective := p }

/-- The system after the stable priority of `t` becomes `p`. -/
def set_stable (s : Sys n k) (t : Fin n) (p : Int) : Sys n k :=
  s.set_thread t { s.thread t with stable := p }

/-- The system after `t` blocks on a mutex (`some`) or stops being blocked (`none`). -/
def set_waiting (s : Sys n k) (t : Fin n) (w : Option (Fin k)) : Sys n k :=
  s.set_thread t { s.thread t with waiting := w }

/-- The system after the owner of `m` becomes `o`. -/
def set_owner (s : Sys n k) (m : Fin k) (o : Option (Fin n)) : Sys n k :=
  s.set_mutex m { s.mutex m with owner := o }

/-- Whether `u` is blocked on a mutex that `t` owns. -/
def waits_on_owned (s : Sys n k) (t u : Fin n) : Bool :=
  match (s.thread u).waiting with
  | none => false
  | some m => decide ((s.mutex m).owner = some t)

/-- Modelled from the spec: "the maximum of its stable priority and the highest effective
priority of any remaining waiter across all mutexes `T_l` still holds". -/
def inherited (s : Sys n k) (t : Fin n) : Int :=
  (List.finRange n).foldl
    (fun acc u => if s.waits_on_owned t u then max acc (s.thread u).effective else acc)
    (s.thread t).stable

/-- Modelled from the spec: the highest ceiling of the mutexes of protocol `protect` that
`t` holds, or `base` when that is higher: "PROTECT (priority ceiling): on acquisition,
raise owner's effective priority to the ceiling immediately; on release, restore". -/
def with_ceilings (s : Sys n k) (t : Fin n) (base : Int) : Int :=
  (List.finRange k).foldl
    (fun acc m =>
      if (s.mutex m).owner = some t ∧ (s.mutex m).protocol = mutex.protocol.protect then
        max acc (s.mutex m).prio_ceiling
      else acc)
    base

/-- Modelled from the spec: "recompute `T_l.effective_priority`": the effective priority of
`t` becomes what its stable priority, the waiters of the mutexes it holds and the
ceilings of the mutexes it holds give. -/
def recompute (s : Sys n k) (t : Fin n) : Sys n k :=
  s.set_effective t (s.with_ceilings t (s.inherited t))

/-- Modelled from the spec: the waiter that a release selects, "the highest-priority
waiter": a thread blocked on `m` of the highest effective priority, the first of them in
the order of the threads. -/
def highest (s : Sys n k) (m : Fin k) : Option (Fin n) :=
  ((List.finRange n).filter (fun u => decide ((s.thread u).waiting = some m))).argmax
    (fun u => (s.thread u).effective)

/-- Modelled from the spec: the thread `t` becomes the owner of `m`; with the protocol
`protect`, "on acquisition, raise owner's effective priority to the ceiling
immediately". -/
def acquire (s : Sys n k) (t : Fin n) (m : Fin k) : Sys n k :=
  if (s.mutex m).protocol = mutex.protocol.protect then
    (s.set_owner m (some t)).set_effective t
      (max (s.thread t).effective (s.mutex m).prio_ceiling)
  else s.set_owner m (some t)

/-- Modelled from the spec: the walk that boosts the owners, for a thread of effective
priority `p` blocked on `m`: "`T_l.effective_priority := max(T_l.effective_priority,
T_h.effective_priority)`. Boost propagates transitively across mutex chains", "the
propagation walk must be bounded by the number of distinct threads". The walk stops at a
mutex that is not of protocol `inherit`, at an owner whose effective priority is already
`p` or more, and at an owner that is not blocked; `fuel` bounds its length. -/
def boost : Nat → Sys n k → Fin k → Int → Sys n k
  | 0, s, _, _ => s
  | fuel + 1, s, m, p =>
    if (s.mutex m).protocol = mutex.protocol.inherit then
      match (s.mutex m).owner with
      | none => s
      | some o =>
        if p ≤ (s.thread o).effective then s
        else
          match (s.thread o).waiting with
          | none => s.set_effective o p
          | some m1 => boost fuel (s.set_effective o p) m1 p
    else s

end Sys

/-- Modelled from the spec: what happens to the system. `lock` and `timed_lock` by a thread
that runs; `try_lock`; `unlock`; `release`, the end of the wait of a blocked thread by
"its deadline elapsing (timeout), or explicit `cancel`"; and `set_prio`, the change of the
stable priority of a thread. -/
inductive Event (n k : Nat) where
  | lock (t : Fin n) (m : Fin k)
  | timed_lock (t : Fin n) (m : Fin k)
  | try_lock (t : Fin n) (m : Fin k)
  | unlock (t : Fin n) (m : Fin k)
  | release (t : Fin n)
  | set_prio (t : Fin n) (p : Int)

/-- Modelled from the spec: `lock` by the thread `t`, which runs. A free mutex is acquired;
on a mutex owned by another thread, `t` blocks and the owners are boosted; a thread that
is blocked makes no call, and a lock by the owner changes nothing here. -/
def lock (s : Sys n k) (t : Fin n) (m : Fin k) : Sys n k :=
  match (s.thread t).waiting with
  | some _ => s
  | none =>
    match (s.mutex m).owner with
    | none => s.acquire t m
    | some o =>
      if o = t then s
      else (s.set_waiting t (some m)).boost (n + 1) m (s.thread t).effective

/-- Modelled from the spec: "`try_lock` never blocks; fails with `resource_unavailable` if
owned by another". -/
def try_lock (s : Sys n k) (t : Fin n) (m : Fin k) : Sys n k :=
  match (s.thread t).waiting with
  | some _ => s
  | none =>
    match (s.mutex m).owner with
    | none => s.acquire t m
    | some _ => s

/-- Modelled from the spec: `unlock` by the thread `t`, which runs: "only the owner may
unlock"; "On release, select the highest-priority waiter; before transferring ownership,
apply inheritance bookkeeping"; the selected waiter stops being blocked and owns the
mutex, or the mutex is free when nobody waits; then the effective priority of `t` is
recomputed. -/
def unlock (s : Sys n k) (t : Fin n) (m : Fin k) : Sys n k :=
  match (s.thread t).waiting with
  | some _ => s
  | none =>
    if (s.mutex m).owner = some t then
      match s.highest m with
      | none => (s.set_owner m none).recompute t
      | some w => ((s.set_waiting w none).acquire w m).recompute t
    else s

/-- Modelled from the spec: the change of the stable priority of `t` to `p`: its effective
priority is recomputed, and, when `t` is blocked, the owners are boosted for its new
effective priority ("while a higher-priority thread `T_h` waits on a mutex owned by
`T_l`"). -/
def set_prio (s : Sys n k) (t : Fin n) (p : Int) : Sys n k :=
  match (s.thread t).waiting with
  | none => (s.set_stable t p).recompute t
  | some m =>
    ((s.set_stable t p).recompute t).boost (n + 1) m
      (((s.set_stable t p).recompute t).thread t).effective

/-- Modelled from the spec: the system after an event. -/
def step (s : Sys n k) : Event n k → Sys n k
  | Event.lock t m => lock s t m
  | Event.timed_lock t m => lock s t m
  | Event.try_lock t m => try_lock s t m
  | Event.unlock t m => unlock s t m
  | Event.release t => s.set_waiting t none
  | Event.set_prio t p => set_prio s t p

/-- The system after a sequence of events. -/
def run (s : Sys n k) (events : List (Event n k)) : Sys n k := events.foldl step s

/-- Every thread blocked on a mutex finds it owned, and, when the protocol of the mutex
is `inherit`, the effective priority of the owner is at least its own. -/
def Inv (s : Sys n k) : Prop :=
  ∀ (u : Fin n) (m : Fin k), (s.thread u).waiting = some m →
    ∃ o, (s.mutex m).owner = some o ∧
      ((s.mutex m).protocol = mutex.protocol.inherit →
        (s.thread u).effective ≤ (s.thread o).effective)

/-- The same, but for the threads blocked on `m`, whose effective priority may exceed
that of the owner as long as it is at most `p`: what holds during the walk. -/
def Almost (s : Sys n k) (m : Fin k) (p : Int) : Prop :=
  ∀ (u : Fin n) (m1 : Fin k), (s.thread u).waiting = some m1 →
    ∃ o, (s.mutex m1).owner = some o ∧
      ((s.mutex m1).protocol = mutex.protocol.inherit →
        (s.thread u).effective ≤ (s.thread o).effective ∨
          (m1 = m ∧ (s.thread u).effective ≤ p))

/-- The same as `Inv`, but for the mutexes owned by `t`: what holds before the effective
priority of `t` is recomputed. -/
def Except (s : Sys n k) (t : Fin n) : Prop :=
  ∀ (u : Fin n) (m : Fin k), (s.thread u).waiting = some m →
    ∃ o, (s.mutex m).owner = some o ∧
      ((s.mutex m).protocol = mutex.protocol.inherit →
        (s.thread u).effective ≤ (s.thread o).effective ∨ o = t)

end inheritance

/-! ## Sequences of sends and receives -/

/-- One message to send: whether `os_mqueue_try_send` is used (`true`) or `os_mqueue_send`
(`false`), the address of the message, and its priority. -/
structure Sending where
  use_try : Bool
  msg : Nat
  mprio : Nat
  deriving DecidableEq, Repr

/-- The world after the messages are sent, in order, each of `nbytes` bytes, through
`os_mqueue_send` or `os_mqueue_try_send`, against the modelled kernel. -/
def send_each (mqueue : Param) (nbytes : Nat) : List Sending → World → World
  | [], w => w
  | m :: rest, w =>
    send_each mqueue nbytes rest
      ((if m.use_try then os_mqueue_try_send mqueue m.msg nbytes m.mprio
        else os_mqueue_send mqueue m.msg nbytes m.mprio).run World.kernel w).state

/-- The messages delivered by `n` successive calls of `os_mqueue_try_receive` (`use_try`)
or `os_mqueue_receive`, against the modelled kernel, each call with the buffer `msg` of
`nbytes` bytes and the priority pointer `mprio`: after each call, the bytes found in the
buffer and the priority found at `mprio`. -/
def receive_each (mqueue : Param) (use_try : Bool) (msg nbytes mprio : Nat) :
    Nat → World → List Message
  | 0, _ => []
  | n + 1, w =>
    let o := (if use_try then os_mqueue_try_receive mqueue msg nbytes mprio
      else os_mqueue_receive mqueue msg nbytes mprio).run World.kernel w
    ⟨o.state.read msg nbytes, o.state.mem mprio⟩ ::
      receive_each mqueue use_try msg nbytes mprio n o.state

/-- The messages of a sequence of sends as they stand in memory: the `nbytes` bytes at the
address of each, with its priority. -/
def sent_messages (w : World) (nbytes : Nat) (msgs : List Sending) : List Message :=
  msgs.map (fun m => ⟨w.read m.msg nbytes, m.mprio⟩)

/-- A list of messages is in non-increasing order of priority. -/
def NonIncreasing (l : List Message) : Prop := l.Pairwise (fun a b => b.prio ≤ a.prio)

/-- The messages of priority `p` in a list, in the order of the list. -/
def of_prio (p : Int) (l : List Message) : List Message :=
  l.filter (fun m => decide (m.prio = p))

/-! ## Concrete inputs -/

/-- A handle: the caller passes the address `0x20000000` of the storage of its object, and
the parameter variable of the wrapper function lives at `0x2000FF00`, on the stack. -/
def handle0 : Param := ⟨0x20000000, 0x2000FF00⟩

/-- A mail queue handle: the pointer and the parameter of `handle0`, the member `pool` at
the address the pointer holds and the member `queue` 64 bytes further. -/
def mail0 : osMailQId := ⟨handle0, 0x20000000, 0x20000040⟩

/-- A world in thread context. The byte at address `a` is `a % 256`. The object that the
legacy functions designate through `handle0` is, as a semaphore, one with a single token
out of one, and, as a message queue, an empty queue of 4 slots of 4 bytes. -/
def world0 : World where
  handler_mode := false
  mem := fun a => a % 256
  semaphores := [(0x2000FF00, ⟨1, 1⟩)]
  queues := [(0x2000FF00, ⟨4, 4, []⟩)]

/-- The world `world0` with the message queue of a mail queue, empty, at the address
`&queue_id->queue` of `mail0`. -/
def world_mail : World := world0.set_queue 0x20000040 ⟨4, 4, []⟩

/-- The world `world0` with two memory pools: the one that the legacy functions designate
through `handle0`, two free blocks of 16 bytes at `0x20001000`, and the one at the
address `&queue_id->pool` of `mail0`, without a free block. -/
def world_pool : World :=
  { world0 with
    pools := [(0x2000FF00, ⟨0x20001000, 16, 2, [0x20001000, 0x20001010]⟩),
      (0x20000000, ⟨0x20002000, 16, 1, []⟩)] }

/-- A kernel for the heap functions: the state is the first free address of the heap,
`::malloc (size)` returns it and moves it up by `size`; every other call returns 0. -/
def bump_kernel : Kernel Nat := fun c brk =>
  match c.op, c.args with
  | Op.libc_malloc, [Arg.val size] => some (⟨brk, none⟩, brk + size.toNat)
  | _, _ => some (⟨0, none⟩, brk)

/-- An implementation for the examples. The state of the rest is the list of the free
file descriptors: `allocFileDescriptor` takes the first one, stores it in the object and
returns it, or returns -1 when none is free; `freeFileDescriptor` gives one back;
`doOpen` returns `open_result`; `doClose` returns 0; the other virtual functions are those
of `PosixIo`, with `ENOSYS` equal to 88. The constant `noFileDescriptor` is -1. -/
def test_impl (open_result : Int) : PosixIo.Impl (List Int) where
  noFileDescriptor := -1
  step := fun c s =>
    match c with
    | PosixIo.IoCall.doOpen _ _ _ => (open_result, s)
    | PosixIo.IoCall.doClose => (0, s)
    | PosixIo.IoCall.allocFileDescriptor =>
      match s.rest with
      | [] => (-1, s)
      | fd :: rest => (fd, { s with fFileDescriptor := fd, rest := rest })
    | PosixIo.IoCall.freeFileDescriptor fd => (0, { s with rest := fd :: s.rest })
    | _ => PosixIo.not_implemented 88 s

/-- An object that overrides `doOpen` alone, which returns 0, and keeps the bodies of
`PosixIo.cpp` for the other virtual functions, with `ENOSYS` equal to 88. The descriptors
manager holds the free descriptors, as the one of `test_impl` does, and checks the
descriptor it is asked to free: a negative one is refused, `freeFileDescriptor` then sets
`errno` to `EBADF`, 9, and returns -1. The constant `noFileDescriptor` is -1. -/
def checked_impl : PosixIo.Impl (List Int) where
  noFileDescriptor := -1
  step := fun c s =>
    match c with
    | PosixIo.IoCall.doOpen _ _ _ => (0, s)
    | PosixIo.IoCall.allocFileDescriptor =>
      match s.rest with
      | [] => (-1, s)
      | fd :: rest => (fd, { s with fFileDescriptor := fd, rest := rest })
    | PosixIo.IoCall.freeFileDescriptor fd =>
      if fd < 0 then (-1, { s with errno := 9 }) else (0, { s with rest := fd :: s.rest })
    | _ => PosixIo.not_implemented 88 s

/-- Four messages, at the addresses `0x10`, `0x20`, `0x30` and `0x40`, to send with the
priorities 1, 5, 3, 5, the second with `os_mqueue_send`, the others with
`os_mqueue_try_send`. -/
def sends0 : List Sending :=
  [⟨true, 0x10, 1⟩, ⟨false, 0x20, 5⟩, ⟨true, 0x30, 3⟩, ⟨true, 0x40, 5⟩]

/-- The threads of the first scenario of the specification, "Threads L(prio 10), M(20),
H(30)", as the threads 0, 1 and 2, none of them blocked, and one free mutex of protocol
`inherit`. -/
def scenario0 : inheritance.Sys 3 1 where
  thread := fun i => ⟨10 * (i.val + 1), 10 * (i.val + 1), none⟩
  mutex := fun _ => ⟨mutex.protocol.inherit, 0, none⟩

/-- A world in thread context whose only message queue is the one that
`os_mqueue_create (mqueue, attr, 4, 4)` builds for the handle `handle0`: an empty queue of
4 slots of 4 bytes at `0x20000000`, the storage the handle points to. No object lives at
`0x2000FF00`, the address of the parameter variable. The byte at address `a` is
`a % 256`. -/
def world_created : World where
  handler_mode := false
  mem := fun a => a % 256
  semaphores := []
  queues := [(0x20000000, ⟨4, 4, []⟩)]

/-- The world `world0`, in interrupt context. -/
def world_isr : World := { world0 with handler_mode := true }

/-- An initial content of an uninitialised `osEvent`. -/
def event0 : osEvent := ⟨0x55, 0x55, 0x55⟩

/-! ## Single calls -/

/-- The program `p` has exactly the effect and the result of the single call `c`, the
reply being converted by `conv`: against every kernel and from every state, `p` makes the
call `c` and no other, leaves the state that `c` leaves, and returns the converted reply
of `c` (or does not return when `c` does not). -/
def IsSingleCall {α : Type} (p : Prog α) (c : Call) (conv : Reply → α) : Prop :=
  ∀ (σ : Type) (k : Kernel σ) (s : σ),
    p.run k s =
      match k c s with
      | none => ⟨[c], s, none⟩
      | some (r, s1) => ⟨[c], s1, some (conv r)⟩

/-- The program `p` is the single call `c` and returns the value that `c` returns. -/
def Forwards (p : Prog Int) (c : Call) : Prop := IsSingleCall p c (fun r => r.ret)

/-- The program `p`, of a function returning `void`, is the single call `c`. -/
def ForwardsVoid (p : Prog Unit) (c : Call) : Prop := IsSingleCall p c (fun _ => ())

/-- The program `p` has exactly the effect of a single call of the member function `op`
with the arguments `args`, made on one object, the same against every kernel and from
every state, and returns the reply of the call converted by `conv`. Which object the call
is made on is not stated. -/
def IsMemberCall {α : Type} (p : Prog α) (op : Op) (args : List Arg) (conv : Reply → α) :
    Prop :=
  ∃ this : Nat, IsSingleCall p ⟨op, some this, args⟩ conv

/-- The program `p` is a single call of the member function `op`, with the arguments
`args`, on one object, and returns the value that the call returns. -/
def ForwardsMember (p : Prog Int) (op : Op) (args : List Arg) : Prop :=
  IsMemberCall p op args (fun r => r.ret)

/-- The program `p`, of a function returning `void`, is a single call of the member
function `op`, with the arguments `args`, on one object. -/
def ForwardsVoidMember (p : Prog Unit) (op : Op) (args : List Arg) : Prop :=
  IsMemberCall p op args (fun _ => ())

/-- The programs `f millisec`, for all the values of `millisec`, are single calls of one
and the same kernel function. -/
def OneOperation {α : Type} (f : Nat → Prog α) : Prop :=
  ∃ op : Op, ∀ millisec : Nat, ∃ (this : Option Nat) (args : List Arg) (conv : Reply → α),
    IsSingleCall (f millisec) ⟨op, this, args⟩ conv

/-! ## Theorems -/

/-- Inside the range where neither the product nor the sum overflows 32 bits,
`compute_sys_ticks` rounds up. -/
theorem compute_sys_ticks_of_le (microsec : Nat) (h : microsec ≤ 4293967) :
    kernel.compute_sys_ticks 32 microsec = ceil_ticks microsec := by
  have h1 : microsec * 1000 + 999999 < 2 ^ 32 := by omega
  have h2 : (microsec * 1000 + 999999) / 1000000 = (microsec + 999) / 1000 := by omega
  have h3 : (microsec + 999) / 1000 < 2 ^ 32 := by omega
  have h4 : microsec * 1000 < 2 ^ 32 := by omega
  unfold kernel.compute_sys_ticks ceil_ticks kernel.rep_arith
  simp only [Nat.lt_irrefl, if_false]
  unfold wrap kernel.sys_tick_frequency_hz
  rw [Nat.mod_eq_of_lt (by norm_num : 1000 < 2 ^ 32),
    Nat.mod_eq_of_lt (by norm_num : 999999 < 2 ^ 32),
    Nat.mod_eq_of_lt (by norm_num : 1000000 < 2 ^ 32),
    Nat.mod_eq_of_lt h4, Nat.mod_eq_of_lt h1, h2, Nat.mod_eq_of_lt h3]

/-- C3 (code at the failing input): for `microsec = 4294000` of type `uint32_t` the sum
`microsec * 1000 + 999999` exceeds `2 ^ 32` and wraps, and `compute_sys_ticks` returns 0
ticks, where rounding up gives 4294 ticks. -/
theorem C3_compute_sys_ticks_overflow :
    (4294000 < 2 ^ 32) ∧ kernel.compute_sys_ticks 32 4294000 = 0 ∧
      ceil_ticks 4294000 = 4294 := by
  decide

/-! ### Running a program -/

@[simp] theorem bind_eq {α β : Type} (p : Prog α) (f : α → Prog β) :
    (p >>= f) = Prog.bind p f := rfl

@[simp] theorem pure_eq {α : Type} (a : α) : (pure a : Prog α) = Prog.ret a := rfl

theorem run_invoke_bind {σ α : Type} (k : Kernel σ) (op : Op) (this : Option Nat)
    (args : List Arg) (f : Reply → Prog α) (s : σ) :
    (Prog.bind (invoke op this args) f).run k s =
      match k ⟨op, this, args⟩ s with
      | none => ⟨[⟨op, this, args⟩], s, none⟩
      | some (r, s1) =>
        ⟨⟨op, this, args⟩ :: ((f r).run k s1).log, ((f r).run k s1).state,
          ((f r).run k s1).ret⟩ := by
  simp only [invoke, Prog.bind, Prog.run]

/-- C1: with `osWaitForever` different from 0, every call of `osMutexWait`,
`osSemaphoreWait`, `osSignalWait`, `osMessagePut`, `osMessageGet`, `osMailAlloc` and
`osMailGet`, run against any kernel from any state, invokes exactly one variant of its
blocking kernel operation: the `try_` variant if and only if `millisec == 0`, the
unbounded one if and only if `millisec == osWaitForever`, the timed one otherwise. -/
theorem C1_one_variant_by_millisec (env : Env) (hw : env.osWaitForever ≠ 0)
    {σ : Type} (k : Kernel σ) (s : σ) (millisec : Nat) (id : Param) (mail : osMailQId)
    (event : osEvent) (signals msg : Int) (info : Nat) :
    InvokesOneVariant env millisec .mutex_lock ((osMutexWait env id millisec).run k s).log ∧
    InvokesOneVariant env millisec .semaphore_wait
      ((osSemaphoreWait env id millisec).run k s).log ∧
    InvokesOneVariant env millisec .flags_wait
      ((osSignalWait env event signals millisec).run k s).log ∧
    InvokesOneVariant env millisec .mqueue_send
      ((osMessagePut env id info millisec).run k s).log ∧
    InvokesOneVariant env millisec .mqueue_receive
      ((osMessageGet env event msg id millisec).run k s).log ∧
    InvokesOneVariant env millisec .mempool_alloc
      ((osMailAlloc env mail millisec).run k s).log ∧
    InvokesOneVariant env millisec .mqueue_receive
      ((osMailGet env event msg mail millisec).run k s).log := by
  have hw2 : ¬ (0 = env.osWaitForever) := fun h => hw h.symm
  refine ⟨?_, ?_, ?_, ?_, ?_, ?_, ?_⟩
  all_goals
    unfold InvokesOneVariant
    by_cases h1 : millisec = env.osWaitForever
    · refine ⟨Variant.unbounded, ?_, by simp [h1, hw], by simp [h1], by simp [h1]⟩
      simp only [osMutexWait, osSemaphoreWait, osSignalWait, osMessagePut, osMessageGet,
        osMailAlloc, osMailGet, h1, if_true, bind_eq, pure_eq, run_invoke_bind]
      cases hk : k _ s <;> simp [variants, Op.variant, Prog.run] <;>
        (try (split <;> simp [Op.variant]))
    · by_cases h0 : millisec = 0
      · refine ⟨Variant.try_, ?_, by simp [h0], by simp [h0, hw2], by simp [h0]⟩
        simp only [osMutexWait, osSemaphoreWait, osSignalWait, osMessagePut, osMessageGet,
          osMailAlloc, osMailGet, h0, hw2, if_true, if_false, bind_eq, pure_eq,
          run_invoke_bind]
        cases hk : k _ s <;> simp [variants, Op.variant, Prog.run] <;>
          (try (split <;> simp [Op.variant]))
      · refine ⟨Variant.timed, ?_, by simp [h0], by simp [h1], by simp [h0, h1]⟩
        simp only [osMutexWait, osSemaphoreWait, osSignalWait, osMessagePut, osMessageGet,
          osMailAlloc, osMailGet, h0, h1, if_false, bind_eq, pure_eq, run_invoke_bind]
        cases hk : k _ s <;> simp [variants, Op.variant, Prog.run] <;>
          (try (split <;> simp [Op.variant]))

/-- C1 (witness): with the constants of `cmsis`, where `osWaitForever` is `0xFFFFFFFF`, a
call of `osMutexWait` with `millisec = 0` against the modelled kernel invokes one variant,
the `try_` one. -/
theorem C1_one_variant_witness :
    cmsis.osWaitForever ≠ 0 ∧
      InvokesOneVariant cmsis 0 .mutex_lock
        ((osMutexWait cmsis handle0 0).run World.kernel world0).log :=
  ⟨by decide,
    (C1_one_variant_by_millisec cmsis (by decide) World.kernel world0 0 handle0
      mail0 event0 0 0 0).1⟩

/-- Inside the range where nothing overflows, `millisec` from 0 to 4293, the legacy
functions hand `millisec` ticks to the timed operation. -/
theorem ticks_cast_mul_of_le (millisec : Nat) (h : millisec ≤ 4293) :
    cmsis.ticks_cast (mul_u32 millisec 1000) = millisec := by
  have h1 : millisec * 1000 < 2 ^ 32 := by omega
  have h2 : mul_u32 millisec 1000 = millisec * 1000 := by
    unfold mul_u32 wrap
    exact Nat.mod_eq_of_lt h1
  show kernel.compute_sys_ticks 32 (mul_u32 millisec 1000) = millisec
  rw [h2, compute_sys_ticks_of_le _ (by omega)]
  unfold ceil_ticks
  omega

/-- Whatever `ticks_cast` is, with `millisec = 4294968` the wrapper's own 32-bit product
`millisec * 1000u` is 704: the timed operation gets the ticks of 704 microseconds. -/
theorem osMutexWait_product_wraps (env : Env) (hw : env.osWaitForever ≠ 4294968)
    {σ : Type} (k : Kernel σ) (s : σ) (id : Param) :
    ((osMutexWait env id 4294968).run k s).log =
      [⟨Op.Mutex_timed_lock, some id.loc, [Arg.val (env.ticks_cast 704)]⟩] := by
  have hw2 : ¬ (4294968 = env.osWaitForever) := fun h => hw h.symm
  have hm : mul_u32 4294968 1000 = 704 := by decide
  simp only [osMutexWait, hw2, if_false, bind_eq, pure_eq, hm]
  simp only [show ¬ ((4294968 : Nat) = 0) by decide, if_false, run_invoke_bind]
  cases k ⟨Op.Mutex_timed_lock, some id.loc, [Arg.val (env.ticks_cast 704)]⟩ s <;>
    simp [Prog.run]

/-- C2 (code at the failing inputs): `millisec = 4295` is neither 0 nor `osWaitForever`,
and `osMutexWait`, `osSemaphoreWait`, `osSignalWait`, `osMessagePut`, `osMessageGet`,
`osMailAlloc`, `osMailGet` and `osDelay` each hand a timeout of 1 tick to the timed
operation, not 4295 ticks or more: in `ticks_cast` the 32-bit product `4295000 * 1000`
wraps. With `millisec = 4294` the timeout is 0 ticks. With `millisec = 4294968` the
32-bit product `millisec * 1000u` of the wrapper wraps to 704 microseconds, and the
timeout is again 1 tick. -/
theorem C2_timeout_shorter_than_millisec :
    4295 ≠ 0 ∧ 4295 ≠ cmsis.osWaitForever ∧
    ((osMutexWait cmsis handle0 4295).run World.kernel world0).log =
      [⟨Op.Mutex_timed_lock, some handle0.loc, [Arg.val 1]⟩] ∧
    ((osSemaphoreWait cmsis handle0 4295).run World.kernel world0).log =
      [⟨Op.Semaphore_timed_wait, some handle0.loc, [Arg.val 1]⟩,
        ⟨Op.Semaphore_value, some handle0.loc, []⟩] ∧
    ((osSignalWait cmsis event0 1 4295).run World.kernel world0).log =
      [⟨Op.flags_timed_wait, none,
        [Arg.conv CType.event_flags_t 1, Arg.out, Arg.val 1]⟩] ∧
    ((osMessagePut cmsis handle0 1 4295).run World.kernel world0).log =
      [⟨Op.Message_queue_timed_send, some handle0.loc,
        [Arg.ptr 1, Arg.val 4, Arg.val 0, Arg.val 1]⟩] ∧
    ((osMessageGet cmsis event0 0 handle0 4295).run World.kernel world0).log =
      [⟨Op.Message_queue_timed_receive, some handle0.loc,
        [Arg.out, Arg.val 4, Arg.ptr 0, Arg.val 1]⟩] ∧
    ((osMailAlloc cmsis mail0 4295).run World.kernel world0).log =
      [⟨Op.Memory_pool_timed_alloc, some mail0.pool, [Arg.val 1]⟩] ∧
    ((osMailGet cmsis event0 0 mail0 4295).run World.kernel world0).log =
      [⟨Op.Message_queue_timed_receive, some mail0.loc,
        [Arg.out, Arg.val 4, Arg.ptr 0, Arg.val 1]⟩] ∧
    ((osDelay cmsis 4295).run World.kernel world0).log =
      [⟨Op.Systick_clock_sleep_for, none, [Arg.val 1]⟩] ∧
    ((osMutexWait cmsis handle0 4294).run World.kernel world0).log =
      [⟨Op.Mutex_timed_lock, some handle0.loc, [Arg.val 0]⟩] ∧
    mul_u32 4294968 1000 = 704 ∧ ceil_ticks 704 = 1 ∧
    ((osMutexWait cmsis handle0 4294968).run World.kernel world0).log =
      [⟨Op.Mutex_timed_lock, some handle0.loc, [Arg.val 1]⟩] := by
  decide

/-- C4: when `scheduler::in_handler_mode ()` answers true, `osKernelInitialize` and
`osThreadYield` return `osErrorISR`, make no other call (neither
`scheduler::initialize ()` nor `this_thread::yield ()`), and leave the state as it is;
when it answers false, each makes its call exactly once, and, when that call returns,
returns `osOK` in the state the call leaves. -/
theorem C4_isr_guard (env : Env) {σ : Type} (k : Kernel σ) (s s1 : σ) (h : Reply)
    (hk : k ⟨Op.scheduler_in_handler_mode, none, []⟩ s = some (h, s1)) :
    (h.ret ≠ 0 →
      (osKernelInitialize env).run k s =
          ⟨[⟨Op.scheduler_in_handler_mode, none, []⟩], s1, some env.osErrorISR⟩ ∧
        (osThreadYield env).run k s =
          ⟨[⟨Op.scheduler_in_handler_mode, none, []⟩], s1, some env.osErrorISR⟩) ∧
    (h.ret = 0 →
      calls_of Op.scheduler_initialize ((osKernelInitialize env).run k s).log =
          [⟨Op.scheduler_initialize, none, []⟩] ∧
        calls_of Op.this_thread_yield ((osThreadYield env).run k s).log =
          [⟨Op.this_thread_yield, none, []⟩] ∧
        (∀ r s2, k ⟨Op.scheduler_initialize, none, []⟩ s1 = some (r, s2) →
          (osKernelInitialize env).run k s =
            ⟨[⟨Op.scheduler_in_handler_mode, none, []⟩, ⟨Op.scheduler_initialize, none, []⟩],
              s2, some env.osOK⟩) ∧
        (∀ r s2, k ⟨Op.this_thread_yield, none, []⟩ s1 = some (r, s2) →
          (osThreadYield env).run k s =
            ⟨[⟨Op.scheduler_in_handler_mode, none, []⟩, ⟨Op.this_thread_yield, none, []⟩],
              s2, some env.osOK⟩)) := by
  constructor
  · intro hne
    simp [osKernelInitialize, osThreadYield, run_invoke_bind, hk, hne, Prog.run]
  · intro h0
    refine ⟨?_, ?_, ?_, ?_⟩
    · simp only [osKernelInitialize, bind_eq, pure_eq, run_invoke_bind, hk, h0]
      cases hi : k ⟨Op.scheduler_initialize, none, []⟩ s1 <;>
        simp [calls_of, Prog.run, Prog.bind, invoke, hi]
    · simp only [osThreadYield, bind_eq, pure_eq, run_invoke_bind, hk, h0]
      cases hi : k ⟨Op.this_thread_yield, none, []⟩ s1 <;>
        simp [calls_of, Prog.run, Prog.bind, invoke, hi]
    · intro r s2 hi
      simp [osKernelInitialize, run_invoke_bind, hk, h0, hi, Prog.run, Prog.bind, invoke]
    · intro r s2 hi
      simp [osThreadYield, run_invoke_bind, hk, h0, hi, Prog.run, Prog.bind, invoke]

/-- C4 (witness): against the modelled kernel, in interrupt context (`world_isr`) the
two functions return `osErrorISR` after the sole query of the context, and in thread
context (`world0`) `osKernelInitialize` calls `scheduler::initialize ()` once and returns
`osOK`. -/
theorem C4_isr_guard_witness :
    (World.kernel ⟨Op.scheduler_in_handler_mode, none, []⟩ world_isr =
        some (⟨1, none⟩, world_isr) ∧
      (osKernelInitialize cmsis).run World.kernel world_isr =
        ⟨[⟨Op.scheduler_in_handler_mode, none, []⟩], world_isr, some cmsis.osErrorISR⟩ ∧
      (osThreadYield cmsis).run World.kernel world_isr =
        ⟨[⟨Op.scheduler_in_handler_mode, none, []⟩], world_isr, some cmsis.osErrorISR⟩) ∧
    (World.kernel ⟨Op.scheduler_in_handler_mode, none, []⟩ world0 =
        some (⟨0, none⟩, world0) ∧
      (osKernelInitialize cmsis).run World.kernel world0 =
        ⟨[⟨Op.scheduler_in_handler_mode, none, []⟩, ⟨Op.scheduler_initialize, none, []⟩],
          world0, some cmsis.osOK⟩) :=
  ⟨⟨rfl, (C4_isr_guard cmsis World.kernel world_isr world_isr ⟨1, none⟩ rfl).1 (by decide)⟩,
    ⟨rfl, ((C4_isr_guard cmsis World.kernel world0 world0 ⟨0, none⟩ rfl).2 rfl).2.2.1
      ⟨result.ok, none⟩ world0 rfl⟩⟩

/-- Whatever the kernel, when the wait returns and `value ()` returns, `osSemaphoreWait`
returns the value read after the wait, converted to `int32_t`, and not the result of
the wait. -/
theorem osSemaphoreWait_try_returns_value (env : Env) (hw : env.osWaitForever ≠ 0)
    {σ : Type} (k : Kernel σ) (s s1 s2 : σ) (id : Param) (r v : Reply)
    (h1 : k ⟨Op.Semaphore_try_wait, some id.loc, []⟩ s = some (r, s1))
    (h2 : k ⟨Op.Semaphore_value, some id.loc, []⟩ s1 = some (v, s2)) :
    ((osSemaphoreWait env id 0).run k s).ret = some (int32_cast v.ret) := by
  have hw2 : ¬ (0 = env.osWaitForever) := fun h => hw h.symm
  simp [osSemaphoreWait, hw2, run_invoke_bind, h1, h2, Prog.run]

/-- C5 (code at the failing input): the semaphore holds one token. For `millisec` 0,
`osWaitForever` and 10, the wait that `osSemaphoreWait` makes succeeds (`try_wait`,
`wait` and `timed_wait` return `ok`) and takes the token (the count goes from 1 to 0),
and `osSemaphoreWait` returns 0. -/
theorem C5_last_token_returns_zero :
    world0.semaphores.lookup handle0.loc = some ⟨1, 1⟩ ∧
    (World.kernel ⟨Op.Semaphore_try_wait, some handle0.loc, []⟩ world0).map
        (fun x => (x.1.ret, x.2.semaphores.lookup handle0.loc)) =
      some (0, some ⟨0, 1⟩) ∧
    ((osSemaphoreWait cmsis handle0 0).run World.kernel world0).log =
      [⟨Op.Semaphore_try_wait, some handle0.loc, []⟩,
        ⟨Op.Semaphore_value, some handle0.loc, []⟩] ∧
    ((osSemaphoreWait cmsis handle0 0).run World.kernel world0).ret = some 0 ∧
    ((osSemaphoreWait cmsis handle0 0).run World.kernel world0).state.semaphores.lookup
        handle0.loc = some ⟨0, 1⟩ ∧
    (World.kernel ⟨Op.Semaphore_wait, some handle0.loc, []⟩ world0).map
        (fun x => (x.1.ret, x.2.semaphores.lookup handle0.loc)) =
      some (0, some ⟨0, 1⟩) ∧
    ((osSemaphoreWait cmsis handle0 0xFFFFFFFF).run World.kernel world0).ret = some 0 ∧
    (World.kernel ⟨Op.Semaphore_timed_wait, some handle0.loc, [Arg.val 10]⟩ world0).map
        (fun x => (x.1.ret, x.2.semaphores.lookup handle0.loc)) =
      some (0, some ⟨0, 1⟩) ∧
    ((osSemaphoreWait cmsis handle0 10).run World.kernel world0).ret = some 0 := by
  decide

/-- C6 (code at the failing input): `info = 1`. On the empty queue `osMessagePut` succeeds
(`ok`), and the message it queues is the four bytes stored at the addresses 1 to 4, since
`(const char*) info` is passed as the address of the message. The next `osMessageGet`
succeeds and its event has `value.v = 0x04030201`, the word at address 1, not 1. -/
theorem C6_round_trip_returns_memory_word :
    world0.queues.lookup handle0.loc = some ⟨4, 4, []⟩ ∧
    ((osMessagePut cmsis handle0 1 0).run World.kernel world0).log =
      [⟨Op.Message_queue_try_send, some handle0.loc, [Arg.ptr 1, Arg.val 4, Arg.val 0]⟩] ∧
    ((osMessagePut cmsis handle0 1 0).run World.kernel world0).ret = some 0 ∧
    ((osMessagePut cmsis handle0 1 0).run World.kernel world0).state.queues.lookup
        handle0.loc = some ⟨4, 4, [⟨[1, 2, 3, 4], 0⟩]⟩ ∧
    ((osMessageGet cmsis event0 0 handle0 0).run World.kernel
        ((osMessagePut cmsis handle0 1 0).run World.kernel world0).state).ret =
      some ⟨0, 0x04030201, event0.def_⟩ ∧
    (0x04030201 : Int) ≠ 1 := by
  decide

/-- Whatever the definitions, the constructor call that `osPoolCreate` makes has two
arguments, the number of blocks and the size of a block, and `osMailCreate` constructs
its pool the same way; the program does not depend on the field `pool`. -/
theorem osPoolCreate_ignores_pool (pool_def : osPoolDef_t) (queue_def : osMailQDef_t)
    (t : Param) (p : Nat) :
    osPoolCreate { pool_def with pool := p } = osPoolCreate pool_def ∧
      osMailCreate { queue_def with pool := p } t = osMailCreate queue_def t := by
  constructor <;> rfl

/-- C7 (code at the failing input): for a pool definition whose field `pool` is
`0x20001000`, the one call of `osPoolCreate` is the constructor
`Memory_pool (pool_sz, item_sz)` on the storage `data`: no attributes record and no
pool address are among its arguments, and a definition with another `pool` gives the
same program. `osMailCreate` constructs its `Memory_pool` the same way, while it passes
`queue_attr`, with the queue address, to the constructor of its `Message_queue`. -/
theorem C7_pool_address_not_passed :
    ((osPoolCreate ⟨0, 8, 16, 0x20001000, 0x20000100⟩).run World.kernel world0).log =
      [⟨Op.Memory_pool_ctor, some 0x20000100,
        [Arg.conv CType.mempool_size_t 8, Arg.conv CType.mempool_size_t 16]⟩] ∧
    osPoolCreate ⟨0, 8, 16, 0x20001000, 0x20000100⟩ =
      osPoolCreate ⟨0, 8, 16, 0x20002000, 0x20000100⟩ ∧
    ((osMailCreate ⟨0, 8, 16, 0x20001000, 4, 4, 0x20003000, 16, 0x20000100, 0x20000200,
        0x20000080⟩ handle0).run World.kernel world0).log =
      [⟨Op.Memory_pool_ctor, some 0x20000100,
          [Arg.conv CType.mempool_size_t 8, Arg.conv CType.mempool_size_t 16]⟩,
        ⟨Op.Message_queue_ctor, some 0x20000200,
          [Arg.attr ⟨0, [(AttrField.queue_address, 0x20003000),
              (AttrField.queue_size_bytes, 16)]⟩,
            Arg.conv CType.mqueue_size_t 4, Arg.conv CType.mqueue_size_t 4]⟩] := by
  refine ⟨by decide, rfl, by decide⟩

/-- A program that has the effect of a single call logs that call, and no other, in every
run. -/
theorem log_of_isSingleCall {α : Type} {p : Prog α} {c : Call} {conv : Reply → α}
    (h : IsSingleCall p c conv) {σ : Type} (k : Kernel σ) (s : σ) : (p.run k s).log = [c] := by
  rw [h σ k s]
  cases k c s <;> rfl

/-- A program that makes no call, or more than one, in some run has not the effect of a
single call. -/
theorem not_isSingleCall_of_log {α : Type} (p : Prog α) {σ : Type} (k : Kernel σ) (s : σ)
    (h : (p.run k s).log.length ≠ 1) : ¬ ∃ (c : Call) (conv : Reply → α), IsSingleCall p c conv := by
  rintro ⟨c, conv, hc⟩
  rw [log_of_isSingleCall hc k s] at h
  exact h rfl

/-- Programs that call two different kernel functions for two values of `millisec` are
not single calls of one kernel function. -/
theorem not_oneOperation {α : Type} (f : Nat → Prog α) {σ : Type} (k : Kernel σ) (s : σ)
    (m1 m2 : Nat) (c1 c2 : Call) (h1 : ((f m1).run k s).log = [c1])
    (h2 : ((f m2).run k s).log = [c2]) (hne : c1.op ≠ c2.op) : ¬ OneOperation f := by
  rintro ⟨op, h⟩
  obtain ⟨t1, a1, v1, e1⟩ := h m1
  obtain ⟨t2, a2, v2, e2⟩ := h m2
  rw [log_of_isSingleCall e1 k s] at h1
  rw [log_of_isSingleCall e2 k s] at h2
  simp only [List.cons.injEq, and_true] at h1 h2
  apply hne
  rw [← h1, ← h2]

/-- C8 (counterexample): thirteen legacy functions have not the effect of a single call of
one kernel function. Whatever the call and the conversion of its result:
`osKernelInitialize ()` and `osThreadYield ()` make two calls in thread context,
`scheduler::in_handler_mode ()` first; `osSemaphoreWait (semaphore_id, 0)` makes two calls,
`try_wait ()` and `value ()`; `osPoolCAlloc` and `osMailCAlloc`, on a pool with a free
block, make three calls, the last one `memset`; `osMailCreate` calls two constructors.
`osMutexWait`, `osSignalWait`, `osMessagePut`, `osMessageGet`, `osMailAlloc` and
`osMailGet` call one kernel function for `millisec = 0` and another for `millisec = 1`.
`osKernelSysTick` returns a value computed from three fields of the record that the clock
fills: 7 for 2 ticks, a divisor of 3 and 1 cycle. -/
theorem C8_legacy_wrapper_has_logic :
    (¬ ∃ (c : Call) (conv : Reply → Int), IsSingleCall (osKernelInitialize cmsis) c conv) ∧
    (¬ ∃ (c : Call) (conv : Reply → Int), IsSingleCall (osThreadYield cmsis) c conv) ∧
    (¬ ∃ (c : Call) (conv : Reply → Int),
      IsSingleCall (osSemaphoreWait cmsis handle0 0) c conv) ∧
    (¬ ∃ (c : Call) (conv : Reply → Int), IsSingleCall (osPoolCAlloc handle0) c conv) ∧
    (¬ ∃ (c : Call) (conv : Reply → Int),
      IsSingleCall (osMailCAlloc cmsis mail0 0) c conv) ∧
    (¬ ∃ (c : Call) (conv : Reply → Nat),
      IsSingleCall
        (osMailCreate ⟨0, 8, 16, 0x20001000, 4, 4, 0x20003000, 16, 0x20000100, 0x20000200,
          0x20000080⟩ handle0) c conv) ∧
    ¬ OneOperation (osMutexWait cmsis handle0) ∧
    ¬ OneOperation (osSignalWait cmsis event0 1) ∧
    ¬ OneOperation (osMessagePut cmsis handle0 1) ∧
    ¬ OneOperation (osMessageGet cmsis event0 0 handle0) ∧
    ¬ OneOperation (osMailAlloc cmsis mail0) ∧
    ¬ OneOperation (osMailGet cmsis event0 0 mail0) ∧
    osKernelSysTick ⟨2, 1, 3, 0⟩ = 7 := by
  refine ⟨not_isSingleCall_of_log _ World.kernel world0 (by decide),
    not_isSingleCall_of_log _ World.kernel world0 (by decide),
    not_isSingleCall_of_log _ World.kernel world0 (by decide),
    not_isSingleCall_of_log _ World.kernel world_pool (by decide),
    not_isSingleCall_of_log _ World.kernel
      (world_pool.set_pool 0x20000000 ⟨0x20002000, 16, 1, [0x20002000]⟩) (by decide),
    not_isSingleCall_of_log _ World.kernel world0 (by decide),
    not_oneOperation _ World.kernel world0 0 1 ⟨Op.Mutex_try_lock, some 0x2000FF00, []⟩
      ⟨Op.Mutex_timed_lock, some 0x2000FF00, [Arg.val 1]⟩ (by decide) (by decide) (by decide),
    not_oneOperation _ World.kernel world0 0 1
      ⟨Op.flags_try_wait, none, [Arg.conv CType.event_flags_t 1, Arg.out]⟩
      ⟨Op.flags_timed_wait, none, [Arg.conv CType.event_flags_t 1, Arg.out, Arg.val 1]⟩
      (by decide) (by decide) (by decide),
    not_oneOperation _ World.kernel world0 0 1
      ⟨Op.Message_queue_try_send, some 0x2000FF00, [Arg.ptr 1, Arg.val 4, Arg.val 0]⟩
      ⟨Op.Message_queue_timed_send, some 0x2000FF00,
        [Arg.ptr 1, Arg.val 4, Arg.val 0, Arg.val 1]⟩ (by decide) (by decide) (by decide),
    not_oneOperation _ World.kernel world0 0 1
      ⟨Op.Message_queue_try_receive, some 0x2000FF00, [Arg.out, Arg.val 4, Arg.ptr 0]⟩
      ⟨Op.Message_queue_timed_receive, some 0x2000FF00,
        [Arg.out, Arg.val 4, Arg.ptr 0, Arg.val 1]⟩ (by decide) (by decide) (by decide),
    not_oneOperation _ World.kernel world0 0 1
      ⟨Op.Memory_pool_try_alloc, some 0x20000000, []⟩
      ⟨Op.Memory_pool_timed_alloc, some 0x20000000, [Arg.val 1]⟩
      (by decide) (by decide) (by decide),
    not_oneOperation _ World.kernel world0 0 1
      ⟨Op.Message_queue_try_receive, some 0x2000FF00, [Arg.out, Arg.val 4, Arg.ptr 0]⟩
      ⟨Op.Message_queue_timed_receive, some 0x2000FF00,
        [Arg.out, Arg.val 4, Arg.ptr 0, Arg.val 1]⟩ (by decide) (by decide) (by decide),
    by decide⟩

/-- The calls of the wrapper functions that make a single call, each with the object it is
made on (`none` for a function that is not a member function), its arguments and the
conversion of its reply, against every kernel: the functions of the CMSIS++ C API (`os_*`)
and the legacy functions that neither test the context, nor select a variant, nor make a
second call. -/
theorem wrapper_calls (thread mutex condvar semaphore mempool mqueue : Param)
    (attr func args exit_ptr old_prio_ceiling block blocks block_size_bytes msgs
      msg_size_bytes msg nbytes mprio ticks : Nat) (prio prio_ceiling priority : Int)
    (thread_id timer_id mutex_id semaphore_id pool_id : Param) (env : Env)
    (thread_def : osThreadDef_t) (timer_def : osTimerDef_t) (mutex_def : osMutexDef_t)
    (semaphore_def : osSemaphoreDef_t) (pool_def : osPoolDef_t)
    (queue_def : osMessageQDef_t) (queue_id : osMailQId) (event : osEvent)
    (ret signals type count : Int) (millisec mail pool_id_loc : Nat) :
    Forwards os_sched_initialize ⟨Op.scheduler_initialize, none, []⟩ ∧
    Forwards os_sched_start ⟨Op.scheduler_start, none, []⟩ ∧
    Forwards os_sched_is_started ⟨Op.scheduler_is_started, none, []⟩ ∧
    ForwardsVoid (os_thread_create thread attr func args)
      ⟨Op.Thread_ctor, some thread.val, [.ptr attr, .ptr func, .ptr args]⟩ ∧
    ForwardsVoid (os_thread_destroy thread) ⟨Op.Thread_dtor, some thread.loc, []⟩ ∧
    ForwardsVoid (os_thread_exit thread exit_ptr)
      ⟨Op.Thread_exit, some thread.loc, [.ptr exit_ptr]⟩ ∧
    Forwards (os_thread_join thread exit_ptr) ⟨Op.Thread_join, some thread.loc, [.ptr exit_ptr]⟩ ∧
    Forwards (os_thread_get_prio thread) ⟨Op.Thread_sched_prio_get, some thread.loc, []⟩ ∧
    Forwards (os_thread_set_prio thread prio)
      ⟨Op.Thread_sched_prio_set, some thread.loc, [.val prio]⟩ ∧
    ForwardsVoid (os_thread_wakeup thread) ⟨Op.Thread_wakeup, some thread.loc, []⟩ ∧
    ForwardsVoid (os_mutex_create mutex attr) ⟨Op.Mutex_ctor, some mutex.val, [.ptr attr]⟩ ∧
    ForwardsVoid (os_mutex_destroy mutex) ⟨Op.Mutex_dtor, some mutex.loc, []⟩ ∧
    Forwards (os_mutex_lock mutex) ⟨Op.Mutex_lock, some mutex.loc, []⟩ ∧
    Forwards (os_mutex_try_lock mutex) ⟨Op.Mutex_try_lock, some mutex.loc, []⟩ ∧
    Forwards (os_mutex_timed_lock mutex ticks)
      ⟨Op.Mutex_timed_lock, some mutex.loc, [.val ticks]⟩ ∧
    Forwards (os_mutex_unlock mutex) ⟨Op.Mutex_unlock, some mutex.loc, []⟩ ∧
    Forwards (os_get_mutex_prio_ceiling mutex) ⟨Op.Mutex_prio_ceiling_get, some mutex.loc, []⟩ ∧
    Forwards (os_set_mutex_prio_ceiling mutex prio_ceiling old_prio_ceiling)
      ⟨Op.Mutex_prio_ceiling_set, some mutex.loc, [.val prio_ceiling, .ptr old_prio_ceiling]⟩ ∧
    ForwardsVoid (os_condvar_create condvar attr)
      ⟨Op.Condition_variable_ctor, some condvar.val, [.ptr attr]⟩ ∧
    ForwardsVoid (os_condvar_destroy condvar) ⟨Op.Condition_variable_dtor, some condvar.loc, []⟩ ∧
    Forwards (os_condvar_signal condvar) ⟨Op.Condition_variable_signal, some condvar.loc, []⟩ ∧
    Forwards (os_condvar_broadcast condvar)
      ⟨Op.Condition_variable_broadcast, some condvar.loc, []⟩ ∧
    Forwards (os_condvar_wait condvar mutex)
      ⟨Op.Condition_variable_wait, some condvar.loc, [.ptr mutex.val]⟩ ∧
    Forwards (os_condvar_timed_wait condvar mutex ticks)
      ⟨Op.Condition_variable_timed_wait, some condvar.loc, [.ptr mutex.val, .val ticks]⟩ ∧
    ForwardsVoid (os_semaphore_create semaphore attr)
      ⟨Op.Semaphore_ctor, some semaphore.val, [.ptr attr]⟩ ∧
    ForwardsVoid (os_semaphore_destroy semaphore) ⟨Op.Semaphore_dtor, some semaphore.loc, []⟩ ∧
    Forwards (os_semaphore_post semaphore) ⟨Op.Semaphore_post, some semaphore.loc, []⟩ ∧
    Forwards (os_semaphore_wait semaphore) ⟨Op.Semaphore_wait, some semaphore.loc, []⟩ ∧
    Forwards (os_semaphore_try_wait semaphore) ⟨Op.Semaphore_try_wait, some semaphore.loc, []⟩ ∧
    Forwards (os_semaphore_timed_wait semaphore ticks)
      ⟨Op.Semaphore_timed_wait, some semaphore.loc, [.val ticks]⟩ ∧
    Forwards (os_semaphore_get_value semaphore) ⟨Op.Semaphore_value, some semaphore.loc, []⟩ ∧
    Forwards (os_semaphore_reset semaphore) ⟨Op.Semaphore_reset, some semaphore.loc, []⟩ ∧
    ForwardsVoid (os_mempool_create mempool attr blocks block_size_bytes)
      ⟨Op.Memory_pool_ctor, some mempool.val, [.ptr attr, .val blocks, .val block_size_bytes]⟩ ∧
    ForwardsVoid (os_mempool_destroy mempool) ⟨Op.Memory_pool_dtor, some mempool.loc, []⟩ ∧
    Forwards (os_mempool_alloc mempool) ⟨Op.Memory_pool_alloc, some mempool.loc, []⟩ ∧
    Forwards (os_mempool_try_alloc mempool) ⟨Op.Memory_pool_try_alloc, some mempool.loc, []⟩ ∧
    Forwards (os_mempool_timed_alloc mempool ticks)
      ⟨Op.Memory_pool_timed_alloc, some mempool.loc, [.val ticks]⟩ ∧
    Forwards (os_mempool_free mempool block)
      ⟨Op.Memory_pool_free, some mempool.loc, [.ptr block]⟩ ∧
    Forwards (os_mempool_get_size mempool) ⟨Op.Memory_pool_size, some mempool.loc, []⟩ ∧
    Forwards (os_mempool_get_count mempool) ⟨Op.Memory_pool_count, some mempool.loc, []⟩ ∧
    Forwards (os_mempool_get_block_size mempool)
      ⟨Op.Memory_pool_block_size, some mempool.loc, []⟩ ∧
    Forwards (os_mempool_is_empty mempool) ⟨Op.Memory_pool_is_empty, some mempool.loc, []⟩ ∧
    Forwards (os_mempool_is_full mempool) ⟨Op.Memory_pool_is_full, some mempool.loc, []⟩ ∧
    Forwards (os_mempool_reset mempool) ⟨Op.Memory_pool_reset, some mempool.loc, []⟩ ∧
    ForwardsVoid (os_mqueue_create mqueue attr msgs msg_size_bytes)
      ⟨Op.Message_queue_ctor, some mqueue.val, [.ptr attr, .val msgs, .val msg_size_bytes]⟩ ∧
    ForwardsVoid (os_mqueue_destroy mqueue) ⟨Op.Message_queue_dtor, some mqueue.loc, []⟩ ∧
    Forwards (os_mqueue_send mqueue msg nbytes mprio)
      ⟨Op.Message_queue_send, some mqueue.loc, [.ptr msg, .val nbytes, .val mprio]⟩ ∧
    Forwards (os_mqueue_try_send mqueue msg nbytes mprio)
      ⟨Op.Message_queue_try_send, some mqueue.loc, [.ptr msg, .val nbytes, .val mprio]⟩ ∧
    Forwards (os_mqueue_timed_send mqueue msg nbytes mprio ticks)
      ⟨Op.Message_queue_timed_send, some mqueue.loc, [.ptr msg, .val nbytes, .val mprio, .val
        ticks]⟩ ∧
    Forwards (os_mqueue_receive mqueue msg nbytes mprio)
      ⟨Op.Message_queue_receive, some mqueue.loc, [.ptr msg, .val nbytes, .ptr mprio]⟩ ∧
    Forwards (os_mqueue_try_receive mqueue msg nbytes mprio)
      ⟨Op.Message_queue_try_receive, some mqueue.loc, [.ptr msg, .val nbytes, .ptr mprio]⟩ ∧
    Forwards (os_mqueue_timed_receive mqueue msg nbytes mprio ticks)
      ⟨Op.Message_queue_timed_receive, some mqueue.loc, [.ptr msg, .val nbytes, .ptr mprio, .val
        ticks]⟩ ∧
    Forwards (os_mqueue_get_length mqueue) ⟨Op.Message_queue_length, some mqueue.loc, []⟩ ∧
    Forwards (os_mqueue_get_size mqueue) ⟨Op.Message_queue_size, some mqueue.loc, []⟩ ∧
    Forwards (os_mqueue_get_msg_size mqueue) ⟨Op.Message_queue_msg_size, some mqueue.loc, []⟩ ∧
    Forwards (os_mqueue_get_is_empty mqueue) ⟨Op.Message_queue_is_empty, some mqueue.loc, []⟩ ∧
    Forwards (os_mqueue_get_is_full mqueue) ⟨Op.Message_queue_is_full, some mqueue.loc, []⟩ ∧
    Forwards (os_mqueue_reset mqueue) ⟨Op.Message_queue_reset, some mqueue.loc, []⟩ ∧
    Forwards osKernelStart ⟨Op.scheduler_start, none, []⟩ ∧
    Forwards (osThreadSetPriority thread_id priority)
      ⟨Op.Thread_sched_prio_set, some thread_id.loc, [.conv .thread_priority_t priority]⟩ ∧
    Forwards (osThreadGetPriority thread_id) ⟨Op.Thread_sched_prio_get, some thread_id.loc, []⟩ ∧
    Forwards (osTimerStop timer_id) ⟨Op.Timer_stop, some timer_id.loc, []⟩ ∧
    Forwards (osMutexRelease mutex_id) ⟨Op.Mutex_unlock, some mutex_id.loc, []⟩ ∧
    Forwards (osSemaphoreRelease semaphore_id) ⟨Op.Semaphore_post, some semaphore_id.loc, []⟩ ∧
    Forwards (osPoolAlloc pool_id) ⟨Op.Memory_pool_try_alloc, some pool_id.loc, []⟩ ∧
    Forwards (osPoolFree pool_id block) ⟨Op.Memory_pool_free, some pool_id.loc, [.ptr block]⟩ ∧
    IsSingleCall osKernelRunning
      ⟨Op.scheduler_is_started, none, []⟩
      (fun r => if r.ret ≠ 0 then 1 else 0) ∧
    IsSingleCall (osThreadCreate thread_def args)
      ⟨Op.Thread_ctor, some thread_def.data, [.ptr thread_def.pthread, .ptr args]⟩
      (fun _ => thread_def.data) ∧
    Forwards osThreadGetId ⟨Op.this_thread_thread, none, []⟩ ∧
    IsSingleCall (osThreadTerminate env thread_id)
      ⟨Op.Thread_dtor, some thread_id.loc, []⟩
      (fun _ => env.osOK) ∧
    Forwards (osDelay env millisec)
      ⟨Op.Systick_clock_sleep_for, none, [.val (env.ticks_cast (mul_u32 millisec 1000))]⟩ ∧
    IsSingleCall (osWait env event millisec)
      ⟨Op.Systick_clock_sleep_for, none, [.val (env.ticks_cast millisec)]⟩
      (fun r => { event with status := r.ret }) ∧
    IsSingleCall (osTimerCreate timer_def type args)
      ⟨Op.Timer_ctor, some timer_def.data, [.attr ⟨timer_def.name, [(.tm_type, type)]⟩, .ptr
        timer_def.ptimer, .ptr args]⟩
      (fun _ => timer_def.data) ∧
    Forwards (osTimerStart env timer_id millisec)
      ⟨Op.Timer_start, some timer_id.loc, [.val (env.ticks_cast millisec)]⟩ ∧
    IsSingleCall (osTimerDelete env timer_id)
      ⟨Op.Timer_dtor, some timer_id.loc, []⟩
      (fun _ => env.osOK) ∧
    IsSingleCall (osSignalSet ret thread_id signals)
      ⟨Op.flags_set, none, [.ptr thread_id.val, .conv .event_flags_t signals, .out]⟩
      (fun r => (r.out.map int32_cast).getD ret) ∧
    IsSingleCall (osSignalClear ret thread_id signals)
      ⟨Op.flags_clear, none, [.ptr thread_id.val, .conv .event_flags_t signals, .out]⟩
      (fun r => (r.out.map int32_cast).getD ret) ∧
    IsSingleCall (osMutexCreate mutex_def)
      ⟨Op.Mutex_ctor, some mutex_def.data, []⟩
      (fun _ => mutex_def.data) ∧
    IsSingleCall (osMutexDelete env mutex_id)
      ⟨Op.Mutex_dtor, some mutex_id.loc, []⟩
      (fun _ => env.osOK) ∧
    IsSingleCall (osSemaphoreCreate semaphore_def count)
      ⟨Op.Semaphore_ctor, some semaphore_def.data, [.attr ⟨semaphore_def.name,
        [(.sm_initial_count, count)]⟩]⟩
      (fun _ => semaphore_def.data) ∧
    IsSingleCall (osSemaphoreDelete env semaphore_id)
      ⟨Op.Semaphore_dtor, some semaphore_id.loc, []⟩
      (fun _ => env.osOK) ∧
    IsSingleCall (osPoolCreate pool_def)
      ⟨Op.Memory_pool_ctor, some pool_def.data, [.conv .mempool_size_t pool_def.pool_sz, .conv
        .mempool_size_t pool_def.item_sz]⟩
      (fun _ => pool_def.data) ∧
    IsSingleCall (osMessageCreate queue_def thread_id)
      ⟨Op.Message_queue_ctor, some queue_def.data, [.attr ⟨queue_def.name, [(.queue_address,
        queue_def.queue), (.queue_size_bytes, queue_def.queue_sz)]⟩, .conv .mqueue_size_t
        queue_def.items, .conv .mqueue_size_t queue_def.item_sz]⟩
      (fun _ => queue_def.data) ∧
    Forwards (osMailPut env queue_id mail)
      ⟨Op.Message_queue_try_send, some queue_id.queue, [.ptr mail, .val env.sizeof_ptr, .val 0]⟩ ∧
    Forwards (osMailFree pool_id_loc queue_id mail)
      ⟨Op.Memory_pool_free, some pool_id_loc, [.ptr mail]⟩ := by
  simp only [Forwards, ForwardsVoid, IsSingleCall]
  refine ⟨ ?_, ?_, ?_, ?_, ?_, ?_, ?_, ?_, ?_, ?_, ?_, ?_, ?_, ?_, ?_, ?_, ?_, ?_, ?_, ?_, ?_, ?_,
    ?_, ?_, ?_, ?_, ?_, ?_, ?_, ?_, ?_, ?_, ?_, ?_, ?_, ?_, ?_, ?_, ?_, ?_, ?_, ?_, ?_, ?_, ?_, ?_,
    ?_, ?_, ?_, ?_, ?_, ?_, ?_, ?_, ?_, ?_, ?_, ?_, ?_, ?_, ?_, ?_, ?_, ?_, ?_, ?_, ?_, ?_, ?_, ?_,
    ?_, ?_, ?_, ?_, ?_, ?_, ?_, ?_, ?_, ?_, ?_, ?_, ?_, ?_, ?_⟩
  all_goals
    intro σ k s
    simp only [os_sched_start, os_sched_initialize, os_sched_is_started, os_thread_create,
      os_thread_destroy, os_thread_exit, os_thread_join, os_thread_get_prio,
      os_thread_set_prio, os_thread_wakeup, os_mutex_create, os_mutex_destroy,
      os_mutex_lock, os_mutex_try_lock, os_mutex_timed_lock, os_mutex_unlock,
      os_get_mutex_prio_ceiling, os_set_mutex_prio_ceiling, os_condvar_create,
      os_condvar_destroy, os_condvar_signal, os_condvar_broadcast, os_condvar_wait,
      os_condvar_timed_wait, os_semaphore_create, os_semaphore_destroy, os_semaphore_post,
      os_semaphore_wait, os_semaphore_try_wait, os_semaphore_timed_wait,
      os_semaphore_get_value, os_semaphore_reset, os_mempool_create, os_mempool_destroy,
      os_mempool_alloc, os_mempool_try_alloc, os_mempool_timed_alloc, os_mempool_free,
      os_mempool_get_size, os_mempool_get_count, os_mempool_get_block_size,
      os_mempool_is_empty, os_mempool_is_full, os_mempool_reset, os_mqueue_create,
      os_mqueue_destroy, os_mqueue_send, os_mqueue_try_send, os_mqueue_timed_send,
      os_mqueue_receive, os_mqueue_try_receive, os_mqueue_timed_receive,
      os_mqueue_get_length, os_mqueue_get_size, os_mqueue_get_msg_size,
      os_mqueue_get_is_empty, os_mqueue_get_is_full, os_mqueue_reset, osKernelStart,
      osThreadSetPriority, osThreadGetPriority, osTimerStop, osMutexRelease,
      osSemaphoreRelease, osPoolAlloc, osPoolFree, osKernelRunning, osThreadCreate,
      osThreadGetId, osThreadTerminate, osDelay, osWait, osTimerCreate, osTimerStart,
      osTimerDelete, osSignalSet, osSignalClear, osMutexCreate, osMutexDelete,
      osSemaphoreCreate, osSemaphoreDelete, osPoolCreate, osMessageCreate, osMailPut,
      osMailFree, bind_eq, pure_eq, run_invoke_bind]
    cases k _ s <;> rfl

/-- C8 (amended): every function of the CMSIS++ C API (`os_*`), and every legacy function
other than the thirteen of the counterexample, has exactly the effect of a single call of
the corresponding kernel function and returns its result: against every kernel and from
every state it makes that call and no other, with its arguments converted (in type; a
duration through `ticks_cast`; the fields of a definition record as the arguments of a
constructor), leaves the state that the call leaves, and returns what the call returns,
converted (`osOK` after a destructor, the address of the storage after a constructor).
For a member function called through a handle, the object the call is made on is not
stated: there is one, the same against every kernel. -/
theorem C8_wrappers_single_call (thread mutex condvar semaphore mempool mqueue : Param)
    (attr func args exit_ptr old_prio_ceiling block blocks block_size_bytes msgs
      msg_size_bytes msg nbytes mprio ticks : Nat) (prio prio_ceiling priority : Int)
    (thread_id timer_id mutex_id semaphore_id pool_id : Param) (env : Env)
    (thread_def : osThreadDef_t) (timer_def : osTimerDef_t) (mutex_def : osMutexDef_t)
    (semaphore_def : osSemaphoreDef_t) (pool_def : osPoolDef_t)
    (queue_def : osMessageQDef_t) (queue_id : osMailQId) (event : osEvent)
    (ret signals type count : Int) (millisec mail pool_id_loc : Nat) :
    Forwards os_sched_initialize ⟨Op.scheduler_initialize, none, []⟩ ∧
    Forwards os_sched_start ⟨Op.scheduler_start, none, []⟩ ∧
    Forwards os_sched_is_started ⟨Op.scheduler_is_started, none, []⟩ ∧
    ForwardsVoid (os_thread_create thread attr func args)
      ⟨Op.Thread_ctor, some thread.val, [.ptr attr, .ptr func, .ptr args]⟩ ∧
    ForwardsVoidMember (os_thread_destroy thread) Op.Thread_dtor [] ∧
    ForwardsVoidMember (os_thread_exit thread exit_ptr) Op.Thread_exit [.ptr exit_ptr] ∧
    ForwardsMember (os_thread_join thread exit_ptr) Op.Thread_join [.ptr exit_ptr] ∧
    ForwardsMember (os_thread_get_prio thread) Op.Thread_sched_prio_get [] ∧
    ForwardsMember (os_thread_set_prio thread prio) Op.Thread_sched_prio_set [.val prio] ∧
    ForwardsVoidMember (os_thread_wakeup thread) Op.Thread_wakeup [] ∧
    ForwardsVoid (os_mutex_create mutex attr) ⟨Op.Mutex_ctor, some mutex.val, [.ptr attr]⟩ ∧
    ForwardsVoidMember (os_mutex_destroy mutex) Op.Mutex_dtor [] ∧
    ForwardsMember (os_mutex_lock mutex) Op.Mutex_lock [] ∧
    ForwardsMember (os_mutex_try_lock mutex) Op.Mutex_try_lock [] ∧
    ForwardsMember (os_mutex_timed_lock mutex ticks) Op.Mutex_timed_lock [.val ticks] ∧
    ForwardsMember (os_mutex_unlock mutex) Op.Mutex_unlock [] ∧
    ForwardsMember (os_get_mutex_prio_ceiling mutex) Op.Mutex_prio_ceiling_get [] ∧
    ForwardsMember (os_set_mutex_prio_ceiling mutex prio_ceiling old_prio_ceiling)
      Op.Mutex_prio_ceiling_set [.val prio_ceiling, .ptr old_prio_ceiling] ∧
    ForwardsVoid (os_condvar_create condvar attr)
      ⟨Op.Condition_variable_ctor, some condvar.val, [.ptr attr]⟩ ∧
    ForwardsVoidMember (os_condvar_destroy condvar) Op.Condition_variable_dtor [] ∧
    ForwardsMember (os_condvar_signal condvar) Op.Condition_variable_signal [] ∧
    ForwardsMember (os_condvar_broadcast condvar) Op.Condition_variable_broadcast [] ∧
    ForwardsMember (os_condvar_wait condvar mutex) Op.Condition_variable_wait [.ptr mutex.val] ∧
    ForwardsMember (os_condvar_timed_wait condvar mutex ticks)
      Op.Condition_variable_timed_wait [.ptr mutex.val, .val ticks] ∧
    ForwardsVoid (os_semaphore_create semaphore attr)
      ⟨Op.Semaphore_ctor, some semaphore.val, [.ptr attr]⟩ ∧
    ForwardsVoidMember (os_semaphore_destroy semaphore) Op.Semaphore_dtor [] ∧
    ForwardsMember (os_semaphore_post semaphore) Op.Semaphore_post [] ∧
    ForwardsMember (os_semaphore_wait semaphore) Op.Semaphore_wait [] ∧
    ForwardsMember (os_semaphore_try_wait semaphore) Op.Semaphore_try_wait [] ∧
    ForwardsMember (os_semaphore_timed_wait semaphore ticks)
      Op.Semaphore_timed_wait [.val ticks] ∧
    ForwardsMember (os_semaphore_get_value semaphore) Op.Semaphore_value [] ∧
    ForwardsMember (os_semaphore_reset semaphore) Op.Semaphore_reset [] ∧
    ForwardsVoid (os_mempool_create mempool attr blocks block_size_bytes)
      ⟨Op.Memory_pool_ctor, some mempool.val, [.ptr attr, .val blocks, .val block_size_bytes]⟩ ∧
    ForwardsVoidMember (os_mempool_destroy mempool) Op.Memory_pool_dtor [] ∧
    ForwardsMember (os_mempool_alloc mempool) Op.Memory_pool_alloc [] ∧
    ForwardsMember (os_mempool_try_alloc mempool) Op.Memory_pool_try_alloc [] ∧
    ForwardsMember (os_mempool_timed_alloc mempool ticks)
      Op.Memory_pool_timed_alloc [.val ticks] ∧
    ForwardsMember (os_mempool_free mempool block) Op.Memory_pool_free [.ptr block] ∧
    ForwardsMember (os_mempool_get_size mempool) Op.Memory_pool_size [] ∧
    ForwardsMember (os_mempool_get_count mempool) Op.Memory_pool_count [] ∧
    ForwardsMember (os_mempool_get_block_size mempool) Op.Memory_pool_block_size [] ∧
    ForwardsMember (os_mempool_is_empty mempool) Op.Memory_pool_is_empty [] ∧
    ForwardsMember (os_mempool_is_full mempool) Op.Memory_pool_is_full [] ∧
    ForwardsMember (os_mempool_reset mempool) Op.Memory_pool_reset [] ∧
    ForwardsVoid (os_mqueue_create mqueue attr msgs msg_size_bytes)
      ⟨Op.Message_queue_ctor, some mqueue.val, [.ptr attr, .val msgs, .val msg_size_bytes]⟩ ∧
    ForwardsVoidMember (os_mqueue_destroy mqueue) Op.Message_queue_dtor [] ∧
    ForwardsMember (os_mqueue_send mqueue msg nbytes mprio)
      Op.Message_queue_send [.ptr msg, .val nbytes, .val mprio] ∧
    ForwardsMember (os_mqueue_try_send mqueue msg nbytes mprio)
      Op.Message_queue_try_send [.ptr msg, .val nbytes, .val mprio] ∧
    ForwardsMember (os_mqueue_timed_send mqueue msg nbytes mprio ticks)
      Op.Message_queue_timed_send [.ptr msg, .val nbytes, .val mprio, .val ticks] ∧
    ForwardsMember (os_mqueue_receive mqueue msg nbytes mprio)
      Op.Message_queue_receive [.ptr msg, .val nbytes, .ptr mprio] ∧
    ForwardsMember (os_mqueue_try_receive mqueue msg nbytes mprio)
      Op.Message_queue_try_receive [.ptr msg, .val nbytes, .ptr mprio] ∧
    ForwardsMember (os_mqueue_timed_receive mqueue msg nbytes mprio ticks)
      Op.Message_queue_timed_receive [.ptr msg, .val nbytes, .ptr mprio, .val ticks] ∧
    ForwardsMember (os_mqueue_get_length mqueue) Op.Message_queue_length [] ∧
    ForwardsMember (os_mqueue_get_size mqueue) Op.Message_queue_size [] ∧
    ForwardsMember (os_mqueue_get_msg_size mqueue) Op.Message_queue_msg_size [] ∧
    ForwardsMember (os_mqueue_get_is_empty mqueue) Op.Message_queue_is_empty [] ∧
    ForwardsMember (os_mqueue_get_is_full mqueue) Op.Message_queue_is_full [] ∧
    ForwardsMember (os_mqueue_reset mqueue) Op.Message_queue_reset [] ∧
    Forwards osKernelStart ⟨Op.scheduler_start, none, []⟩ ∧
    ForwardsMember (osThreadSetPriority thread_id priority)
      Op.Thread_sched_prio_set [.conv .thread_priority_t priority] ∧
    ForwardsMember (osThreadGetPriority thread_id) Op.Thread_sched_prio_get [] ∧
    ForwardsMember (osTimerStop timer_id) Op.Timer_stop [] ∧
    ForwardsMember (osMutexRelease mutex_id) Op.Mutex_unlock [] ∧
    ForwardsMember (osSemaphoreRelease semaphore_id) Op.Semaphore_post [] ∧
    ForwardsMember (osPoolAlloc pool_id) Op.Memory_pool_try_alloc [] ∧
    ForwardsMember (osPoolFree pool_id block) Op.Memory_pool_free [.ptr block] ∧
    IsSingleCall osKernelRunning
      ⟨Op.scheduler_is_started, none, []⟩
      (fun r => if r.ret ≠ 0 then 1 else 0) ∧
    IsSingleCall (osThreadCreate thread_def args)
      ⟨Op.Thread_ctor, some thread_def.data, [.ptr thread_def.pthread, .ptr args]⟩
      (fun _ => thread_def.data) ∧
    Forwards osThreadGetId ⟨Op.this_thread_thread, none, []⟩ ∧
    IsMemberCall (osThreadTerminate env thread_id) Op.Thread_dtor [] (fun _ => env.osOK) ∧
    Forwards (osDelay env millisec)
      ⟨Op.Systick_clock_sleep_for, none, [.val (env.ticks_cast (mul_u32 millisec 1000))]⟩ ∧
    IsSingleCall (osWait env event millisec)
      ⟨Op.Systick_clock_sleep_for, none, [.val (env.ticks_cast millisec)]⟩
      (fun r => { event with status := r.ret }) ∧
    IsSingleCall (osTimerCreate timer_def type args)
      ⟨Op.Timer_ctor, some timer_def.data, [.attr ⟨timer_def.name, [(.tm_type, type)]⟩, .ptr
        timer_def.ptimer, .ptr args]⟩
      (fun _ => timer_def.data) ∧
    ForwardsMember (osTimerStart env timer_id millisec)
      Op.Timer_start [.val (env.ticks_cast millisec)] ∧
    IsMemberCall (osTimerDelete env timer_id) Op.Timer_dtor [] (fun _ => env.osOK) ∧
    IsSingleCall (osSignalSet ret thread_id signals)
      ⟨Op.flags_set, none, [.ptr thread_id.val, .conv .event_flags_t signals, .out]⟩
      (fun r => (r.out.map int32_cast).getD ret) ∧
    IsSingleCall (osSignalClear ret thread_id signals)
      ⟨Op.flags_clear, none, [.ptr thread_id.val, .conv .event_flags_t signals, .out]⟩
      (fun r => (r.out.map int32_cast).getD ret) ∧
    IsSingleCall (osMutexCreate mutex_def)
      ⟨Op.Mutex_ctor, some mutex_def.data, []⟩
      (fun _ => mutex_def.data) ∧
    IsMemberCall (osMutexDelete env mutex_id) Op.Mutex_dtor [] (fun _ => env.osOK) ∧
    IsSingleCall (osSemaphoreCreate semaphore_def count)
      ⟨Op.Semaphore_ctor, some semaphore_def.data, [.attr ⟨semaphore_def.name,
        [(.sm_initial_count, count)]⟩]⟩
      (fun _ => semaphore_def.data) ∧
    IsMemberCall (osSemaphoreDelete env semaphore_id) Op.Semaphore_dtor [] (fun _ => env.osOK) ∧
    IsSingleCall (osPoolCreate pool_def)
      ⟨Op.Memory_pool_ctor, some pool_def.data, [.conv .mempool_size_t pool_def.pool_sz, .conv
        .mempool_size_t pool_def.item_sz]⟩
      (fun _ => pool_def.data) ∧
    IsSingleCall (osMessageCreate queue_def thread_id)
      ⟨Op.Message_queue_ctor, some queue_def.data, [.attr ⟨queue_def.name, [(.queue_address,
        queue_def.queue), (.queue_size_bytes, queue_def.queue_sz)]⟩, .conv .mqueue_size_t
        queue_def.items, .conv .mqueue_size_t queue_def.item_sz]⟩
      (fun _ => queue_def.data) ∧
    Forwards (osMailPut env queue_id mail)
      ⟨Op.Message_queue_try_send, some queue_id.queue, [.ptr mail, .val env.sizeof_ptr, .val 0]⟩ ∧
    ForwardsMember (osMailFree pool_id_loc queue_id mail) Op.Memory_pool_free [.ptr mail] := by
  obtain ⟨h1, h2, h3, h4, h5, h6, h7, h8, h9, h10, h11, h12, h13, h14, h15, h16, h17, h18, h19,
    h20, h21, h22, h23, h24, h25, h26, h27, h28, h29, h30, h31, h32, h33, h34, h35, h36, h37, h38,
    h39, h40, h41, h42, h43, h44, h45, h46, h47, h48, h49, h50, h51, h52, h53, h54, h55, h56, h57,
    h58, h59, h60, h61, h62, h63, h64, h65, h66, h67, h68, h69, h70, h71, h72, h73, h74, h75, h76,
    h77, h78, h79, h80, h81, h82, h83, h84, h85⟩ :=
    wrapper_calls thread mutex condvar semaphore mempool mqueue attr func args exit_ptr
    old_prio_ceiling block blocks block_size_bytes msgs msg_size_bytes msg nbytes mprio ticks
    prio prio_ceiling priority thread_id timer_id mutex_id semaphore_id pool_id env
    thread_def timer_def mutex_def semaphore_def pool_def queue_def queue_id event ret
    signals type count millisec mail pool_id_loc
  exact ⟨h1, h2, h3, h4, ⟨_, h5⟩, ⟨_, h6⟩, ⟨_, h7⟩, ⟨_, h8⟩, ⟨_, h9⟩, ⟨_, h10⟩, h11, ⟨_, h12⟩, ⟨_,
    h13⟩, ⟨_, h14⟩, ⟨_, h15⟩, ⟨_, h16⟩, ⟨_, h17⟩, ⟨_, h18⟩, h19, ⟨_, h20⟩, ⟨_, h21⟩, ⟨_, h22⟩, ⟨_,
    h23⟩, ⟨_, h24⟩, h25, ⟨_, h26⟩, ⟨_, h27⟩, ⟨_, h28⟩, ⟨_, h29⟩, ⟨_, h30⟩, ⟨_, h31⟩, ⟨_, h32⟩, h33,
    ⟨_, h34⟩, ⟨_, h35⟩, ⟨_, h36⟩, ⟨_, h37⟩, ⟨_, h38⟩, ⟨_, h39⟩, ⟨_, h40⟩, ⟨_, h41⟩, ⟨_, h42⟩, ⟨_,
    h43⟩, ⟨_, h44⟩, h45, ⟨_, h46⟩, ⟨_, h47⟩, ⟨_, h48⟩, ⟨_, h49⟩, ⟨_, h50⟩, ⟨_, h51⟩, ⟨_, h52⟩, ⟨_,
    h53⟩, ⟨_, h54⟩, ⟨_, h55⟩, ⟨_, h56⟩, ⟨_, h57⟩, ⟨_, h58⟩, h59, ⟨_, h60⟩, ⟨_, h61⟩, ⟨_, h62⟩, ⟨_,
    h63⟩, ⟨_, h64⟩, ⟨_, h65⟩, ⟨_, h66⟩, h67, h68, h69, ⟨_, h70⟩, h71, h72, h73, ⟨_, h74⟩, ⟨_, h75⟩,
    h76, h77, h78, ⟨_, h79⟩, h80, ⟨_, h81⟩, h82, h83, h84, ⟨_, h85⟩⟩

/-- C9 (code at the failing input): the caller passes the handle `0x20000000` and the
parameter variable of the wrapper function lives at `0x2000FF00`. For each kind of object,
`os_X_create` constructs the object at `0x20000000`, the storage the handle points to,
and the operation `reinterpret_cast<X&> (handle)` acts on the object at `0x2000FF00`,
the parameter variable itself; the mutex argument of `os_condvar_wait`, written
`(Mutex&) *mutex`, is the object at `0x20000000`. -/
theorem C9_handle_designates_parameter :
    (((os_thread_create handle0 0 0 0).run World.kernel world0).log.map Call.this,
      ((os_thread_join handle0 0).run World.kernel world0).log.map Call.this) =
      ([some 0x20000000], [some 0x2000FF00]) ∧
    (((os_mutex_create handle0 0).run World.kernel world0).log.map Call.this,
      ((os_mutex_lock handle0).run World.kernel world0).log.map Call.this,
      ((os_mutex_unlock handle0).run World.kernel world0).log.map Call.this) =
      ([some 0x20000000], [some 0x2000FF00], [some 0x2000FF00]) ∧
    (((os_condvar_create handle0 0).run World.kernel world0).log.map Call.this,
      ((os_condvar_wait handle0 handle0).run World.kernel world0).log) =
      ([some 0x20000000],
        [⟨Op.Condition_variable_wait, some 0x2000FF00, [Arg.ptr 0x20000000]⟩]) ∧
    (((os_semaphore_create handle0 0).run World.kernel world0).log.map Call.this,
      ((os_semaphore_post handle0).run World.kernel world0).log.map Call.this) =
      ([some 0x20000000], [some 0x2000FF00]) ∧
    (((os_mempool_create handle0 0 8 16).run World.kernel world0).log.map Call.this,
      ((os_mempool_try_alloc handle0).run World.kernel world0).log.map Call.this) =
      ([some 0x20000000], [some 0x2000FF00]) ∧
    (((os_mqueue_create handle0 0 4 4).run World.kernel world0).log.map Call.this,
      ((os_mqueue_try_send handle0 0 4 0).run World.kernel world0).log.map Call.this) =
      ([some 0x20000000], [some 0x2000FF00]) ∧
    handle0.val = 0x20000000 ∧ handle0.loc = 0x2000FF00 ∧ handle0.val ≠ handle0.loc := by
  decide

/-- C10 (code at the failing input): with `millisec = 1000`, `osDelay` sleeps for
`ticks_cast (1000 * 1000u)`, 1000 ticks, while `osWait` sleeps for `ticks_cast (1000)`,
1 tick, and `osTimerStart` starts the timer with `ticks_cast (1000)`, 1 tick. -/
theorem C10_osWait_osTimerStart_not_scaled :
    ((osDelay cmsis 1000).run World.kernel world0).log =
      [⟨Op.Systick_clock_sleep_for, none, [Arg.val 1000]⟩] ∧
    ((osWait cmsis event0 1000).run World.kernel world0).log =
      [⟨Op.Systick_clock_sleep_for, none, [Arg.val 1]⟩] ∧
    ((osTimerStart cmsis handle0 1000).run World.kernel world0).log =
      [⟨Op.Timer_start, some handle0.loc, [Arg.val 1]⟩] ∧
    cmsis.ticks_cast (mul_u32 1000 1000) = 1000 ∧ cmsis.ticks_cast 1000 = 1 := by
  decide

/-- Whatever the kernel and the context, `osThreadTerminate`, `osTimerDelete` and
`osMutexDelete` make one call, the destructor, never ask for the context, and return
`osOK` when the destructor returns. -/
theorem delete_functions_run (env : Env) {σ : Type} (k : Kernel σ) (s s1 : σ) (id : Param)
    (r : Reply) :
    (k ⟨Op.Thread_dtor, some id.loc, []⟩ s = some (r, s1) →
      (osThreadTerminate env id).run k s =
        ⟨[⟨Op.Thread_dtor, some id.loc, []⟩], s1, some env.osOK⟩) ∧
    (k ⟨Op.Timer_dtor, some id.loc, []⟩ s = some (r, s1) →
      (osTimerDelete env id).run k s =
        ⟨[⟨Op.Timer_dtor, some id.loc, []⟩], s1, some env.osOK⟩) ∧
    (k ⟨Op.Mutex_dtor, some id.loc, []⟩ s = some (r, s1) →
      (osMutexDelete env id).run k s =
        ⟨[⟨Op.Mutex_dtor, some id.loc, []⟩], s1, some env.osOK⟩) := by
  refine ⟨?_, ?_, ?_⟩ <;> intro h <;>
    simp [osThreadTerminate, osTimerDelete, osMutexDelete, run_invoke_bind, h, Prog.run]

/-- C11 (code at the failing input): in interrupt context (`world_isr`, where
`scheduler::in_handler_mode ()` answers true), `osThreadTerminate`, `osTimerDelete` and
`osMutexDelete` each call the destructor and return `osOK` (0), not `osErrorISR`
(`0x82`); `osKernelInitialize`, in the same context, returns `osErrorISR`. -/
theorem C11_delete_functions_ignore_isr :
    (World.kernel ⟨Op.scheduler_in_handler_mode, none, []⟩ world_isr).map
        (fun x => x.1.ret) = some 1 ∧
    ((osThreadTerminate cmsis handle0).run World.kernel world_isr).log =
      [⟨Op.Thread_dtor, some handle0.loc, []⟩] ∧
    ((osThreadTerminate cmsis handle0).run World.kernel world_isr).ret = some 0 ∧
    ((osTimerDelete cmsis handle0).run World.kernel world_isr).log =
      [⟨Op.Timer_dtor, some handle0.loc, []⟩] ∧
    ((osTimerDelete cmsis handle0).run World.kernel world_isr).ret = some 0 ∧
    ((osMutexDelete cmsis handle0).run World.kernel world_isr).log =
      [⟨Op.Mutex_dtor, some handle0.loc, []⟩] ∧
    ((osMutexDelete cmsis handle0).run World.kernel world_isr).ret = some 0 ∧
    cmsis.osOK = 0 ∧ cmsis.osErrorISR = 0x82 ∧
    ((osKernelInitialize cmsis).run World.kernel world_isr).ret = some 0x82 := by
  decide

/-- C12 (code at the failing input): the mail block is at `0x20001000`; the queue of the
mail queue, at `&queue_id->queue` (`0x20000040`), is empty. `osMailPut` succeeds: it sends
to the queue at `0x20000040` the four bytes stored in the block, since `(const char*) mail`
is passed as the address of the message. `osMailGet` receives from another object, the
one `reinterpret_cast<Message_queue&> (queue_id)` designates (the parameter variable, at
`0x2000FF00`): it finds no message there and the mail stays in the queue. A receive from
the queue that holds the mail gives the word `0x03020100` stored in the block, not the
pointer `0x20001000`. -/
theorem C12_mail_round_trip_broken :
    ((osMailPut cmsis mail0 0x20001000).run World.kernel world_mail).log =
      [⟨Op.Message_queue_try_send, some 0x20000040,
        [Arg.ptr 0x20001000, Arg.val 4, Arg.val 0]⟩] ∧
    ((osMailPut cmsis mail0 0x20001000).run World.kernel world_mail).ret = some 0 ∧
    ((osMailPut cmsis mail0 0x20001000).run World.kernel world_mail).state.queues.lookup
        0x20000040 = some ⟨4, 4, [⟨[0, 1, 2, 3], 0⟩]⟩ ∧
    ((osMailGet cmsis event0 0 mail0 0).run World.kernel
        ((osMailPut cmsis mail0 0x20001000).run World.kernel world_mail).state).log =
      [⟨Op.Message_queue_try_receive, some 0x2000FF00, [Arg.out, Arg.val 4, Arg.ptr 0]⟩] ∧
    ((osMailGet cmsis event0 0 mail0 0).run World.kernel
        ((osMailPut cmsis mail0 0x20001000).run World.kernel world_mail).state).ret =
      some ⟨0x81, 0, event0.def_⟩ ∧
    ((osMailGet cmsis event0 0 mail0 0).run World.kernel
        ((osMailPut cmsis mail0 0x20001000).run World.kernel
          world_mail).state).state.queues.lookup 0x20000040 =
      some ⟨4, 4, [⟨[0, 1, 2, 3], 0⟩]⟩ ∧
    ((osMessageGet cmsis event0 0 ⟨0x20000000, 0x20000040⟩ 0).run World.kernel
        ((osMailPut cmsis mail0 0x20001000).run World.kernel world_mail).state).ret =
      some ⟨0, 0x03020100, event0.def_⟩ ∧
    (0x20000040 : Nat) ≠ 0x2000FF00 ∧ (0x03020100 : Int) ≠ 0x20001000 := by
  decide

/-- The run of a sequence: the first program runs, and, when it returns, the second runs
from the state it leaves. -/
theorem run_bind {σ α β : Type} (k : Kernel σ) (p : Prog α) (f : α → Prog β) (s : σ) :
    (Prog.bind p f).run k s =
      match (p.run k s).ret with
      | none => ⟨(p.run k s).log, (p.run k s).state, none⟩
      | some a =>
        ⟨(p.run k s).log ++ ((f a).run k (p.run k s).state).log,
          ((f a).run k (p.run k s).state).state, ((f a).run k (p.run k s).state).ret⟩ := by
  induction p generalizing s with
  | ret a => simp [Prog.bind, Prog.run]
  | call c g ih =>
    simp only [Prog.bind, Prog.run]
    cases hk : k c s with
    | none => simp
    | some x =>
      obtain ⟨r, s1⟩ := x
      simp only [ih r s1]
      cases hr : (Prog.run k (g r) s1).ret <;> simp

/-- The `memset` of the modelled kernel clears the bytes it is asked to clear. -/
theorem World.kernel_memset (w w1 : World) (p : Nat) (n : Int) (r : Reply)
    (h : World.kernel ⟨Op.memset, none, [Arg.ptr p, Arg.val 0, Arg.val n]⟩ w = some (r, w1))
    (i : Nat) (hi : (i : Int) < n) : w1.mem (p + i) = 0 := by
  simp only [World.kernel, Option.some.injEq, Prod.mk.injEq] at h
  obtain ⟨-, rfl⟩ := h
  have h1 : i < n.toNat := by omega
  simp [World.write, h1, List.getElem?_replicate, hi]

/-- C13: against any kernel whose `memset` clears the bytes it is asked to clear (`mem`
reads a byte of the memory of a state). When the allocation of `osPoolCAlloc`
(`try_alloc ()`) or of `osMailCAlloc` (`osMailAlloc (queue_id, millisec)`) returns null,
the function returns null after that allocation alone: it makes no other call and leaves
the state of the allocation. When it returns a pointer that is not null, the function
reads `block_size ()`, calls `memset` once, returns the same pointer, and on return the
`block_size ()` bytes from the pointer are zero. -/
theorem C13_calloc_clears_block (env : Env) {σ : Type} (k : Kernel σ) (mem : σ → Nat → Nat)
    (hmemset : ∀ (s s1 : σ) (p : Nat) (n : Int) (r : Reply),
      k ⟨Op.memset, none, [Arg.ptr p, Arg.val 0, Arg.val n]⟩ s = some (r, s1) →
        ∀ i : Nat, (i : Int) < n → mem s1 (p + i) = 0)
    (s s1 sm : σ) (pool_id : Param) (queue_id : osMailQId) (millisec : Nat) (a : Reply)
    (lm : List Call) (pm : Int)
    (hpool : k ⟨Op.Memory_pool_try_alloc, some pool_id.loc, []⟩ s = some (a, s1))
    (hmail : (osMailAlloc env queue_id millisec).run k s = ⟨lm, sm, some pm⟩) :
    (a.ret = 0 →
      (osPoolCAlloc pool_id).run k s =
        ⟨[⟨Op.Memory_pool_try_alloc, some pool_id.loc, []⟩], s1, some 0⟩) ∧
    (a.ret ≠ 0 → ∀ (b m : Reply) (s2 s3 : σ),
      k ⟨Op.Memory_pool_block_size, some pool_id.loc, []⟩ s1 = some (b, s2) →
      k ⟨Op.memset, none, [Arg.ptr a.ret.toNat, Arg.val 0, Arg.val b.ret]⟩ s2 =
        some (m, s3) →
      (osPoolCAlloc pool_id).run k s =
          ⟨[⟨Op.Memory_pool_try_alloc, some pool_id.loc, []⟩,
              ⟨Op.Memory_pool_block_size, some pool_id.loc, []⟩,
              ⟨Op.memset, none, [Arg.ptr a.ret.toNat, Arg.val 0, Arg.val b.ret]⟩],
            s3, some a.ret⟩ ∧
        ∀ i : Nat, (i : Int) < b.ret → mem s3 (a.ret.toNat + i) = 0) ∧
    (pm = 0 → (osMailCAlloc env queue_id millisec).run k s = ⟨lm, sm, some 0⟩) ∧
    (pm ≠ 0 → ∀ (b m : Reply) (s2 s3 : σ),
      k ⟨Op.Memory_pool_block_size, some queue_id.pool, []⟩ sm = some (b, s2) →
      k ⟨Op.memset, none, [Arg.ptr pm.toNat, Arg.val 0, Arg.val b.ret]⟩ s2 = some (m, s3) →
      (osMailCAlloc env queue_id millisec).run k s =
          ⟨lm ++ [⟨Op.Memory_pool_block_size, some queue_id.pool, []⟩,
              ⟨Op.memset, none, [Arg.ptr pm.toNat, Arg.val 0, Arg.val b.ret]⟩],
            s3, some pm⟩ ∧
        ∀ i : Nat, (i : Int) < b.ret → mem s3 (pm.toNat + i) = 0) := by
  refine ⟨?_, ?_, ?_, ?_⟩
  · intro h0
    simp [osPoolCAlloc, run_invoke_bind, hpool, h0, Prog.run]
  · intro hne b m s2 s3 hb hm
    refine ⟨?_, hmemset s2 s3 _ _ m hm⟩
    simp [osPoolCAlloc, run_invoke_bind, hpool, hne, hb, hm, Prog.run]
  · intro h0
    simp only [osMailCAlloc, bind_eq, pure_eq]
    rw [run_bind, hmail]
    simp [h0, Prog.run]
  · intro hne b m s2 s3 hb hm
    refine ⟨?_, hmemset s2 s3 _ _ m hm⟩
    simp only [osMailCAlloc, bind_eq, pure_eq]
    rw [run_bind, hmail]
    simp [hne, run_invoke_bind, hb, hm, Prog.run]

/-- C13 (witness): against the modelled kernel, `osPoolCAlloc` on the pool with two free
blocks returns the first block, `0x20001000`, and leaves its 16 bytes zero, which held
`a % 256` at each address `a` before; `osMailCAlloc` on the pool without a free block
returns null after the one call `try_alloc ()`. -/
theorem C13_calloc_witness :
    (world_pool.mem 0x20001001 = 1 ∧
      ((osPoolCAlloc handle0).run World.kernel world_pool).ret = some 0x20001000 ∧
      ∀ i : Nat, (i : Int) < 16 →
        ((osPoolCAlloc handle0).run World.kernel world_pool).state.mem (0x20001000 + i) =
          0) ∧
    (osMailCAlloc cmsis mail0 0).run World.kernel world_pool =
      ⟨[⟨Op.Memory_pool_try_alloc, some 0x20000000, []⟩],
        world_pool.set_pool 0x20000000 ⟨0x20002000, 16, 1, []⟩, some 0⟩ := by
  have h := C13_calloc_clears_block cmsis World.kernel World.mem
    (fun s s1 p n r hk => World.kernel_memset s s1 p n r hk)
    world_pool (world_pool.set_pool 0x2000FF00 ⟨0x20001000, 16, 2, [0x20001010]⟩)
    (world_pool.set_pool 0x20000000 ⟨0x20002000, 16, 1, []⟩) handle0 mail0 0
    ⟨0x20001000, none⟩ [⟨Op.Memory_pool_try_alloc, some 0x20000000, []⟩] 0 rfl rfl
  have h2 := h.2.1 (by decide) ⟨16, none⟩ ⟨0x20001000, none⟩
    (world_pool.set_pool 0x2000FF00 ⟨0x20001000, 16, 2, [0x20001010]⟩)
    ((world_pool.set_pool 0x2000FF00 ⟨0x20001000, 16, 2, [0x20001010]⟩).write 0x20001000
      (List.replicate 16 0)) rfl rfl
  refine ⟨⟨by decide, ?_, ?_⟩, h.2.2.1 rfl⟩
  · rw [h2.1]
  · rw [h2.1]
    exact h2.2

/-- C14: against any kernel and from any state. In every run of `estd::malloc (size)`
and of `estd::free (ptr)`, also one in which a call does not return, no call of
`::malloc` or `::free` is made outside a scheduler critical section. When the four calls
return, the run is: enter the section, `::malloc (size)`, leave the section,
`trace::printf`, and `estd::malloc` returns the pointer that `::malloc (size)` returned;
for `estd::free`: `trace::printf`, enter the section, `::free (ptr)`, leave the section.
A run that returns made exactly one heap call and left the section it entered. -/
theorem C14_heap_calls_inside_section {σ : Type} (k : Kernel σ) (s : σ) (size ptr : Nat) :
    (∃ d, heap_inside 0 ((estd.malloc size).run k s).log = some d) ∧
    (∃ d, heap_inside 0 ((estd.free ptr).run k s).log = some d) ∧
    (∀ (c p d t : Reply) (s1 s2 s3 s4 : σ),
      k ⟨Op.Critical_section_ctor, none, []⟩ s = some (c, s1) →
      k ⟨Op.libc_malloc, none, [Arg.val size]⟩ s1 = some (p, s2) →
      k ⟨Op.Critical_section_dtor, none, []⟩ s2 = some (d, s3) →
      k ⟨Op.trace_printf, none,
          [Arg.str "%s(%d) %p\n", Arg.str "malloc", Arg.val size, Arg.val p.ret]⟩ s3 =
        some (t, s4) →
      (estd.malloc size).run k s =
        ⟨[⟨Op.Critical_section_ctor, none, []⟩, ⟨Op.libc_malloc, none, [Arg.val size]⟩,
            ⟨Op.Critical_section_dtor, none, []⟩,
            ⟨Op.trace_printf, none,
              [Arg.str "%s(%d) %p\n", Arg.str "malloc", Arg.val size, Arg.val p.ret]⟩],
          s4, some p.ret⟩) ∧
    (∀ (t c f d : Reply) (s1 s2 s3 s4 : σ),
      k ⟨Op.trace_printf, none, [Arg.str "%s(%d) %p %s\n", Arg.str "free", Arg.ptr ptr]⟩ s =
        some (t, s1) →
      k ⟨Op.Critical_section_ctor, none, []⟩ s1 = some (c, s2) →
      k ⟨Op.libc_free, none, [Arg.ptr ptr]⟩ s2 = some (f, s3) →
      k ⟨Op.Critical_section_dtor, none, []⟩ s3 = some (d, s4) →
      (estd.free ptr).run k s =
        ⟨[⟨Op.trace_printf, none, [Arg.str "%s(%d) %p %s\n", Arg.str "free", Arg.ptr ptr]⟩,
            ⟨Op.Critical_section_ctor, none, []⟩, ⟨Op.libc_free, none, [Arg.ptr ptr]⟩,
            ⟨Op.Critical_section_dtor, none, []⟩],
          s4, some ()⟩) ∧
    (∀ r, ((estd.malloc size).run k s).ret = some r →
      heap_inside 0 ((estd.malloc size).run k s).log = some 0 ∧
        calls_of Op.libc_malloc ((estd.malloc size).run k s).log =
          [⟨Op.libc_malloc, none, [Arg.val size]⟩]) ∧
    (((estd.free ptr).run k s).ret = some () →
      heap_inside 0 ((estd.free ptr).run k s).log = some 0 ∧
        calls_of Op.libc_free ((estd.free ptr).run k s).log =
          [⟨Op.libc_free, none, [Arg.ptr ptr]⟩]) := by
  refine ⟨?_, ?_, ?_, ?_, ?_, ?_⟩
  · simp only [estd.malloc, bind_eq, pure_eq, run_invoke_bind]
    repeat' split
    all_goals simp [heap_inside, Prog.run]
  · simp only [estd.free, bind_eq, pure_eq, run_invoke_bind]
    repeat' split
    all_goals simp [heap_inside, Prog.run]
  · intro c p d t s1 s2 s3 s4 h1 h2 h3 h4
    simp [estd.malloc, run_invoke_bind, h1, h2, h3, h4, Prog.run]
  · intro t c f d s1 s2 s3 s4 h1 h2 h3 h4
    simp [estd.free, run_invoke_bind, h1, h2, h3, h4, Prog.run]
  · intro r
    simp only [estd.malloc, bind_eq, pure_eq, run_invoke_bind]
    repeat' split
    all_goals simp [heap_inside, calls_of, Prog.run]
  · simp only [estd.free, bind_eq, pure_eq, run_invoke_bind]
    repeat' split
    all_goals simp [heap_inside, calls_of, Prog.run]

/-- C14 (witness): against a kernel whose `::malloc` hands out the heap from
`0x20004000`, `estd::malloc (16)` enters the section, allocates, leaves the section,
traces, and returns `0x20004000`, the pointer that `::malloc (16)` returned. -/
theorem C14_heap_calls_witness :
    (estd.malloc 16).run bump_kernel 0x20004000 =
      ⟨[⟨Op.Critical_section_ctor, none, []⟩, ⟨Op.libc_malloc, none, [Arg.val 16]⟩,
          ⟨Op.Critical_section_dtor, none, []⟩,
          ⟨Op.trace_printf, none,
            [Arg.str "%s(%d) %p\n", Arg.str "malloc", Arg.val 16, Arg.val 0x20004000]⟩],
        0x20004010, some 0x20004000⟩ :=
  (C14_heap_calls_inside_section bump_kernel 0x20004000 16 0).2.2.1
    ⟨0, none⟩ ⟨0x20004000, none⟩ ⟨0, none⟩ ⟨0, none⟩ 0x20004000 0x20004010 0x20004010
    0x20004010 rfl rfl rfl rfl

/-- C15 (counterexample): not every priority constant defined in `thread::priority` lies
in the interval from -30 to 30: the enumerator `max` is `0x7F`, 127. -/
theorem C15_max_outside_scale :
    ¬ (∀ c ∈ thread.priority.all, -30 ≤ c ∧ c ≤ 30) := by
  decide

/-- C15 (amended): the named levels satisfy `idle = -30 < low < below_normal < normal = 0
< above_normal < high < realtime = 30`, each of the seven named levels lies in the
interval from -30 to 30, the enumeration has one more constant, `max = 0x7F` (127),
beyond the scale, and a freshly constructed `thread::Attributes` has the priority
`normal`, 0. -/
theorem C15_priority_scale (name : Nat) :
    thread.priority.idle = -30 ∧ thread.priority.idle < thread.priority.low ∧
    thread.priority.low < thread.priority.below_normal ∧
    thread.priority.below_normal < thread.priority.normal ∧ thread.priority.normal = 0 ∧
    thread.priority.normal < thread.priority.above_normal ∧
    thread.priority.above_normal < thread.priority.high ∧
    thread.priority.high < thread.priority.realtime ∧ thread.priority.realtime = 30 ∧
    (∀ c ∈ thread.priority.levels, -30 ≤ c ∧ c ≤ 30) ∧
    thread.priority.all = thread.priority.levels ++ [thread.priority.max] ∧
    thread.priority.max = 127 ∧
    (thread.Attributes.ctor name).priority_ = thread.priority.normal ∧
    (thread.Attributes.ctor name).priority_ = 0 ∧
    (thread.Attributes.ctor name).get_priority 1 = (result.ok, some 0) := by
  refine ⟨by decide, by decide, by decide, by decide, by decide, by decide, by decide,
    by decide, by decide, by decide, rfl, by decide, rfl, rfl, rfl⟩

/-- C16: for every record read from the clock, `osKernelSysTick` returns
`(ticks * divisor + cycles) mod 2^32`: the truncation of `ticks` to 32 bits before the
multiplication loses nothing modulo `2^32`. -/
theorem C16_sys_tick_rolling (crt : current_systick_t) :
    osKernelSysTick crt = (crt.ticks * crt.divisor + crt.cycles) % 2 ^ 32 := by
  unfold osKernelSysTick wrap
  rw [Nat.mod_add_mod, Nat.add_mod (crt.ticks % 2 ^ 32 * crt.divisor), Nat.mod_mul_mod,
    ← Nat.add_mod]

/-- C19: `open` clears `errno` and calls `doOpen`. If `doOpen` returns `r`, not zero,
`open` returns `r`, its only call is `doOpen`, not `allocFileDescriptor`, and it leaves
the state, `fFileDescriptor` included, as `doOpen` left it. If `doOpen` returns 0, the
second call of `open` is `allocFileDescriptor (this)` and `open` returns exactly the
value that this call returns. -/
theorem C19_open_allocates_after_doOpen {σ : Type} (impl : PosixIo.Impl σ) (path : Nat)
    (oflag : Int) (args : Nat) (s s1 : PosixIo.State σ) (r : Int)
    (h : impl.step (PosixIo.IoCall.doOpen path oflag args) { s with errno := 0 } = (r, s1)) :
    (r ≠ 0 →
      PosixIo.open impl path oflag args s =
          (r, s1, [PosixIo.IoCall.doOpen path oflag args]) ∧
        (PosixIo.open impl path oflag args s).2.1.fFileDescriptor = s1.fFileDescriptor ∧
        PosixIo.IoCall.allocFileDescriptor ∉ (PosixIo.open impl path oflag args s).2.2) ∧
    (r = 0 →
      (PosixIo.open impl path oflag args s).1 =
          (impl.step PosixIo.IoCall.allocFileDescriptor s1).1 ∧
        (PosixIo.open impl path oflag args s).2.2.take 2 =
          [PosixIo.IoCall.doOpen path oflag args, PosixIo.IoCall.allocFileDescriptor]) := by
  constructor
  · intro hr
    have e : PosixIo.open impl path oflag args s =
        (r, s1, [PosixIo.IoCall.doOpen path oflag args]) := by
      simp [PosixIo.open, PosixIo.call, PosixIo.set_errno, bind, pure, h, hr]
    simp [e]
  · intro hr
    subst hr
    by_cases ha : (impl.step PosixIo.IoCall.allocFileDescriptor s1).1 = -1 <;>
      simp [PosixIo.open, PosixIo.call, PosixIo.set_errno, PosixIo.set_fFileDescriptor, bind,
        pure, h, ha]

/-- C19 (witness): with an implementation whose `doOpen` returns 5, `open` returns 5, makes
the one call `doOpen`, and leaves the descriptor 7 that the object held; with one whose
`doOpen` returns 0 and the descriptors 3 and 4 free, `open` returns 3, the value of
`allocFileDescriptor`. -/
theorem C19_open_witness :
    (PosixIo.open (test_impl 5) 0x1000 0 0 ⟨7, 22, [3, 4]⟩ =
        (5, ⟨7, 0, [3, 4]⟩, [PosixIo.IoCall.doOpen 0x1000 0 0]) ∧
      (PosixIo.open (test_impl 5) 0x1000 0 0 ⟨7, 22, [3, 4]⟩).2.1.fFileDescriptor = 7 ∧
      PosixIo.IoCall.allocFileDescriptor ∉
        (PosixIo.open (test_impl 5) 0x1000 0 0 ⟨7, 22, [3, 4]⟩).2.2) ∧
    ((PosixIo.open (test_impl 0) 0x1000 0 0 ⟨-1, 22, [3, 4]⟩).1 = 3 ∧
      (PosixIo.open (test_impl 0) 0x1000 0 0 ⟨-1, 22, [3, 4]⟩).2.2.take 2 =
        [PosixIo.IoCall.doOpen 0x1000 0 0, PosixIo.IoCall.allocFileDescriptor]) :=
  ⟨(C19_open_allocates_after_doOpen (test_impl 5) 0x1000 0 0 ⟨7, 22, [3, 4]⟩
      ⟨7, 0, [3, 4]⟩ 5 rfl).1 (by decide),
    (C19_open_allocates_after_doOpen (test_impl 0) 0x1000 0 0 ⟨-1, 22, [3, 4]⟩
      ⟨-1, 0, [3, 4]⟩ 0 rfl).2 rfl⟩

/-- C20: if `doOpen` returns 0 and `allocFileDescriptor` returns -1, then `open` calls
`doClose`, exactly once, after them; afterwards the state is the one `doClose` left with
`fFileDescriptor` equal to `noFileDescriptor`; and `open` returns -1. -/
theorem C20_open_undone_without_descriptor {σ : Type} (impl : PosixIo.Impl σ) (path : Nat)
    (oflag : Int) (args : Nat) (s s1 s2 : PosixIo.State σ)
    (h1 : impl.step (PosixIo.IoCall.doOpen path oflag args) { s with errno := 0 } = (0, s1))
    (h2 : impl.step PosixIo.IoCall.allocFileDescriptor s1 = (-1, s2)) :
    PosixIo.open impl path oflag args s =
        (-1, { (impl.step PosixIo.IoCall.doClose s2).2 with
            fFileDescriptor := impl.noFileDescriptor },
          [PosixIo.IoCall.doOpen path oflag args, PosixIo.IoCall.allocFileDescriptor,
            PosixIo.IoCall.doClose]) ∧
      (PosixIo.open impl path oflag args s).2.2.count PosixIo.IoCall.doClose = 1 ∧
      (PosixIo.open impl path oflag args s).2.1.fFileDescriptor = impl.noFileDescriptor ∧
      (PosixIo.open impl path oflag args s).1 = -1 := by
  have e : PosixIo.open impl path oflag args s =
      (-1, { (impl.step PosixIo.IoCall.doClose s2).2 with
          fFileDescriptor := impl.noFileDescriptor },
        [PosixIo.IoCall.doOpen path oflag args, PosixIo.IoCall.allocFileDescriptor,
          PosixIo.IoCall.doClose]) := by
    simp [PosixIo.open, PosixIo.call, PosixIo.set_errno, PosixIo.set_fFileDescriptor, bind,
      pure, h1, h2]
  refine ⟨e, ?_, ?_, ?_⟩
  · rw [e]
    simp [List.count_cons]
  · rw [e]
  · rw [e]

/-- C20 (witness): with an implementation whose `doOpen` returns 0 and no free descriptor,
`open` on an object holding the stale descriptor 7 calls `doOpen`,
`allocFileDescriptor` and `doClose`, leaves `fFileDescriptor` equal to -1,
`noFileDescriptor`, and returns -1. -/
theorem C20_open_undone_witness :
    PosixIo.open (test_impl 0) 0x1000 0 0 ⟨7, 22, []⟩ =
        (-1, ⟨-1, 0, []⟩,
          [PosixIo.IoCall.doOpen 0x1000 0 0, PosixIo.IoCall.allocFileDescriptor,
            PosixIo.IoCall.doClose]) ∧
      (PosixIo.open (test_impl 0) 0x1000 0 0 ⟨7, 22, []⟩).2.2.count
          PosixIo.IoCall.doClose = 1 ∧
      (PosixIo.open (test_impl 0) 0x1000 0 0 ⟨7, 22, []⟩).2.1.fFileDescriptor = -1 ∧
      (PosixIo.open (test_impl 0) 0x1000 0 0 ⟨7, 22, []⟩).1 = -1 :=
  C20_open_undone_without_descriptor (test_impl 0) 0x1000 0 0 ⟨7, 22, []⟩ ⟨7, 0, []⟩
    ⟨7, 0, []⟩ rfl rfl

/-! ### The order of a message queue -/

theorem Message_queue.mem_insert (m y : Message) (l : List Message) :
    y ∈ Message_queue.insert m l ↔ y = m ∨ y ∈ l := by
  induction l with
  | nil => simp [Message_queue.insert]
  | cons x xs ih =>
    unfold Message_queue.insert
    split
    · simp
    · simp only [List.mem_cons, ih]
      tauto

theorem Message_queue.insert_nonIncreasing (m : Message) (l : List Message)
    (h : NonIncreasing l) : NonIncreasing (Message_queue.insert m l) := by
  induction l with
  | nil => simp [Message_queue.insert, NonIncreasing]
  | cons x xs ih =>
    unfold NonIncreasing at h ih ⊢
    rw [List.pairwise_cons] at h
    unfold Message_queue.insert
    split
    · rename_i hlt
      rw [List.pairwise_cons, List.pairwise_cons]
      refine ⟨?_, h.1, h.2⟩
      intro y hy
      rcases List.mem_cons.mp hy with rfl | hy
      · omega
      · have := h.1 y hy
        omega
    · rename_i hge
      rw [List.pairwise_cons]
      refine ⟨?_, ih h.2⟩
      intro y hy
      rcases (Message_queue.mem_insert m y xs).mp hy with rfl | hy
      · omega
      · exact h.1 y hy

theorem Message_queue.of_prio_insert (m : Message) (l : List Message) (p : Int)
    (h : NonIncreasing l) :
    of_prio p (Message_queue.insert m l) =
      of_prio p l ++ (if m.prio = p then [m] else []) := by
  induction l with
  | nil => by_cases hp : m.prio = p <;> simp [Message_queue.insert, of_prio, hp]
  | cons x xs ih =>
    unfold NonIncreasing at h ih
    rw [List.pairwise_cons] at h
    unfold Message_queue.insert
    split
    · rename_i hlt
      by_cases hp : m.prio = p
      · have hnone : of_prio p (x :: xs) = [] := by
          unfold of_prio
          rw [List.filter_eq_nil_iff]
          intro y hy
          rcases List.mem_cons.mp hy with rfl | hy
          · simp; omega
          · have := h.1 y hy
            simp; omega
        have hcons : of_prio p (m :: x :: xs) = m :: of_prio p (x :: xs) := by
          unfold of_prio
          rw [List.filter_cons]
          simp [hp]
        rw [hcons, hnone]
        simp [hp]
      · simp [of_prio, hp, List.filter_cons]
    · have ih2 := ih h.2
      unfold of_prio at ih2 ⊢
      rw [List.filter_cons, ih2, List.filter_cons]
      by_cases hx : x.prio = p <;> simp [hx]

/-- After any sequence of insertions into a queue in non-increasing order, the queue is in
non-increasing order, and the messages of each priority are those it held followed by
the inserted ones, in the order of insertion. -/
theorem Message_queue.foldl_insert (sent init : List Message) (h : NonIncreasing init) :
    NonIncreasing (sent.foldl (fun sl m => Message_queue.insert m sl) init) ∧
      ∀ p, of_prio p (sent.foldl (fun sl m => Message_queue.insert m sl) init) =
        of_prio p init ++ of_prio p sent := by
  induction sent generalizing init with
  | nil => simp [h, of_prio]
  | cons m rest ih =>
    have h1 := Message_queue.insert_nonIncreasing m init h
    refine ⟨(ih _ h1).1, ?_⟩
    intro p
    rw [List.foldl_cons, (ih _ h1).2 p, Message_queue.of_prio_insert m init p h]
    by_cases hp : m.prio = p <;> simp [of_prio, hp, List.filter_cons]

theorem Message_queue.length_insert (m : Message) (l : List Message) :
    (Message_queue.insert m l).length = l.length + 1 := by
  induction l with
  | nil => simp [Message_queue.insert]
  | cons x xs ih =>
    unfold Message_queue.insert
    split <;> simp [ih]

/-! ### Sends and receives against the modelled kernel -/

theorem World.read_congr (w w1 : World) (h : w1.mem = w.mem) (a n : Nat) :
    w1.read a n = w.read a n := by
  simp [World.read, h]

theorem World.length_read (w : World) (a n : Nat) : (w.read a n).length = n := by
  simp [World.read]

/-- A send of a message of the size of the queue to a queue that is not full: the memory
is unchanged and the message is inserted. -/
theorem send_step (w : World) (mqueue : Param) (q : Message_queue) (m : Sending)
    (hq : w.queues.lookup mqueue.loc = some q) (hfull : q.slots.length < q.capacity) :
    ((if m.use_try then os_mqueue_try_send mqueue m.msg q.msg_size m.mprio
        else os_mqueue_send mqueue m.msg q.msg_size m.mprio).run World.kernel w).state.mem =
        w.mem ∧
      ((if m.use_try then os_mqueue_try_send mqueue m.msg q.msg_size m.mprio
        else os_mqueue_send mqueue m.msg q.msg_size m.mprio).run World.kernel
          w).state.queues.lookup mqueue.loc =
        some { q with
          slots := Message_queue.insert ⟨w.read m.msg q.msg_size, m.mprio⟩ q.slots } := by
  have hnf : ¬ (q.capacity ≤ q.slots.length) := by omega
  cases m.use_try <;>
    simp [os_mqueue_try_send, os_mqueue_send, run_invoke_bind, World.kernel, hq, World.send,
      Message_queue.is_full, Message_queue.enqueue, World.set_queue, World.length_read, hnf,
      Prog.run]

/-- After a sequence of sends to a queue with room for them, the memory is unchanged and
the queue holds the messages, inserted in the order they were sent. -/
theorem send_each_spec (mqueue : Param) (msgs : List Sending) (w : World)
    (q : Message_queue) (hq : w.queues.lookup mqueue.loc = some q)
    (hcap : q.slots.length + msgs.length ≤ q.capacity) :
    (send_each mqueue q.msg_size msgs w).mem = w.mem ∧
      (send_each mqueue q.msg_size msgs w).queues.lookup mqueue.loc =
        some { q with
          slots := (sent_messages w q.msg_size msgs).foldl
            (fun sl m => Message_queue.insert m sl) q.slots } := by
  induction msgs generalizing w q with
  | nil => simp [send_each, sent_messages, hq]
  | cons m rest ih =>
    have hlt : q.slots.length < q.capacity := by
      simp only [List.length_cons] at hcap
      omega
    obtain ⟨hm, hl⟩ := send_step w mqueue q m hq hlt
    have hcap1 : (Message_queue.insert ⟨w.read m.msg q.msg_size, m.mprio⟩ q.slots).length +
        rest.length ≤ q.capacity := by
      rw [Message_queue.length_insert]
      simp only [List.length_cons] at hcap
      omega
    have := ih _ { q with
      slots := Message_queue.insert ⟨w.read m.msg q.msg_size, m.mprio⟩ q.slots } hl hcap1
    simp only [send_each]
    refine ⟨this.1.trans hm, ?_⟩
    rw [this.2]
    simp [sent_messages, World.read_congr _ _ hm]

/-- A receive from a queue that is not empty, into a buffer of the size of its first
message and with a priority pointer outside the buffer: the first message leaves the
queue, its bytes are in the buffer and its priority is at the pointer. -/
theorem receive_step (w : World) (mqueue : Param) (q : Message_queue) (m : Message)
    (rest : List Message) (use_try : Bool) (buf n pr : Nat)
    (hq : w.queues.lookup mqueue.loc = some q) (hs : q.slots = m :: rest)
    (hlen : m.bytes.length = n) (hprio : 0 ≤ m.prio) (hpr : pr ≠ 0)
    (hout : pr < buf ∨ buf + n ≤ pr) :
    ((if use_try then os_mqueue_try_receive mqueue buf n pr
        else os_mqueue_receive mqueue buf n pr).run World.kernel
          w).state.queues.lookup mqueue.loc = some { q with slots := rest } ∧
      (⟨((if use_try then os_mqueue_try_receive mqueue buf n pr
          else os_mqueue_receive mqueue buf n pr).run World.kernel w).state.read buf n,
        ((if use_try then os_mqueue_try_receive mqueue buf n pr
          else os_mqueue_receive mqueue buf n pr).run World.kernel w).state.mem pr⟩ :
        Message) = m := by
  have hst : ∀ b : Bool,
      ((if b then os_mqueue_try_receive mqueue buf n pr
        else os_mqueue_receive mqueue buf n pr).run World.kernel w).state =
      ((w.set_queue mqueue.loc { q with slots := rest }).write pr [m.prio.toNat]).write buf
        m.bytes := by
    intro b
    cases b <;>
      simp [os_mqueue_try_receive, os_mqueue_receive, run_invoke_bind, World.kernel, hq,
        World.receive, World.prio_ptr, hs, hpr, Prog.run]
  rw [hst use_try]
  refine ⟨by simp [World.write, World.set_queue], ?_⟩
  obtain ⟨bytes, prio⟩ := m
  simp only [Message.mk.injEq]
  simp only at hlen hprio
  constructor
  · apply List.ext_getElem
    · simp [World.read, hlen]
    · intro i h1 h2
      have hi : i < n := by simpa [World.read] using h1
      simp [World.read, World.write, hlen, hi, h2]
  · have hno : ¬ (buf ≤ pr ∧ pr < buf + bytes.length) := by omega
    simp [World.write, World.set_queue, hno]
    omega

/-- As many receives as the queue holds messages deliver its messages, from the first
slot on. -/
theorem receive_each_spec (mqueue : Param) (use_try : Bool) (buf n pr : Nat)
    (slots : List Message) (w : World) (q : Message_queue)
    (hq : w.queues.lookup mqueue.loc = some q) (hs : q.slots = slots)
    (hall : ∀ m ∈ slots, m.bytes.length = n ∧ 0 ≤ m.prio) (hpr : pr ≠ 0)
    (hout : pr < buf ∨ buf + n ≤ pr) :
    receive_each mqueue use_try buf n pr slots.length w = slots := by
  induction slots generalizing w q with
  | nil => simp [receive_each]
  | cons m rest ih =>
    obtain ⟨hl, hm⟩ := receive_step w mqueue q m rest use_try buf n pr hq hs
      (hall m (List.mem_cons_self _ _)).1 (hall m (List.mem_cons_self _ _)).2 hpr hout
    simp only [List.length_cons, receive_each]
    rw [hm, ih _ { q with slots := rest } hl rfl
      (fun x hx => hall x (List.mem_cons_of_mem _ hx))]

theorem Message_queue.mem_foldl_insert (sent init : List Message) (y : Message)
    (h : y ∈ sent.foldl (fun sl m => Message_queue.insert m sl) init) :
    y ∈ init ∨ y ∈ sent := by
  induction sent generalizing init with
  | nil => exact Or.inl h
  | cons m rest ih =>
    rcases ih _ h with h1 | h1
    · rcases (Message_queue.mem_insert m y init).mp h1 with rfl | h2
      · exact Or.inr (List.mem_cons_self _ _)
      · exact Or.inl h2
    · exact Or.inr (List.mem_cons_of_mem _ h1)

theorem Message_queue.length_foldl_insert (sent init : List Message) :
    (sent.foldl (fun sl m => Message_queue.insert m sl) init).length =
      init.length + sent.length := by
  induction sent generalizing init with
  | nil => simp
  | cons m rest ih =>
    rw [List.foldl_cons, ih, Message_queue.length_insert, List.length_cons]
    omega

/-- The queue of the modelled kernel delivers by priority. The queue is the object that the
four calls are made on, at the address `mqueue.loc`. Messages of the size of the queue are
sent with `os_mqueue_send` or `os_mqueue_try_send` to that queue, empty and with room for
all of them; then as many `os_mqueue_receive` or `os_mqueue_try_receive` are made,
each into the buffer `buf` and with the priority pointer `pr`, not null and outside the
buffer. The messages delivered are in non-increasing order of priority, and, for each
priority, the messages delivered with it are the messages sent with it, in the order
they were sent. -/
theorem priority_delivery_at_called_object (w : World) (mqueue : Param) (capacity msg_size : Nat)
    (msgs : List Sending) (use_try : Bool) (buf pr : Nat)
    (hq : w.queues.lookup mqueue.loc = some ⟨capacity, msg_size, []⟩)
    (hcap : msgs.length ≤ capacity) (hpr : pr ≠ 0)
    (hout : pr < buf ∨ buf + msg_size ≤ pr) :
    NonIncreasing
        (receive_each mqueue use_try buf msg_size pr msgs.length
          (send_each mqueue msg_size msgs w)) ∧
      ∀ p, of_prio p
          (receive_each mqueue use_try buf msg_size pr msgs.length
            (send_each mqueue msg_size msgs w)) =
        of_prio p (sent_messages w msg_size msgs) := by
  obtain ⟨-, hl⟩ := send_each_spec mqueue msgs w ⟨capacity, msg_size, []⟩ hq
    (by simpa using hcap)
  have hlen : ((sent_messages w msg_size msgs).foldl
      (fun sl m => Message_queue.insert m sl) []).length = msgs.length := by
    rw [Message_queue.length_foldl_insert]
    simp [sent_messages]
  have hall : ∀ m ∈ (sent_messages w msg_size msgs).foldl
      (fun sl m => Message_queue.insert m sl) [], m.bytes.length = msg_size ∧ 0 ≤ m.prio := by
    intro m hm
    rcases Message_queue.mem_foldl_insert _ _ m hm with h | h
    · simp at h
    · simp only [sent_messages, List.mem_map] at h
      obtain ⟨x, -, rfl⟩ := h
      simp [World.length_read]
  have hrecv := receive_each_spec mqueue use_try buf msg_size pr _ _ _ hl rfl hall hpr hout
  rw [hlen] at hrecv
  simp only at hrecv
  rw [hrecv]
  have := Message_queue.foldl_insert (sent_messages w msg_size msgs) []
    (by simp [NonIncreasing])
  refine ⟨this.1, fun p => ?_⟩
  rw [this.2 p]
  simp [of_prio]

/-- C17 (code at the failing input): the queue is built by
`os_mqueue_create (mqueue, attr, 4, 4)` at `0x20000000`, the storage the handle points to
(`world_created`). The four messages of `sends0`, of priorities 1, 5, 3, 5, are sent
through the same handle: `os_mqueue_send` and `os_mqueue_try_send` make their call on the
object at `0x2000FF00`, the parameter variable, where no queue lives; each send fails with
`result::error_parameter` (`0x80`) and the queue at `0x20000000` stays empty. A receive
through the handle is made on the object at `0x2000FF00` as well and fails; no message is
delivered, and the buffer and the priority keep what they held. -/
theorem C17_sends_miss_the_created_queue :
    ((os_mqueue_create handle0 0 4 4).run World.kernel world_created).log.map Call.this =
      [some 0x20000000] ∧
    world_created.queues.lookup 0x20000000 = some ⟨4, 4, []⟩ ∧
    world_created.queues.lookup 0x2000FF00 = none ∧
    ((os_mqueue_try_send handle0 0x10 4 1).run World.kernel world_created).log =
      [⟨Op.Message_queue_try_send, some 0x2000FF00, [Arg.ptr 0x10, Arg.val 4, Arg.val 1]⟩] ∧
    ((os_mqueue_try_send handle0 0x10 4 1).run World.kernel world_created).ret =
      some 0x80 ∧
    ((os_mqueue_send handle0 0x20 4 5).run World.kernel world_created).log =
      [⟨Op.Message_queue_send, some 0x2000FF00, [Arg.ptr 0x20, Arg.val 4, Arg.val 5]⟩] ∧
    ((os_mqueue_send handle0 0x20 4 5).run World.kernel world_created).ret = some 0x80 ∧
    (send_each handle0 4 sends0 world_created).queues.lookup 0x20000000 =
      some ⟨4, 4, []⟩ ∧
    ((os_mqueue_try_receive handle0 0x100 4 0x200).run World.kernel
        (send_each handle0 4 sends0 world_created)).log =
      [⟨Op.Message_queue_try_receive, some 0x2000FF00,
        [Arg.ptr 0x100, Arg.val 4, Arg.ptr 0x200]⟩] ∧
    ((os_mqueue_try_receive handle0 0x100 4 0x200).run World.kernel
        (send_each handle0 4 sends0 world_created)).ret = some 0x80 ∧
    ((os_mqueue_receive handle0 0x100 4 0x200).run World.kernel
        (send_each handle0 4 sends0 world_created)).ret = some 0x80 ∧
    receive_each handle0 true 0x100 4 0x200 4 (send_each handle0 4 sends0 world_created) =
      [⟨[0, 1, 2, 3], 0⟩, ⟨[0, 1, 2, 3], 0⟩, ⟨[0, 1, 2, 3], 0⟩, ⟨[0, 1, 2, 3], 0⟩] ∧
    world_created.read 0x100 4 = [0, 1, 2, 3] ∧ world_created.mem 0x200 = 0 ∧
    result.error_parameter = 0x80 ∧ result.ok ≠ 0x80 := by
  decide

/-! ### The priority inheritance of the modelled mutexes -/

namespace inheritance

variable {n k : Nat}

@[simp] theorem effective_set_effective (s : Sys n k) (t i : Fin n) (p : Int) :
    ((s.set_effective t p).thread i).effective =
      if i = t then p else (s.thread i).effective := by
  unfold Sys.set_effective Sys.set_thread
  by_cases h : i = t <;> simp [h]

@[simp] theorem waiting_set_effective (s : Sys n k) (t i : Fin n) (p : Int) :
    ((s.set_effective t p).thread i).waiting = (s.thread i).waiting := by
  unfold Sys.set_effective Sys.set_thread
  by_cases h : i = t <;> simp [h]

@[simp] theorem stable_set_effective (s : Sys n k) (t i : Fin n) (p : Int) :
    ((s.set_effective t p).thread i).stable = (s.thread i).stable := by
  unfold Sys.set_effective Sys.set_thread
  by_cases h : i = t <;> simp [h]

@[simp] theorem mutex_set_effective (s : Sys n k) (t : Fin n) (p : Int) :
    (s.set_effective t p).mutex = s.mutex := rfl

@[simp] theorem effective_set_stable (s : Sys n k) (t i : Fin n) (p : Int) :
    ((s.set_stable t p).thread i).effective = (s.thread i).effective := by
  unfold Sys.set_stable Sys.set_thread
  by_cases h : i = t <;> simp [h]

@[simp] theorem waiting_set_stable (s : Sys n k) (t i : Fin n) (p : Int) :
    ((s.set_stable t p).thread i).waiting = (s.thread i).waiting := by
  unfold Sys.set_stable Sys.set_thread
  by_cases h : i = t <;> simp [h]

@[simp] theorem mutex_set_stable (s : Sys n k) (t : Fin n) (p : Int) :
    (s.set_stable t p).mutex = s.mutex := rfl

@[simp] theorem effective_set_waiting (s : Sys n k) (t i : Fin n) (w : Option (Fin k)) :
    ((s.set_waiting t w).thread i).effective = (s.thread i).effective := by
  unfold Sys.set_waiting Sys.set_thread
  by_cases h : i = t <;> simp [h]

@[simp] theorem waiting_set_waiting (s : Sys n k) (t i : Fin n) (w : Option (Fin k)) :
    ((s.set_waiting t w).thread i).waiting = if i = t then w else (s.thread i).waiting := by
  unfold Sys.set_waiting Sys.set_thread
  by_cases h : i = t <;> simp [h]

@[simp] theorem mutex_set_waiting (s : Sys n k) (t : Fin n) (w : Option (Fin k)) :
    (s.set_waiting t w).mutex = s.mutex := rfl

@[simp] theorem thread_set_owner (s : Sys n k) (m : Fin k) (o : Option (Fin n)) :
    (s.set_owner m o).thread = s.thread := rfl

@[simp] theorem owner_set_owner (s : Sys n k) (m j : Fin k) (o : Option (Fin n)) :
    ((s.set_owner m o).mutex j).owner = if j = m then o else (s.mutex j).owner := by
  unfold Sys.set_owner Sys.set_mutex
  by_cases h : j = m <;> simp [h]

@[simp] theorem protocol_set_owner (s : Sys n k) (m j : Fin k) (o : Option (Fin n)) :
    ((s.set_owner m o).mutex j).protocol = (s.mutex j).protocol := by
  unfold Sys.set_owner Sys.set_mutex
  by_cases h : j = m <;> simp [h]

@[simp] theorem prio_ceiling_set_owner (s : Sys n k) (m j : Fin k) (o : Option (Fin n)) :
    ((s.set_owner m o).mutex j).prio_ceiling = (s.mutex j).prio_ceiling := by
  unfold Sys.set_owner Sys.set_mutex
  by_cases h : j = m <;> simp [h]

/-- Raising the effective priority of a thread that is below `p` to `p` leaves fewer
threads below `p`. -/
theorem card_below_set_effective (s : Sys n k) (o : Fin n) (p : Int)
    (h : (s.thread o).effective < p) :
    (Finset.univ.filter (fun i => ((s.set_effective o p).thread i).effective < p)).card <
      (Finset.univ.filter (fun i => (s.thread i).effective < p)).card := by
  apply Finset.card_lt_card
  rw [Finset.ssubset_iff_of_subset]
  · refine ⟨o, by simp [h], by simp⟩
  · intro i hi
    simp only [Finset.mem_filter, Finset.mem_univ, true_and, effective_set_effective] at hi ⊢
    by_cases hio : i = o
    · simp [hio] at hi
    · simpa [hio] using hi

/-- The walk re-establishes the invariant, when it has fuel for every thread below
`p`. -/
theorem boost_inv (fuel : Nat) (s : Sys n k) (m : Fin k) (p : Int) (h : Almost s m p)
    (hf : (Finset.univ.filter (fun i => (s.thread i).effective < p)).card < fuel) :
    Inv (s.boost fuel m p) := by
  induction fuel generalizing s m with
  | zero => omega
  | succ fuel ih =>
    unfold Sys.boost
    split
    · rename_i hproto
      split
      · rename_i hown
        intro u m1 hu
        obtain ⟨o, ho, hle⟩ := h u m1 hu
        refine ⟨o, ho, fun hp => ?_⟩
        rcases hle hp with h1 | ⟨rfl, -⟩
        · exact h1
        · rw [hown] at ho
          cases ho
      · rename_i o hown
        split
        · rename_i hpo
          intro u m1 hu
          obtain ⟨o1, ho1, hle⟩ := h u m1 hu
          refine ⟨o1, ho1, fun hp => ?_⟩
          rcases hle hp with h1 | ⟨rfl, h2⟩
          · exact h1
          · rw [hown] at ho1
            cases ho1
            omega
        · rename_i hpo
          have hlt : (s.thread o).effective < p := by omega
          split
          · rename_i hwait
            intro u m1 hu
            simp only [waiting_set_effective] at hu
            obtain ⟨o1, ho1, hle⟩ := h u m1 hu
            refine ⟨o1, by simpa using ho1, fun hp => ?_⟩
            have huo : u ≠ o := by
              rintro rfl
              rw [hwait] at hu
              cases hu
            simp only [effective_set_effective, huo, if_false, mutex_set_effective] at hp ⊢
            rcases hle hp with h1 | ⟨rfl, h2⟩
            · by_cases ho : o1 = o
              · simp only [ho, if_true]
                rw [ho] at h1
                omega
              · simpa [ho] using h1
            · rw [hown] at ho1
              cases ho1
              simpa using h2
          · rename_i m2 hwait
            apply ih
            · intro u m1 hu
              simp only [waiting_set_effective] at hu
              obtain ⟨o1, ho1, hle⟩ := h u m1 hu
              refine ⟨o1, by simpa using ho1, fun hp => ?_⟩
              simp only [effective_set_effective, mutex_set_effective] at hp ⊢
              by_cases huo : u = o
              · right
                subst huo
                rw [hwait] at hu
                cases hu
                simp
              · left
                simp only [huo, if_false]
                rcases hle hp with h1 | ⟨rfl, h2⟩
                · by_cases ho : o1 = o
                  · simp only [ho, if_true]
                    rw [ho] at h1
                    omega
                  · simpa [ho] using h1
                · rw [hown] at ho1
                  cases ho1
                  simpa using h2
            · have := card_below_set_effective s o p hlt
              omega
    · rename_i hproto
      intro u m1 hu
      obtain ⟨o, ho, hle⟩ := h u m1 hu
      refine ⟨o, ho, fun hp => ?_⟩
      rcases hle hp with h1 | ⟨rfl, -⟩
      · exact h1
      · exact absurd hp hproto

theorem foldl_max_ge {α : Type} (l : List α) (c : α → Prop) [DecidablePred c]
    (f : α → Int) (init : Int) :
    init ≤ l.foldl (fun acc u => if c u then max acc (f u) else acc) init ∧
      ∀ u ∈ l, c u → f u ≤ l.foldl (fun acc u => if c u then max acc (f u) else acc) init := by
  induction l generalizing init with
  | nil => simp
  | cons x xs ih =>
    simp only [List.foldl_cons, List.mem_cons]
    by_cases hx : c x
    · simp only [hx, if_true]
      obtain ⟨h1, h2⟩ := ih (max init (f x))
      refine ⟨le_trans (le_max_left _ _) h1, ?_⟩
      rintro u (rfl | hu) hc
      · exact le_trans (le_max_right _ _) h1
      · exact h2 u hu hc
    · simp only [hx, if_false]
      obtain ⟨h1, h2⟩ := ih init
      refine ⟨h1, ?_⟩
      rintro u (rfl | hu) hc
      · exact absurd hc hx
      · exact h2 u hu hc

/-- The recomputed priority is at least the effective priority of every thread blocked
on a mutex that the thread owns. -/
theorem le_recomputed (s : Sys n k) (t u : Fin n) (m : Fin k)
    (hu : (s.thread u).waiting = some m) (ho : (s.mutex m).owner = some t) :
    (s.thread u).effective ≤ s.with_ceilings t (s.inherited t) := by
  have h1 : (s.thread u).effective ≤ s.inherited t := by
    unfold Sys.inherited
    refine (foldl_max_ge (List.finRange n) (fun u => s.waits_on_owned t u = true)
      (fun u => (s.thread u).effective) _).2 u (List.mem_finRange u) ?_
    simp [Sys.waits_on_owned, hu, ho]
  have h2 : s.inherited t ≤ s.with_ceilings t (s.inherited t) := by
    unfold Sys.with_ceilings
    exact (foldl_max_ge (List.finRange k)
      (fun m => (s.mutex m).owner = some t ∧ (s.mutex m).protocol = mutex.protocol.protect)
      (fun m => (s.mutex m).prio_ceiling) _).1
  omega

/-- Recomputing the effective priority of a thread that is not blocked establishes the
invariant, when it held but for the mutexes that the thread owns. -/
theorem recompute_inv (s : Sys n k) (t : Fin n) (h : Except s t)
    (ht : (s.thread t).waiting = none) : Inv (s.recompute t) := by
  intro u m hu
  unfold Sys.recompute at hu ⊢
  simp only [waiting_set_effective] at hu
  obtain ⟨o, ho, hle⟩ := h u m hu
  refine ⟨o, by simpa using ho, fun hp => ?_⟩
  have hut : u ≠ t := by
    rintro rfl
    rw [ht] at hu
    cases hu
  simp only [effective_set_effective, hut, if_false, mutex_set_effective] at hp ⊢
  by_cases hot : o = t
  · subst hot
    simp only [if_true]
    exact le_recomputed s o u m hu ho
  · simp only [hot, if_false]
    rcases hle hp with h1 | h1
    · exact h1
    · exact absurd h1 hot

/-- A thread that is not blocked acquires a mutex that nobody is blocked on. -/
theorem acquire_inv (s : Sys n k) (t : Fin n) (m : Fin k) (h : Inv s)
    (ht : (s.thread t).waiting = none)
    (hm : ∀ u, (s.thread u).waiting = some m →
      (s.thread u).effective ≤ (s.thread t).effective) :
    Inv (s.acquire t m) := by
  intro u m1 hu
  unfold Sys.acquire at hu ⊢
  split at hu
  · rename_i hprot
    simp only [hprot, if_true]
    simp only [waiting_set_effective, thread_set_owner] at hu
    have hut : u ≠ t := by
      rintro rfl
      rw [ht] at hu
      cases hu
    obtain ⟨o, ho, hle⟩ := h u m1 hu
    by_cases hm1 : m1 = m
    · subst hm1
      refine ⟨t, by simp, fun hp => ?_⟩
      simp only [protocol_set_owner, mutex_set_effective] at hp
      rw [hprot] at hp
      cases hp
    · refine ⟨o, by simp [hm1, ho], fun hp => ?_⟩
      simp only [protocol_set_owner, mutex_set_effective] at hp
      simp only [effective_set_effective, thread_set_owner, hut, if_false]
      have := hle hp
      by_cases hot : o = t
      · subst hot
        simp only [if_true]
        exact le_trans this (le_max_left _ _)
      · simpa [hot] using this
  · rename_i hprot
    simp only [hprot, if_false]
    simp only [thread_set_owner] at hu
    obtain ⟨o, ho, hle⟩ := h u m1 hu
    by_cases hm1 : m1 = m
    · subst hm1
      exact ⟨t, by simp, fun _ => hm u hu⟩
    · exact ⟨o, by simp [hm1, ho], fun hp => hle (by simpa using hp)⟩

theorem card_below_le (s : Sys n k) (p : Int) :
    (Finset.univ.filter (fun i => (s.thread i).effective < p)).card < n + 1 := by
  have := Finset.card_le_univ (Finset.univ.filter (fun i : Fin n => (s.thread i).effective < p))
  simp only [Fintype.card_fin] at this
  omega

theorem highest_some (s : Sys n k) (m : Fin k) (w : Fin n) (h : s.highest m = some w) :
    (s.thread w).waiting = some m ∧
      ∀ u, (s.thread u).waiting = some m →
        (s.thread u).effective ≤ (s.thread w).effective := by
  unfold Sys.highest at h
  have hmem := List.argmax_mem (Option.mem_def.mpr h)
  simp only [List.mem_filter, List.mem_finRange, true_and, decide_eq_true_eq] at hmem
  refine ⟨hmem, fun u hu => ?_⟩
  exact List.le_of_mem_argmax (f := fun u => (s.thread u).effective)
    (by simp [List.mem_filter, List.mem_finRange, hu]) (Option.mem_def.mpr h)

theorem highest_none (s : Sys n k) (m : Fin k) (h : s.highest m = none) (u : Fin n) :
    (s.thread u).waiting ≠ some m := by
  unfold Sys.highest at h
  rw [List.argmax_eq_none] at h
  intro hu
  have : u ∈ (List.finRange n).filter (fun u => decide ((s.thread u).waiting = some m)) := by
    simp [List.mem_filter, List.mem_finRange, hu]
  rw [h] at this
  cases this

theorem release_inv (s : Sys n k) (t : Fin n) (h : Inv s) : Inv (s.set_waiting t none) := by
  intro u m hu
  simp only [waiting_set_waiting] at hu
  by_cases hut : u = t
  · simp [hut] at hu
  · simp only [hut, if_false] at hu
    obtain ⟨o, ho, hle⟩ := h u m hu
    exact ⟨o, by simpa using ho, fun hp => by simpa using hle (by simpa using hp)⟩

theorem lock_inv (s : Sys n k) (t : Fin n) (m : Fin k) (h : Inv s) : Inv (lock s t m) := by
  unfold lock
  split
  · exact h
  · rename_i ht
    split
    · rename_i hown
      refine acquire_inv s t m h ht (fun u hu => ?_)
      obtain ⟨o, ho, -⟩ := h u m hu
      rw [hown] at ho
      cases ho
    · rename_i o hown
      split
      · exact h
      · apply boost_inv
        · intro u m1 hu
          simp only [waiting_set_waiting] at hu
          by_cases hut : u = t
          · subst hut
            simp only [if_true, Option.some.injEq] at hu
            subst hu
            exact ⟨o, by simpa using hown, fun _ => Or.inr ⟨rfl, by simp⟩⟩
          · simp only [hut, if_false] at hu
            obtain ⟨o1, ho1, hle⟩ := h u m1 hu
            exact ⟨o1, by simpa using ho1,
              fun hp => Or.inl (by simpa using hle (by simpa using hp))⟩
        · exact card_below_le _ _

theorem try_lock_inv (s : Sys n k) (t : Fin n) (m : Fin k) (h : Inv s) :
    Inv (try_lock s t m) := by
  unfold try_lock
  split
  · exact h
  · rename_i ht
    split
    · rename_i hown
      refine acquire_inv s t m h ht (fun u hu => ?_)
      obtain ⟨o, ho, -⟩ := h u m hu
      rw [hown] at ho
      cases ho
    · exact h

theorem except_of_inv (s : Sys n k) (t : Fin n) (h : Inv s) : Except s t := by
  intro u m hu
  obtain ⟨o, ho, hle⟩ := h u m hu
  exact ⟨o, ho, fun hp => Or.inl (hle hp)⟩

theorem unlock_inv (s : Sys n k) (t : Fin n) (m : Fin k) (h : Inv s) :
    Inv (unlock s t m) := by
  unfold unlock
  split
  · exact h
  · rename_i ht
    split
    · rename_i hown
      split
      · rename_i hnone
        apply recompute_inv
        · intro u m1 hu
          simp only [thread_set_owner] at hu
          have hne : m1 ≠ m := by
            rintro rfl
            exact highest_none s m1 hnone u hu
          obtain ⟨o, ho, hle⟩ := h u m1 hu
          exact ⟨o, by simp [hne, ho], fun hp => Or.inl (hle (by simpa using hp))⟩
        · simpa using ht
      · rename_i w hw
        obtain ⟨hww, hmax⟩ := highest_some s m w hw
        have hwt : t ≠ w := by
          rintro rfl
          rw [ht] at hww
          cases hww
        apply recompute_inv
        · apply except_of_inv
          apply acquire_inv _ _ _ (release_inv s w h) (by simp)
          intro u hu
          simp only [waiting_set_waiting] at hu
          by_cases huw : u = w
          · simp [huw] at hu
          · simp only [huw, if_false] at hu
            simpa using hmax u hu
        · unfold Sys.acquire
          split <;> simp [hwt, ht]
    · exact h

theorem recompute_almost (s : Sys n k) (t : Fin n) (m : Fin k) (h : Inv s)
    (ht : (s.thread t).waiting = some m) :
    Almost (s.recompute t) m ((s.recompute t).thread t).effective := by
  intro u m1 hu
  unfold Sys.recompute at hu ⊢
  simp only [waiting_set_effective] at hu
  obtain ⟨o, ho, hle⟩ := h u m1 hu
  refine ⟨o, by simpa using ho, fun hp => ?_⟩
  simp only [effective_set_effective, mutex_set_effective, if_true] at hp ⊢
  by_cases hut : u = t
  · subst hut
    rw [ht] at hu
    cases hu
    exact Or.inr ⟨rfl, by simp⟩
  · left
    simp only [hut, if_false]
    by_cases hot : o = t
    · subst hot
      simp only [if_true]
      exact le_recomputed s o u m1 hu ho
    · simpa [hot] using hle hp

theorem set_stable_inv (s : Sys n k) (t : Fin n) (p : Int) (h : Inv s) :
    Inv (s.set_stable t p) := by
  intro u m hu
  simp only [waiting_set_stable] at hu
  obtain ⟨o, ho, hle⟩ := h u m hu
  exact ⟨o, by simpa using ho, fun hp => by simpa using hle (by simpa using hp)⟩

theorem set_prio_inv (s : Sys n k) (t : Fin n) (p : Int) (h : Inv s) :
    Inv (set_prio s t p) := by
  unfold set_prio
  split
  · rename_i ht
    exact recompute_inv _ t (except_of_inv _ t (set_stable_inv s t p h)) (by simpa using ht)
  · rename_i m ht
    exact boost_inv _ _ m _
      (recompute_almost _ t m (set_stable_inv s t p h) (by simpa using ht))
      (card_below_le _ _)

/-- Every event preserves the invariant. -/
theorem step_inv (s : Sys n k) (e : Event n k) (h : Inv s) : Inv (step s e) := by
  cases e with
  | lock t m => exact lock_inv s t m h
  | timed_lock t m => exact lock_inv s t m h
  | try_lock t m => exact try_lock_inv s t m h
  | unlock t m => exact unlock_inv s t m h
  | release t => exact release_inv s t h
  | set_prio t p => exact set_prio_inv s t p h

theorem run_inv (s : Sys n k) (events : List (Event n k)) (h : Inv s) :
    Inv (run s events) := by
  induction events generalizing s with
  | nil => exact h
  | cons e rest ih => exact ih _ (step_inv s e h)

end inheritance

/-- C18: in the system modelled from the specification, from any state in which no thread
is blocked and after any sequence of events (`lock`, `timed_lock`, `try_lock`, `unlock`,
the release of a blocked thread by timeout or cancellation, a change of priority): for
every mutex `m` of protocol `inherit` with owner `o`, and every thread `w` blocked on `m`,
the effective priority of `o` is at least that of `w`. -/
theorem C18_priority_inheritance {n k : Nat} (s0 : inheritance.Sys n k)
    (h0 : ∀ i, (s0.thread i).waiting = none) (events : List (inheritance.Event n k))
    (m : Fin k) (o w : Fin n)
    (hp : ((inheritance.run s0 events).mutex m).protocol = mutex.protocol.inherit)
    (ho : ((inheritance.run s0 events).mutex m).owner = some o)
    (hw : ((inheritance.run s0 events).thread w).waiting = some m) :
    ((inheritance.run s0 events).thread w).effective ≤
      ((inheritance.run s0 events).thread o).effective := by
  have hinit : inheritance.Inv s0 := by
    intro u m1 hu
    rw [h0 u] at hu
    cases hu
  obtain ⟨o1, ho1, hle⟩ := inheritance.run_inv s0 events hinit w m hw
  rw [ho] at ho1
  cases ho1
  exact hle hp

/-- C18 (witness): the first scenario of the specification. L (thread 0, priority 10) takes
the mutex; H (thread 2, priority 30) calls `lock`: H is blocked on the mutex, L owns it,
the effective priority of L is 30, at least that of H; after L unlocks, H owns the
mutex and L is back at 10. -/
theorem C18_priority_inheritance_witness :
    (∀ i, (scenario0.thread i).waiting = none) ∧
    ((inheritance.run scenario0
        [inheritance.Event.lock 0 0, inheritance.Event.lock 2 0]).thread 2).waiting =
      some 0 ∧
    ((inheritance.run scenario0
        [inheritance.Event.lock 0 0, inheritance.Event.lock 2 0]).mutex 0).owner = some 0 ∧
    ((inheritance.run scenario0
        [inheritance.Event.lock 0 0, inheritance.Event.lock 2 0]).thread 0).effective = 30 ∧
    ((inheritance.run scenario0
        [inheritance.Event.lock 0 0, inheritance.Event.lock 2 0]).thread 2).effective ≤
      ((inheritance.run scenario0
        [inheritance.Event.lock 0 0, inheritance.Event.lock 2 0]).thread 0).effective ∧
    ((inheritance.run scenario0
        [inheritance.Event.lock 0 0, inheritance.Event.lock 2 0,
          inheritance.Event.unlock 0 0]).mutex 0).owner = some 2 ∧
    ((inheritance.run scenario0
        [inheritance.Event.lock 0 0, inheritance.Event.lock 2 0,
          inheritance.Event.unlock 0 0]).thread 0).effective = 10 :=
  ⟨by decide, by decide, by decide, by decide,
    C18_priority_inheritance scenario0 (by decide)
      [inheritance.Event.lock 0 0, inheritance.Event.lock 2 0] 0 0 2 (by decide) (by decide)
      (by decide),
    by decide, by decide⟩

/-! ### `PosixIo::close`, `read` and `write` -/

/-- The run of `close`, for every implementation: `errno` is cleared, `doClose` is called,
then `freeFileDescriptor` with the descriptor that the object holds when `doClose` has
returned; the state is the one this call leaves, with `fFileDescriptor` set to
`noFileDescriptor`; the result is the one of `doClose`. -/
theorem PosixIo.close_eq {σ : Type} (impl : PosixIo.Impl σ) (s s1 : PosixIo.State σ)
    (ret : Int) (h : impl.step PosixIo.IoCall.doClose { s with errno := 0 } = (ret, s1)) :
    PosixIo.close impl s =
      (ret,
        { (impl.step (PosixIo.IoCall.freeFileDescriptor s1.fFileDescriptor) s1).2 with
          fFileDescriptor := impl.noFileDescriptor },
        [PosixIo.IoCall.doClose, PosixIo.IoCall.freeFileDescriptor s1.fFileDescriptor]) := by
  simp [PosixIo.close, PosixIo.call, PosixIo.set_errno, PosixIo.set_fFileDescriptor,
    PosixIo.get_fFileDescriptor, bind, pure, h]

/-- The run of `read`, for every implementation: `errno` is cleared and `doRead` is called
with the arguments of `read`; its result and the state it leaves are those of `read`. -/
theorem PosixIo.read_eq {σ : Type} (impl : PosixIo.Impl σ) (buf nbyte : Nat)
    (s : PosixIo.State σ) :
    PosixIo.read impl buf nbyte s =
      ((impl.step (PosixIo.IoCall.doRead buf nbyte) { s with errno := 0 }).1,
        (impl.step (PosixIo.IoCall.doRead buf nbyte) { s with errno := 0 }).2,
        [PosixIo.IoCall.doRead buf nbyte]) := by
  simp [PosixIo.read, PosixIo.call, PosixIo.set_errno, bind]

/-- The run of `write`, for every implementation: `errno` is cleared and `doWrite` is
called with the arguments of `write`; its result and the state it leaves are those of
`write`. -/
theorem PosixIo.write_eq {σ : Type} (impl : PosixIo.Impl σ) (buf nbyte : Nat)
    (s : PosixIo.State σ) :
    PosixIo.write impl buf nbyte s =
      ((impl.step (PosixIo.IoCall.doWrite buf nbyte) { s with errno := 0 }).1,
        (impl.step (PosixIo.IoCall.doWrite buf nbyte) { s with errno := 0 }).2,
        [PosixIo.IoCall.doWrite buf nbyte]) := by
  simp [PosixIo.write, PosixIo.call, PosixIo.set_errno, bind]

/-- C21: for every implementation and every result `ret` of `doClose`, zero or not,
`close` makes two calls, `doClose` and then `freeFileDescriptor` with the descriptor that
the object holds, which is the descriptor held before the call when `doClose` has not
assigned it; afterwards `fFileDescriptor` is `noFileDescriptor`, the value that a freshly
constructed object holds; and `close` returns `ret`. -/
theorem C21_close_releases_descriptor {σ : Type} (impl : PosixIo.Impl σ)
    (s s1 : PosixIo.State σ) (ret errno : Int) (rest : σ)
    (h : impl.step PosixIo.IoCall.doClose { s with errno := 0 } = (ret, s1)) :
    (PosixIo.close impl s).2.2 =
        [PosixIo.IoCall.doClose, PosixIo.IoCall.freeFileDescriptor s1.fFileDescriptor] ∧
      (s1.fFileDescriptor = s.fFileDescriptor →
        (PosixIo.close impl s).2.2 =
          [PosixIo.IoCall.doClose, PosixIo.IoCall.freeFileDescriptor s.fFileDescriptor]) ∧
      (PosixIo.close impl s).2.1.fFileDescriptor = impl.noFileDescriptor ∧
      (PosixIo.close impl s).2.1.fFileDescriptor =
        (PosixIo.ctor impl errno rest).fFileDescriptor ∧
      (PosixIo.close impl s).1 = ret := by
  rw [PosixIo.close_eq impl s s1 ret h]
  refine ⟨rfl, ?_, rfl, rfl, rfl⟩
  intro hkeep
  rw [hkeep]

/-- C21 (witness): an object holding the descriptor 3, the descriptor 4 being free. With
a `doClose` that returns 0, `close` frees 3, leaves -1 in the object and returns 0; with
the `doClose` of `PosixIo.cpp`, which fails, `close` frees 3 all the same, leaves -1 in
the object and returns -1. -/
theorem C21_close_witness :
    ((PosixIo.close (test_impl 0) ⟨3, 22, [4]⟩).2.2 =
        [PosixIo.IoCall.doClose, PosixIo.IoCall.freeFileDescriptor 3] ∧
      (PosixIo.close (test_impl 0) ⟨3, 22, [4]⟩).2.1.fFileDescriptor = -1 ∧
      (PosixIo.close (test_impl 0) ⟨3, 22, [4]⟩).2.1.rest = [3, 4] ∧
      (PosixIo.close (test_impl 0) ⟨3, 22, [4]⟩).1 = 0) ∧
    ((PosixIo.close checked_impl ⟨3, 22, [4]⟩).2.2 =
        [PosixIo.IoCall.doClose, PosixIo.IoCall.freeFileDescriptor 3] ∧
      (PosixIo.close checked_impl ⟨3, 22, [4]⟩).2.1.fFileDescriptor = -1 ∧
      (PosixIo.close checked_impl ⟨3, 22, [4]⟩).2.1.rest = [3, 4] ∧
      (PosixIo.close checked_impl ⟨3, 22, [4]⟩).1 = -1) :=
  have h0 := C21_close_releases_descriptor (test_impl 0) ⟨3, 22, [4]⟩ ⟨3, 0, [4]⟩ 0 0 [] rfl
  have h1 := C21_close_releases_descriptor checked_impl ⟨3, 22, [4]⟩ ⟨3, 88, [4]⟩ (-1) 0 []
    rfl
  ⟨⟨h0.2.1 rfl, h0.2.2.1, by decide, h0.2.2.2.2⟩, ⟨h1.2.1 rfl, h1.2.2.1, by decide, h1.2.2.2.2⟩⟩

/-- C22 (counterexample): the object `checked_impl` overrides none of `doClose`, `doRead`
and `doWrite`. Freshly constructed, with `errno` equal to 5 before the call, its `close ()`
returns -1 and leaves `errno` equal to 9, not to `ENOSYS`, 88: after `doClose` has set
`ENOSYS`, `close` calls `freeFileDescriptor (-1)`, which sets `errno` in its turn. -/
theorem C22_close_errno_after_release :
    PosixIo.NotOverridden 88 checked_impl ∧
    (PosixIo.close checked_impl (PosixIo.ctor checked_impl 5 [3, 4])).1 = -1 ∧
    (PosixIo.close checked_impl (PosixIo.ctor checked_impl 5 [3, 4])).2.2 =
      [PosixIo.IoCall.doClose, PosixIo.IoCall.freeFileDescriptor (-1)] ∧
    (PosixIo.close checked_impl (PosixIo.ctor checked_impl 5 [3, 4])).2.1.errno = 9 ∧
    ¬ ((PosixIo.close checked_impl (PosixIo.ctor checked_impl 5 [3, 4])).1 = -1 ∧
      (PosixIo.close checked_impl (PosixIo.ctor checked_impl 5 [3, 4])).2.1.errno = 88) :=
  ⟨⟨fun _ => rfl, fun _ _ _ => rfl, fun _ _ _ => rfl⟩, by decide, by decide, by decide,
    by decide⟩

/-- C22 (amended): on an object that overrides none of `doRead`, `doWrite` and `doClose`,
for every `buf` and `nbyte` and whatever `errno` held before the call, `read` and `write`
make the one call `doRead`, `doWrite`, return -1 and leave `errno` equal to `ENOSYS`, and
nothing else changed. `close ()` returns -1; `errno` is `ENOSYS` when `doClose` has
returned, `close` then calls `freeFileDescriptor`, and `errno` after `close ()` is what this
call leaves: `ENOSYS` when `freeFileDescriptor`, for the descriptor of the object, does not
set `errno`. -/
theorem C22_unimplemented_reports_ENOSYS {σ : Type} (ENOSYS : Int) (impl : PosixIo.Impl σ)
    (hdef : PosixIo.NotOverridden ENOSYS impl) (buf nbyte : Nat) (s : PosixIo.State σ) :
    PosixIo.read impl buf nbyte s =
        (-1, { s with errno := ENOSYS }, [PosixIo.IoCall.doRead buf nbyte]) ∧
      PosixIo.write impl buf nbyte s =
        (-1, { s with errno := ENOSYS }, [PosixIo.IoCall.doWrite buf nbyte]) ∧
      (PosixIo.close impl s).1 = -1 ∧
      (PosixIo.close impl s).2.2 =
        [PosixIo.IoCall.doClose, PosixIo.IoCall.freeFileDescriptor s.fFileDescriptor] ∧
      (PosixIo.close impl s).2.1.errno =
        (impl.step (PosixIo.IoCall.freeFileDescriptor s.fFileDescriptor)
          { s with errno := ENOSYS }).2.errno ∧
      ((∀ t, (impl.step (PosixIo.IoCall.freeFileDescriptor s.fFileDescriptor) t).2.errno =
          t.errno) →
        (PosixIo.close impl s).2.1.errno = ENOSYS) := by
  obtain ⟨hclose, hread, hwrite⟩ := hdef
  have hc : PosixIo.close impl s =
      (-1,
        { (impl.step (PosixIo.IoCall.freeFileDescriptor s.fFileDescriptor)
            { s with errno := ENOSYS }).2 with fFileDescriptor := impl.noFileDescriptor },
        [PosixIo.IoCall.doClose, PosixIo.IoCall.freeFileDescriptor s.fFileDescriptor]) :=
    PosixIo.close_eq impl s { s with errno := ENOSYS } (-1)
      (by rw [hclose]; rfl)
  refine ⟨?_, ?_, ?_, ?_, ?_, ?_⟩
  · rw [PosixIo.read_eq, hread]
    rfl
  · rw [PosixIo.write_eq, hwrite]
    rfl
  · rw [hc]
  · rw [hc]
  · rw [hc]
  · intro hfree
    rw [hc]
    exact hfree _

/-- C22 (witness): the object `checked_impl` holding the descriptor 3, with `errno` equal
to 22 before each call: `read` and `write` return -1 and leave `errno` equal to 88,
`ENOSYS`; `close ()` returns -1, frees the descriptor 3, and leaves `errno` equal to 88. -/
theorem C22_unimplemented_witness :
    PosixIo.read checked_impl 0x1000 16 ⟨3, 22, [4]⟩ =
        (-1, ⟨3, 88, [4]⟩, [PosixIo.IoCall.doRead 0x1000 16]) ∧
      PosixIo.write checked_impl 0x1000 16 ⟨3, 22, [4]⟩ =
        (-1, ⟨3, 88, [4]⟩, [PosixIo.IoCall.doWrite 0x1000 16]) ∧
      (PosixIo.close checked_impl ⟨3, 22, [4]⟩).1 = -1 ∧
      (PosixIo.close checked_impl ⟨3, 22, [4]⟩).2.2 =
        [PosixIo.IoCall.doClose, PosixIo.IoCall.freeFileDescriptor 3] ∧
      (PosixIo.close checked_impl ⟨3, 22, [4]⟩).2.1.errno = 88 :=
  have h := C22_unimplemented_reports_ENOSYS 88 checked_impl
    ⟨fun _ => rfl, fun _ _ _ => rfl, fun _ _ _ => rfl⟩ 0x1000 16 ⟨3, 22, [4]⟩
  ⟨h.1, h.2.1, h.2.2.1, h.2.2.2.1, h.2.2.2.2.2 (fun _ => rfl)⟩

end os
